import Mathlib

/-!
Verification of the Hack VM translator (files `src/main.py` and `src/VMTranslator.py`).

The development has four parts:

* `Hack` — a shallow embedding of the target machine: the subset of Hack
  assembly instructions the translator emits, and a small-step interpreter
  (`Hack.step`, `Hack.run`) over a machine state with registers `A`, `D`,
  a memory `Int → Int` and a program counter.  Computations are wrapped to
  16-bit two's complement via `w16`.
* `DecimalRepr` — injectivity of `Nat.repr`, needed to show that the
  generated labels `TRUE_i`, `END_i`, `RETURN_i` are pairwise distinct.
* `VMT` / `MainPy` — the code generators of `src/VMTranslator.py` and
  `src/main.py`, each embedded twice: once at string level (a literal
  transcription of the Python f-strings, used for textual claims) and once
  at instruction level (one `Hack.Instr` per emitted line, used for
  semantic claims).
* the claim theorems.
-/

namespace Hack

/-- Destination field of a Hack C-instruction (only the combinations the
translator emits). -/
inductive Dest where
  | dNone
  | dM
  | dD
  | dA
  | dAM
deriving DecidableEq

/-- Computation field of a Hack C-instruction (only the computations the
translator emits). -/
inductive Comp where
  | zero      -- 0
  | negOne    -- -1
  | cA        -- A
  | cD        -- D
  | cM        -- M
  | negM      -- -M
  | notM      -- !M
  | mPlus1    -- M+1
  | mMinus1   -- M-1
  | aMinus1   -- A-1
  | dPlusA    -- D+A
  | mPlusD    -- M+D
  | mMinusD   -- M-D
  | mAndD     -- M&D
  | mOrD      -- M|D
deriving DecidableEq

/-- Jump field of a Hack C-instruction. -/
inductive Jump where
  | noJump
  | jmp   -- 0;JMP
  | jeq   -- D;JEQ
  | jgt   -- D;JGT
  | jlt   -- D;JLT
deriving DecidableEq

/-- One line of Hack assembly output: numeric or symbolic A-instruction,
C-instruction, label pseudo-instruction, or comment line. -/
inductive Instr where
  | num : Int → Instr
  | sym : String → Instr
  | c : Dest → Comp → Jump → Instr
  | lab : String → Instr
  | comment : String → Instr
deriving DecidableEq

/-- Wrap an integer to 16-bit two's complement. -/
def w16 (x : Int) : Int := (x + 32768) % 65536 - 32768

/-- The 16-bit unsigned bit pattern of an integer. -/
def n16 (x : Int) : Nat := ((x % 65536 + 65536) % 65536).toNat

/-- Bitwise AND on 16-bit two's complement integers. -/
def landI (x y : Int) : Int := w16 (Int.ofNat (Nat.land (n16 x) (n16 y)))

/-- Bitwise OR on 16-bit two's complement integers. -/
def lorI (x y : Int) : Int := w16 (Int.ofNat (Nat.lor (n16 x) (n16 y)))

/-- Value of a computation, given the registers `a`, `d` and the memory word
`m` currently addressed by `A`.  The result is wrapped to 16 bits. -/
def evalComp (cp : Comp) (a d m : Int) : Int :=
  w16 (match cp with
  | .zero => 0
  | .negOne => -1
  | .cA => a
  | .cD => d
  | .cM => m
  | .negM => -m
  | .notM => -m - 1
  | .mPlus1 => m + 1
  | .mMinus1 => m - 1
  | .aMinus1 => a - 1
  | .dPlusA => d + a
  | .mPlusD => m + d
  | .mMinusD => m - d
  | .mAndD => landI m d
  | .mOrD => lorI m d)

/-- Does the destination field write the A register? -/
def Dest.writesA : Dest → Bool
  | .dA => true
  | .dAM => true
  | _ => false

/-- Does the destination field write the memory word addressed by A? -/
def Dest.writesM : Dest → Bool
  | .dM => true
  | .dAM => true
  | _ => false

/-- Does the destination field write the D register? -/
def Dest.writesD : Dest → Bool
  | .dD => true
  | _ => false

/-- Is the jump taken, given the computed value? -/
def condHolds (j : Jump) (v : Int) : Bool :=
  match j with
  | .noJump => false
  | .jmp => true
  | .jeq => decide (v = 0)
  | .jgt => decide (0 < v)
  | .jlt => decide (v < 0)

/-- Is this line a real instruction (occupies a ROM slot)? -/
def isReal : Instr → Bool
  | .lab _ => false
  | .comment _ => false
  | _ => true

/-- The real instructions of a program, in ROM order. -/
def code (p : List Instr) : List Instr := p.filter isReal

/-- Index (in ROM coordinates) of the instruction following a label, that is,
the number of real instructions preceding the label line. -/
def labelIdxAux : List Instr → String → Nat → Option Nat
  | [], _, _ => none
  | .lab t :: rest, s, k => if t = s then some k else labelIdxAux rest s k
  | .comment _ :: rest, s, k => labelIdxAux rest s k
  | _ :: rest, s, k => labelIdxAux rest s (k + 1)

/-- Resolve a label to its ROM address. -/
def labelIdx (p : List Instr) (s : String) : Option Nat := labelIdxAux p s 0

/-- RAM addresses of the built-in register symbols used by the translator. -/
def builtinSym (s : String) : Option Int :=
  if s = "SP" then some 0
  else if s = "LCL" then some 1
  else if s = "ARG" then some 2
  else if s = "THIS" then some 3
  else if s = "THAT" then some 4
  else if s = "R13" then some 13
  else none

/-- Value of a symbolic A-instruction: a built-in register address, a label
address within the program, or (for assembler-allocated variables such as
`Static.3` or external functions such as `Sys.init`) the value assigned by
the environment `env`. -/
def resolveSym (p : List Instr) (env : String → Int) (s : String) : Int :=
  match builtinSym s with
  | some v => v
  | none =>
    match labelIdx p s with
    | some k => Int.ofNat k
    | none => env s

/-- Machine state: registers `A` and `D`, the RAM, and the program counter. -/
structure Mach where
  A : Int
  D : Int
  mem : Int → Int
  pc : Nat

/-- Pointwise memory update. -/
def updMem (f : Int → Int) (a v : Int) : Int → Int :=
  fun x => if x = a then v else f x

/-- One machine step.  When the program counter is past the end of the code
the state is returned unchanged (the machine has halted).  A memory write
uses the value of `A` from the start of the instruction, as on the real
machine. -/
def step (p : List Instr) (env : String → Int) (m : Mach) : Mach :=
  match (code p)[m.pc]? with
  | none => m
  | some (.num n) => ⟨n, m.D, m.mem, m.pc + 1⟩
  | some (.sym s) => ⟨resolveSym p env s, m.D, m.mem, m.pc + 1⟩
  | some (.c d cp j) =>
    let v := evalComp cp m.A m.D (m.mem m.A)
    ⟨if d.writesA then v else m.A,
     if d.writesD then v else m.D,
     if d.writesM then updMem m.mem m.A v else m.mem,
     if condHolds j v then m.A.toNat else m.pc + 1⟩
  | some (.lab _) => m
  | some (.comment _) => m

/-- Run the machine for a given number of steps. -/
def run (p : List Instr) (env : String → Int) : Nat → Mach → Mach
  | 0, m => m
  | k + 1, m => run p env k (step p env m)

theorem run_zero (p : List Instr) (env : String → Int) (m : Mach) :
    run p env 0 m = m := rfl

theorem run_succ (p : List Instr) (env : String → Int) (k : Nat) (m : Mach) :
    run p env (k + 1) m = run p env k (step p env m) := rfl

theorem run_add (p : List Instr) (env : String → Int) (a b : Nat) (m : Mach) :
    run p env (a + b) m = run p env a (run p env b m) := by
  induction b generalizing m with
  | zero => rfl
  | succ b ih =>
    rw [show a + (b + 1) = (a + b) + 1 from rfl, run_succ, run_succ, ih]

theorem step_halted (p : List Instr) (env : String → Int) (m : Mach)
    (h : (code p).length ≤ m.pc) : step p env m = m := by
  unfold step
  rw [List.getElem?_eq_none h]

theorem run_halted (p : List Instr) (env : String → Int) (k : Nat) (m : Mach)
    (h : (code p).length ≤ m.pc) : run p env k m = m := by
  induction k with
  | zero => rfl
  | succ k ih => rw [run_succ, step_halted p env m h, ih]

theorem step_num (p : List Instr) (env : String → Int) (m : Mach) (n : Int)
    (h : (code p)[m.pc]? = some (.num n)) :
    step p env m = ⟨n, m.D, m.mem, m.pc + 1⟩ := by
  unfold step; rw [h]

theorem step_sym (p : List Instr) (env : String → Int) (m : Mach) (s : String)
    (h : (code p)[m.pc]? = some (.sym s)) :
    step p env m = ⟨resolveSym p env s, m.D, m.mem, m.pc + 1⟩ := by
  unfold step; rw [h]

theorem step_dD (p : List Instr) (env : String → Int) (m : Mach) (cp : Comp)
    (h : (code p)[m.pc]? = some (.c .dD cp .noJump)) :
    step p env m = ⟨m.A, evalComp cp m.A m.D (m.mem m.A), m.mem, m.pc + 1⟩ := by
  unfold step; rw [h]; rfl

theorem step_dA (p : List Instr) (env : String → Int) (m : Mach) (cp : Comp)
    (h : (code p)[m.pc]? = some (.c .dA cp .noJump)) :
    step p env m = ⟨evalComp cp m.A m.D (m.mem m.A), m.D, m.mem, m.pc + 1⟩ := by
  unfold step; rw [h]; rfl

theorem step_dM (p : List Instr) (env : String → Int) (m : Mach) (cp : Comp)
    (h : (code p)[m.pc]? = some (.c .dM cp .noJump)) :
    step p env m =
      ⟨m.A, m.D, updMem m.mem m.A (evalComp cp m.A m.D (m.mem m.A)), m.pc + 1⟩ := by
  unfold step; rw [h]; rfl

theorem step_dAM (p : List Instr) (env : String → Int) (m : Mach) (cp : Comp)
    (h : (code p)[m.pc]? = some (.c .dAM cp .noJump)) :
    step p env m =
      ⟨evalComp cp m.A m.D (m.mem m.A), m.D,
       updMem m.mem m.A (evalComp cp m.A m.D (m.mem m.A)), m.pc + 1⟩ := by
  unfold step; rw [h]; rfl

theorem step_br (p : List Instr) (env : String → Int) (m : Mach)
    (cp : Comp) (j : Jump)
    (h : (code p)[m.pc]? = some (.c .dNone cp j)) :
    step p env m =
      ⟨m.A, m.D, m.mem,
       if condHolds j (evalComp cp m.A m.D (m.mem m.A)) then m.A.toNat
       else m.pc + 1⟩ := by
  unfold step; rw [h]; rfl

end Hack

namespace DecimalRepr

/-- Big-endian list of decimal digit characters of a natural number, the
functional specification of `Nat.toDigitsCore`. -/
def decRep (n : Nat) : List Char :=
  if n < 10 then [Nat.digitChar n]
  else decRep (n / 10) ++ [Nat.digitChar (n % 10)]
decreasing_by exact Nat.div_lt_self (by omega) (by omega)

theorem toDigitsCore_eq (fuel n : Nat) (ds : List Char) (h : n < fuel) :
    Nat.toDigitsCore 10 fuel n ds = decRep n ++ ds := by
  induction fuel generalizing n ds with
  | zero => omega
  | succ fuel ih =>
    simp only [Nat.toDigitsCore]
    by_cases h0 : n / 10 = 0
    · have hn : n < 10 := by omega
      rw [if_pos h0, decRep, if_pos hn, Nat.mod_eq_of_lt hn]
      rfl
    · have hge : 10 ≤ n := by
        rcases Nat.lt_or_ge n 10 with hc | hc
        · exact absurd (Nat.div_eq_of_lt hc) h0
        · exact hc
      have hlt : n / 10 < fuel := by
        have h1 : n / 10 < n := Nat.div_lt_self (by omega) (by omega)
        omega
      rw [if_neg h0, ih (n / 10) ((n % 10).digitChar :: ds) hlt]
      conv_rhs => rw [decRep]
      rw [if_neg (by omega : ¬ n < 10), List.append_assoc]
      rfl

/-- Numeric value of a decimal digit character. -/
def digVal (c : Char) : Nat := c.toNat - 48

/-- Numeric value of a big-endian decimal digit string. -/
def listVal (l : List Char) : Nat := l.foldl (fun a c => 10 * a + digVal c) 0

theorem digitChar_toNat : ∀ d : Nat, d < 10 → (Nat.digitChar d).toNat = 48 + d := by
  decide

theorem decRep_val (n : Nat) : listVal (decRep n) = n := by
  induction n using Nat.strong_induction_on with
  | _ n ih =>
    rw [decRep]
    by_cases h : n < 10
    · rw [if_pos h]
      simp [listVal, digVal, digitChar_toNat n h]
    · rw [if_neg h]
      have hv : listVal (decRep (n / 10) ++ [Nat.digitChar (n % 10)]) =
          10 * listVal (decRep (n / 10)) + digVal (Nat.digitChar (n % 10)) := by
        simp [listVal, List.foldl_append]
      rw [hv, ih (n / 10) (Nat.div_lt_self (by omega) (by omega))]
      have hd : digVal (Nat.digitChar (n % 10)) = n % 10 := by
        unfold digVal
        rw [digitChar_toNat (n % 10) (Nat.mod_lt n (by omega))]
        omega
      omega

theorem repr_eq_decRep (n : Nat) : Nat.repr n = (decRep n).asString := by
  unfold Nat.repr Nat.toDigits
  rw [toDigitsCore_eq (n + 1) n [] (by omega), List.append_nil]

theorem repr_injective (m n : Nat) (h : Nat.repr m = Nat.repr n) : m = n := by
  rw [repr_eq_decRep, repr_eq_decRep] at h
  have hd : decRep m = decRep n := by
    have h2 := congrArg String.data h
    simpa [List.asString] using h2
  have h3 := congrArg listVal hd
  rwa [decRep_val, decRep_val] at h3

end DecimalRepr

/-- Is every character a decimal digit? -/
def isDigits (l : List Char) : Bool := l.all (fun c => 47 < c.toNat && c.toNat < 58)

/-- Decimal parse of a token: models Python `int(...)` on the canonical
nonnegative numerals that well-formed VM programs carry (the spec fixes
indices to be nonnegative integers); any other token raises, modelled by
`none`.  Defined over the character list so that it evaluates by kernel
reduction (`String.toNat?` does not). -/
def parseNat? (s : String) : Option Nat :=
  if !s.data.isEmpty && isDigits s.data then some (DecimalRepr.listVal s.data) else none

namespace VMT

open Hack

/-- CodeWriter.writeArithmetic from src/VMTranslator.py (lines 52 to 76).
The result is the emitted string and the updated `label_count`; `none`
models the `raise ValueError` branch for an unrecognized command. -/
def writeArithmetic (command : String) (label_count : Nat) : Option (String × Nat) :=
  if command = "add" ∨ command = "sub" ∨ command = "and" ∨ command = "or" then
    let op := if command = "add" then "+" else if command = "sub" then "-"
      else if command = "and" then "&" else "|"
    some ("@SP\nAM=M-1\nD=M\nA=A-1\nM=M" ++ op ++ "D\n", label_count)
  else if command = "neg" ∨ command = "not" then
    let op := if command = "neg" then "-" else "!"
    some ("@SP\nA=M-1\nM=" ++ op ++ "M\n", label_count)
  else if command = "eq" ∨ command = "gt" ∨ command = "lt" then
    let jump := if command = "eq" then "JEQ" else if command = "gt" then "JGT" else "JLT"
    let label_true := "TRUE_" ++ Nat.repr label_count
    let label_end := "END_" ++ Nat.repr label_count
    some ("@SP\nAM=M-1\nD=M\nA=A-1\nD=M-D\n"
      ++ "@" ++ label_true ++ "\nD;" ++ jump ++ "\n"
      ++ "@SP\nA=M-1\nM=0\n"
      ++ "@" ++ label_end ++ "\n0;JMP\n"
      ++ "(" ++ label_true ++ ")\n@SP\nA=M-1\nM=-1\n"
      ++ "(" ++ label_end ++ ")\n", label_count + 1)
  else none

/-- CodeWriter.writePush from src/VMTranslator.py (lines 78 to 95).  The
`segment_map` dictionary becomes a lookup function; `none` models the
`raise ValueError` for an invalid segment. -/
def writePush (segment : String) (index : Nat) : Option String :=
  let segment_map : String → Option String := fun s =>
    if s = "constant" then some ("@" ++ Nat.repr index ++ "\nD=A\n")
    else if s = "local" then some ("@LCL\nD=M\n@" ++ Nat.repr index ++ "\nA=D+A\nD=M\n")
    else if s = "argument" then some ("@ARG\nD=M\n@" ++ Nat.repr index ++ "\nA=D+A\nD=M\n")
    else if s = "this" then some ("@THIS\nD=M\n@" ++ Nat.repr index ++ "\nA=D+A\nD=M\n")
    else if s = "that" then some ("@THAT\nD=M\n@" ++ Nat.repr index ++ "\nA=D+A\nD=M\n")
    else if s = "temp" then some ("@" ++ Nat.repr (5 + index) ++ "\nD=M\n")
    else if s = "pointer" then
      some ("@" ++ (if index = 0 then "THIS" else "THAT") ++ "\nD=M\n")
    else if s = "static" then some ("@Static." ++ Nat.repr index ++ "\nD=M\n")
    else none
  match segment_map segment with
  | none => none
  | some sc => some (sc ++ "@SP\nA=M\nM=D\n@SP\nM=M+1\n")

/-- CodeWriter.writePop from src/VMTranslator.py (lines 97 to 125).  The
first `none` is the explicit `raise ValueError("Pop não pode ser usado com
constant.")`; the second models the invalid-segment raise. -/
def writePop (segment : String) (index : Nat) : Option String :=
  if segment = "constant" then none
  else
    let segment_map : String → Option String := fun s =>
      if s = "local" then some "@LCL"
      else if s = "argument" then some "@ARG"
      else if s = "this" then some "@THIS"
      else if s = "that" then some "@THAT"
      else if s = "temp" then some ("@" ++ Nat.repr (5 + index))
      else if s = "pointer" then some (if index = 0 then "@THIS" else "@THAT")
      else if s = "static" then some ("@Static." ++ Nat.repr index)
      else none
    match segment_map segment with
    | none => none
    | some sc =>
      if segment = "temp" ∨ segment = "pointer" ∨ segment = "static" then
        some ("@SP\nAM=M-1\nD=M\n" ++ sc ++ "\nM=D\n")
      else
        some ("@" ++ Nat.repr index ++ "\nD=A\n" ++ sc ++ "\nD=M+D\n@R13\nM=D\n"
          ++ "@SP\nAM=M-1\nD=M\n@R13\nA=M\nM=D\n")

/-- The nine arithmetic operator tokens recognized by Parser.commandType. -/
def arithOps : List String := ["add", "sub", "neg", "eq", "gt", "lt", "and", "or", "not"]

/-- Parser.commandType from src/VMTranslator.py (lines 23 to 32); `none`
models the `raise ValueError` for an unknown command (and the IndexError on
an empty token list). -/
def commandType (cmd : List String) : Option String :=
  match cmd.head? with
  | none => none
  | some t =>
    if t ∈ arithOps then some "C_ARITHMETIC"
    else if t = "push" then some "C_PUSH"
    else if t = "pop" then some "C_POP"
    else none

/-- One iteration of VMTranslator.translate from src/VMTranslator.py (lines
138 to 151): dispatch on the command type and return the emitted fragment
with the updated label counter; `none` models an uncaught exception.
Parser.arg2 (`int(...)` of the third token) is modelled by `parseNat?`. -/
def translateStep (cmd : List String) (cnt : Nat) : Option (String × Nat) :=
  match commandType cmd with
  | none => none
  | some ct =>
    if ct = "C_ARITHMETIC" then
      match cmd.head? with
      | some t => writeArithmetic t cnt
      | none => none
    else if ct = "C_PUSH" then
      match cmd[1]?, ((cmd[2]?).bind parseNat?) with
      | some seg, some i => (writePush seg i).map (fun s => (s, cnt))
      | _, _ => none
    else if ct = "C_POP" then
      match cmd[1]?, ((cmd[2]?).bind parseNat?) with
      | some seg, some i => (writePop seg i).map (fun s => (s, cnt))
      | _, _ => none
    else some ("", cnt)

/-- The while-loop of VMTranslator.translate: fold over the remaining
commands, appending each fragment to the accumulated output. -/
def translateFrom : List (List String) → String → Nat → Option (String × Nat)
  | [], acc, cnt => some (acc, cnt)
  | c :: rest, acc, cnt =>
    match translateStep c cnt with
    | none => none
    | some (frag, cnt2) => translateFrom rest (acc ++ frag) cnt2

/-- A whole translation run of src/VMTranslator.py: CodeWriter.__init__
(lines 47 to 50) only sets `label_count = 0` and writes nothing before the
loop. -/
def translate (cmds : List (List String)) : Option (String × Nat) :=
  translateFrom cmds "" 0

/-- Instruction-level form of the writeArithmetic output: one `Hack.Instr`
per line of the string emitted by src/VMTranslator.py lines 52 to 76. -/
def arithAsm (command : String) (label_count : Nat) :
    Option (List Hack.Instr × Nat) :=
  if command = "add" ∨ command = "sub" ∨ command = "and" ∨ command = "or" then
    let op : Comp := if command = "add" then .mPlusD else if command = "sub" then .mMinusD
      else if command = "and" then .mAndD else .mOrD
    some ([.sym "SP", .c .dAM .mMinus1 .noJump, .c .dD .cM .noJump,
           .c .dA .aMinus1 .noJump, .c .dM op .noJump], label_count)
  else if command = "neg" ∨ command = "not" then
    let op : Comp := if command = "neg" then .negM else .notM
    some ([.sym "SP", .c .dA .mMinus1 .noJump, .c .dM op .noJump], label_count)
  else if command = "eq" ∨ command = "gt" ∨ command = "lt" then
    let jump : Jump := if command = "eq" then .jeq else if command = "gt" then .jgt else .jlt
    let label_true := "TRUE_" ++ Nat.repr label_count
    let label_end := "END_" ++ Nat.repr label_count
    some ([.sym "SP", .c .dAM .mMinus1 .noJump, .c .dD .cM .noJump,
           .c .dA .aMinus1 .noJump, .c .dD .mMinusD .noJump,
           .sym label_true, .c .dNone .cD jump,
           .sym "SP", .c .dA .mMinus1 .noJump, .c .dM .zero .noJump,
           .sym label_end, .c .dNone .zero .jmp,
           .lab label_true, .sym "SP", .c .dA .mMinus1 .noJump, .c .dM .negOne .noJump,
           .lab label_end], label_count + 1)
  else none

/-- The five lines `@SP / A=M / M=D / @SP / M=M+1` shared by every push. -/
def pushTail : List Hack.Instr :=
  [.sym "SP", .c .dA .cM .noJump, .c .dM .cD .noJump, .sym "SP", .c .dM .mPlus1 .noJump]

/-- Instruction-level form of the writePush output of src/VMTranslator.py
lines 78 to 95. -/
def pushAsm (segment : String) (index : Nat) : Option (List Hack.Instr) :=
  let segment_map : String → Option (List Hack.Instr) := fun s =>
    if s = "constant" then some [.num index, .c .dD .cA .noJump]
    else if s = "local" then
      some [.sym "LCL", .c .dD .cM .noJump, .num index, .c .dA .dPlusA .noJump, .c .dD .cM .noJump]
    else if s = "argument" then
      some [.sym "ARG", .c .dD .cM .noJump, .num index, .c .dA .dPlusA .noJump, .c .dD .cM .noJump]
    else if s = "this" then
      some [.sym "THIS", .c .dD .cM .noJump, .num index, .c .dA .dPlusA .noJump, .c .dD .cM .noJump]
    else if s = "that" then
      some [.sym "THAT", .c .dD .cM .noJump, .num index, .c .dA .dPlusA .noJump, .c .dD .cM .noJump]
    else if s = "temp" then some [.num (5 + index), .c .dD .cM .noJump]
    else if s = "pointer" then
      some [.sym (if index = 0 then "THIS" else "THAT"), .c .dD .cM .noJump]
    else if s = "static" then some [.sym ("Static." ++ Nat.repr index), .c .dD .cM .noJump]
    else none
  match segment_map segment with
  | none => none
  | some sc => some (sc ++ pushTail)

/-- Instruction-level form of the writePop output of src/VMTranslator.py
lines 97 to 125. -/
def popAsm (segment : String) (index : Nat) : Option (List Hack.Instr) :=
  if segment = "constant" then none
  else
    let segment_map : String → Option Hack.Instr := fun s =>
      if s = "local" then some (.sym "LCL")
      else if s = "argument" then some (.sym "ARG")
      else if s = "this" then some (.sym "THIS")
      else if s = "that" then some (.sym "THAT")
      else if s = "temp" then some (.num (5 + index))
      else if s = "pointer" then some (.sym (if index = 0 then "THIS" else "THAT"))
      else if s = "static" then some (.sym ("Static." ++ Nat.repr index))
      else none
    match segment_map segment with
    | none => none
    | some tgt =>
      if segment = "temp" ∨ segment = "pointer" ∨ segment = "static" then
        some [.sym "SP", .c .dAM .mMinus1 .noJump, .c .dD .cM .noJump, tgt, .c .dM .cD .noJump]
      else
        some [.num index, .c .dD .cA .noJump, tgt, .c .dD .mPlusD .noJump,
          .sym "R13", .c .dM .cD .noJump,
          .sym "SP", .c .dAM .mMinus1 .noJump, .c .dD .cM .noJump,
          .sym "R13", .c .dA .cM .noJump, .c .dM .cD .noJump]

end VMT

namespace MainPy

open Hack

/-- CodeWriter.SEGMENTS from src/main.py (lines 65 to 73). -/
def SEGMENTS (s : String) : Option String :=
  if s = "local" then some "LCL"
  else if s = "argument" then some "ARG"
  else if s = "this" then some "THIS"
  else if s = "that" then some "THAT"
  else if s = "temp" then some "5"
  else if s = "pointer" then some "3"
  else if s = "static" then some "16"
  else none

/-- CodeWriter.writeArithmetic from src/main.py (lines 93 to 117); its body
is textually identical to the one in src/VMTranslator.py.  `none` models the
`raise ValueError` for an invalid arithmetic command. -/
def writeArithmetic (command : String) (label_count : Nat) : Option (String × Nat) :=
  if command = "add" ∨ command = "sub" ∨ command = "and" ∨ command = "or" then
    let op := if command = "add" then "+" else if command = "sub" then "-"
      else if command = "and" then "&" else "|"
    some ("@SP\nAM=M-1\nD=M\nA=A-1\nM=M" ++ op ++ "D\n", label_count)
  else if command = "neg" ∨ command = "not" then
    let op := if command = "neg" then "-" else "!"
    some ("@SP\nA=M-1\nM=" ++ op ++ "M\n", label_count)
  else if command = "eq" ∨ command = "gt" ∨ command = "lt" then
    let jump := if command = "eq" then "JEQ" else if command = "gt" then "JGT" else "JLT"
    let label_true := "TRUE_" ++ Nat.repr label_count
    let label_end := "END_" ++ Nat.repr label_count
    some ("@SP\nAM=M-1\nD=M\nA=A-1\nD=M-D\n"
      ++ "@" ++ label_true ++ "\nD;" ++ jump ++ "\n"
      ++ "@SP\nA=M-1\nM=0\n"
      ++ "@" ++ label_end ++ "\n0;JMP\n"
      ++ "(" ++ label_true ++ ")\n@SP\nA=M-1\nM=-1\n"
      ++ "(" ++ label_end ++ ")\n", label_count + 1)
  else none

/-- CodeWriter.writePush from src/main.py (lines 119 to 130).  `int(base)`
becomes `parseNat?`; when the segment is neither `constant` nor in
`SEGMENTS`, the Python code hits `asm_code += ...` with `asm_code` unbound
and raises UnboundLocalError, modelled by `none`. -/
def writePush (segment : String) (index : Nat) : Option String :=
  if segment = "constant" then
    some ("@" ++ Nat.repr index ++ "\nD=A\n" ++ "@SP\nA=M\nM=D\n@SP\nM=M+1\n")
  else
    match SEGMENTS segment with
    | some base =>
      if segment = "temp" ∨ segment = "pointer" ∨ segment = "static" then
        match parseNat? base with
        | some b =>
          some ("@" ++ Nat.repr (b + index) ++ "\nD=M\n" ++ "@SP\nA=M\nM=D\n@SP\nM=M+1\n")
        | none => none
      else
        some ("@" ++ base ++ "\nD=M\n@" ++ Nat.repr index ++ "\nA=D+A\nD=M\n"
          ++ "@SP\nA=M\nM=D\n@SP\nM=M+1\n")
    | none => none

/-- CodeWriter.writePop from src/main.py (lines 132 to 140).  When the
segment is not in `SEGMENTS` (in particular for `constant`), the Python
code reaches `self.file.write(asm_code)` with `asm_code` unbound and raises
UnboundLocalError, modelled by `none`: nothing is written. -/
def writePop (segment : String) (index : Nat) : Option String :=
  match SEGMENTS segment with
  | some base =>
    if segment = "temp" ∨ segment = "pointer" ∨ segment = "static" then
      match parseNat? base with
      | some b => some ("@SP\nAM=M-1\nD=M\n@" ++ Nat.repr (b + index) ++ "\nM=D\n")
      | none => none
    else
      some ("@" ++ base ++ "\nD=M\n@" ++ Nat.repr index
        ++ "\nD=D+A\n@R13\nM=D\n@SP\nAM=M-1\nD=M\n@R13\nA=M\nM=D\n")
  | none => none

/-- CodeWriter.writeCall from src/main.py (lines 142 to 159): the emitted
string and the incremented label counter.  The return label uses the
pre-increment counter value, as in the Python code. -/
def writeCall (function_name : String) (num_args : Nat) (label_count : Nat) :
    String × Nat :=
  let return_label := "RETURN_" ++ Nat.repr label_count
  ("// call " ++ function_name ++ " " ++ Nat.repr num_args ++ "\n"
    ++ "@" ++ return_label ++ "\nD=A\n@SP\nA=M\nM=D\n@SP\nM=M+1\n"
    ++ "@LCL\nD=M\n@SP\nA=M\nM=D\n@SP\nM=M+1\n"
    ++ "@ARG\nD=M\n@SP\nA=M\nM=D\n@SP\nM=M+1\n"
    ++ "@THIS\nD=M\n@SP\nA=M\nM=D\n@SP\nM=M+1\n"
    ++ "@THAT\nD=M\n@SP\nA=M\nM=D\n@SP\nM=M+1\n"
    ++ "@" ++ Nat.repr num_args ++ "\nD=A\n@5\nD=D+A\n@SP\nD=M-D\n@ARG\nM=D\n"
    ++ "@SP\nD=M\n@LCL\nM=D\n"
    ++ "@" ++ function_name ++ "\n0;JMP\n"
    ++ "(" ++ return_label ++ ")\n",
   label_count + 1)

/-- CodeWriter.writeInit from src/main.py (lines 82 to 91), which
CodeWriter.__init__ (line 80) invokes unconditionally at construction with
`label_count = 0`: the SP=256 preamble followed by `call Sys.init 0`. -/
def writeInit : String × Nat :=
  let boot := "// Bootstrap code\n@256\nD=A\n@SP\nM=D\n"
  let call := writeCall "Sys.init" 0 0
  (boot ++ call.1, call.2)

/-- Parser.commandType from src/main.py (lines 25 to 49).  The outer `none`
models the `raise ValueError` for an unknown token; the inner `none` models
the Python `return None` for an empty current command. -/
def commandType (cmd : List String) : Option (Option String) :=
  match cmd.head? with
  | none => some none
  | some t =>
    if t ∈ VMT.arithOps then some (some "C_ARITHMETIC")
    else if t = "push" then some (some "C_PUSH")
    else if t = "pop" then some (some "C_POP")
    else if t = "label" then some (some "C_LABEL")
    else if t = "goto" then some (some "C_GOTO")
    else if t = "if-goto" then some (some "C_IF")
    else if t = "function" then some (some "C_FUNCTION")
    else if t = "call" then some (some "C_CALL")
    else if t = "return" then some (some "C_RETURN")
    else none

/-- One iteration of VMTranslator.translate from src/main.py (lines 173 to
186): only `C_ARITHMETIC`, `C_PUSH` and `C_POP` are dispatched; every other
recognized command type falls through the if-chain and writes nothing. -/
def translateStep (cmd : List String) (cnt : Nat) : Option (String × Nat) :=
  match commandType cmd with
  | none => none
  | some ct =>
    if ct = some "C_ARITHMETIC" then
      match cmd.head? with
      | some t => writeArithmetic t cnt
      | none => none
    else if ct = some "C_PUSH" then
      match cmd[1]?, ((cmd[2]?).bind parseNat?) with
      | some seg, some i => (writePush seg i).map (fun s => (s, cnt))
      | _, _ => none
    else if ct = some "C_POP" then
      match cmd[1]?, ((cmd[2]?).bind parseNat?) with
      | some seg, some i => (writePop seg i).map (fun s => (s, cnt))
      | _, _ => none
    else some ("", cnt)

/-- The while-loop of VMTranslator.translate in src/main.py. -/
def translateFrom : List (List String) → String → Nat → Option (String × Nat)
  | [], acc, cnt => some (acc, cnt)
  | cmd :: rest, acc, cnt =>
    match translateStep cmd cnt with
    | none => none
    | some (frag, cnt2) => translateFrom rest (acc ++ frag) cnt2

/-- A whole translation run of src/main.py: the CodeWriter constructor
emits the bootstrap (writeInit) before the loop consumes any command. -/
def translate (cmds : List (List String)) : Option (String × Nat) :=
  translateFrom cmds writeInit.1 writeInit.2

/-- Instruction-level form of the writeCall output (src/main.py lines 142
to 159), one `Hack.Instr` per emitted line. -/
def callAsm (function_name : String) (num_args : Nat) (label_count : Nat) :
    List Hack.Instr × Nat :=
  let return_label := "RETURN_" ++ Nat.repr label_count
  ([.comment ("call " ++ function_name ++ " " ++ Nat.repr num_args),
    .sym return_label, .c .dD .cA .noJump,
    .sym "SP", .c .dA .cM .noJump, .c .dM .cD .noJump, .sym "SP", .c .dM .mPlus1 .noJump,
    .sym "LCL", .c .dD .cM .noJump,
    .sym "SP", .c .dA .cM .noJump, .c .dM .cD .noJump, .sym "SP", .c .dM .mPlus1 .noJump,
    .sym "ARG", .c .dD .cM .noJump,
    .sym "SP", .c .dA .cM .noJump, .c .dM .cD .noJump, .sym "SP", .c .dM .mPlus1 .noJump,
    .sym "THIS", .c .dD .cM .noJump,
    .sym "SP", .c .dA .cM .noJump, .c .dM .cD .noJump, .sym "SP", .c .dM .mPlus1 .noJump,
    .sym "THAT", .c .dD .cM .noJump,
    .sym "SP", .c .dA .cM .noJump, .c .dM .cD .noJump, .sym "SP", .c .dM .mPlus1 .noJump,
    .num num_args, .c .dD .cA .noJump, .num 5, .c .dD .dPlusA .noJump,
    .sym "SP", .c .dD .mMinusD .noJump, .sym "ARG", .c .dM .cD .noJump,
    .sym "SP", .c .dD .cM .noJump, .sym "LCL", .c .dM .cD .noJump,
    .sym function_name, .c .dNone .zero .jmp,
    .lab return_label],
   label_count + 1)

/-- Instruction-level form of the bootstrap output (writeInit): the SP=256
preamble followed by the `call Sys.init 0` fragment. -/
def bootAsm : List Hack.Instr :=
  [.comment "Bootstrap code", .num 256, .c .dD .cA .noJump, .sym "SP", .c .dM .cD .noJump]
    ++ (callAsm "Sys.init" 0 0).1

/-- Instruction-level form of the writePush output of src/main.py lines
119 to 130. -/
def pushAsm (segment : String) (index : Nat) : Option (List Hack.Instr) :=
  if segment = "constant" then
    some ([.num index, .c .dD .cA .noJump] ++ VMT.pushTail)
  else
    match SEGMENTS segment with
    | some base =>
      if segment = "temp" ∨ segment = "pointer" ∨ segment = "static" then
        match parseNat? base with
        | some b => some ([.num (b + index), .c .dD .cM .noJump] ++ VMT.pushTail)
        | none => none
      else
        some ([.sym base, .c .dD .cM .noJump, .num index, .c .dA .dPlusA .noJump,
          .c .dD .cM .noJump] ++ VMT.pushTail)
    | none => none

/-- Instruction-level form of the writePop output of src/main.py lines
132 to 140. -/
def popAsm (segment : String) (index : Nat) : Option (List Hack.Instr) :=
  match SEGMENTS segment with
  | some base =>
    if segment = "temp" ∨ segment = "pointer" ∨ segment = "static" then
      match parseNat? base with
      | some b =>
        some [.sym "SP", .c .dAM .mMinus1 .noJump, .c .dD .cM .noJump,
          .num (b + index), .c .dM .cD .noJump]
      | none => none
    else
      some [.sym base, .c .dD .cM .noJump, .num index, .c .dD .dPlusA .noJump,
        .sym "R13", .c .dM .cD .noJump,
        .sym "SP", .c .dAM .mMinus1 .noJump, .c .dD .cM .noJump,
        .sym "R13", .c .dA .cM .noJump, .c .dM .cD .noJump]
  | none => none

end MainPy

namespace Hack

theorem w16_eq (x : Int) (h1 : -32768 ≤ x) (h2 : x ≤ 32767) : w16 x = x := by
  unfold w16
  omega

theorem str_ne_of_take2 (a b : String) (l : List Char)
    (h1 : a.data.take 2 = l) (h2 : b.data.take 2 ≠ l) : a ≠ b :=
  fun e => h2 (by rw [← e, h1])

theorem builtinSym_eq_none (s : String)
    (h1 : s ≠ "SP") (h2 : s ≠ "LCL") (h3 : s ≠ "ARG") (h4 : s ≠ "THIS")
    (h5 : s ≠ "THAT") (h6 : s ≠ "R13") : builtinSym s = none := by
  unfold builtinSym
  rw [if_neg h1, if_neg h2, if_neg h3, if_neg h4, if_neg h5, if_neg h6]

theorem builtin_TRUE (x : String) : builtinSym ("TRUE_" ++ x) = none :=
  builtinSym_eq_none _
    (str_ne_of_take2 _ _ ['T', 'R'] rfl (by decide))
    (str_ne_of_take2 _ _ ['T', 'R'] rfl (by decide))
    (str_ne_of_take2 _ _ ['T', 'R'] rfl (by decide))
    (str_ne_of_take2 _ _ ['T', 'R'] rfl (by decide))
    (str_ne_of_take2 _ _ ['T', 'R'] rfl (by decide))
    (str_ne_of_take2 _ _ ['T', 'R'] rfl (by decide))

theorem builtin_END (x : String) : builtinSym ("END_" ++ x) = none :=
  builtinSym_eq_none _
    (str_ne_of_take2 _ _ ['E', 'N'] rfl (by decide))
    (str_ne_of_take2 _ _ ['E', 'N'] rfl (by decide))
    (str_ne_of_take2 _ _ ['E', 'N'] rfl (by decide))
    (str_ne_of_take2 _ _ ['E', 'N'] rfl (by decide))
    (str_ne_of_take2 _ _ ['E', 'N'] rfl (by decide))
    (str_ne_of_take2 _ _ ['E', 'N'] rfl (by decide))

theorem builtin_RETURN (x : String) : builtinSym ("RETURN_" ++ x) = none :=
  builtinSym_eq_none _
    (str_ne_of_take2 _ _ ['R', 'E'] rfl (by decide))
    (str_ne_of_take2 _ _ ['R', 'E'] rfl (by decide))
    (str_ne_of_take2 _ _ ['R', 'E'] rfl (by decide))
    (str_ne_of_take2 _ _ ['R', 'E'] rfl (by decide))
    (str_ne_of_take2 _ _ ['R', 'E'] rfl (by decide))
    (str_ne_of_take2 _ _ ['R', 'E'] rfl (by decide))

theorem builtin_Static (x : String) : builtinSym ("Static." ++ x) = none :=
  builtinSym_eq_none _
    (str_ne_of_take2 _ _ ['S', 't'] rfl (by decide))
    (str_ne_of_take2 _ _ ['S', 't'] rfl (by decide))
    (str_ne_of_take2 _ _ ['S', 't'] rfl (by decide))
    (str_ne_of_take2 _ _ ['S', 't'] rfl (by decide))
    (str_ne_of_take2 _ _ ['S', 't'] rfl (by decide))
    (str_ne_of_take2 _ _ ['S', 't'] rfl (by decide))

end Hack

namespace Hack

theorem w16_w16 (x : Int) : w16 (w16 x) = w16 x := by
  unfold w16
  omega

theorem updMem_same (f : Int → Int) (a v : Int) : updMem f a v a = v := by
  unfold updMem
  rw [if_pos rfl]

theorem updMem_ne (f : Int → Int) (a v x : Int) (h : x ≠ a) : updMem f a v x = f x := by
  unfold updMem
  rw [if_neg h]

theorem pushTail_run (p : List Instr) (env : String → Int) (m : Mach)
    (h0 : (code p)[m.pc]? = some (.sym "SP"))
    (h1 : (code p)[m.pc + 1]? = some (.c .dA .cM .noJump))
    (h2 : (code p)[m.pc + 2]? = some (.c .dM .cD .noJump))
    (h3 : (code p)[m.pc + 3]? = some (.sym "SP"))
    (h4 : (code p)[m.pc + 4]? = some (.c .dM .mPlus1 .noJump))
    (hs1 : 256 ≤ m.mem 0) (hs2 : m.mem 0 ≤ 32766) :
    run p env 5 m =
      ⟨0, m.D, updMem (updMem m.mem (m.mem 0) (w16 m.D)) 0 (m.mem 0 + 1),
       m.pc + 5⟩ := by
  have e0 : step p env m = ⟨0, m.D, m.mem, m.pc + 1⟩ := by
    rw [step_sym p env m "SP" h0]; rfl
  have e1 : step p env ⟨0, m.D, m.mem, m.pc + 1⟩ = ⟨m.mem 0, m.D, m.mem, m.pc + 2⟩ := by
    rw [step_dA p env _ .cM h1]
    dsimp only
    rw [show evalComp .cM 0 m.D (m.mem 0) = w16 (m.mem 0) from rfl,
      w16_eq (m.mem 0) (by omega) (by omega)]
  have e2 : step p env ⟨m.mem 0, m.D, m.mem, m.pc + 2⟩ =
      ⟨m.mem 0, m.D, updMem m.mem (m.mem 0) (w16 m.D), m.pc + 3⟩ := by
    rw [step_dM p env _ .cD h2]; rfl
  have e3 : step p env ⟨m.mem 0, m.D, updMem m.mem (m.mem 0) (w16 m.D), m.pc + 3⟩ =
      ⟨0, m.D, updMem m.mem (m.mem 0) (w16 m.D), m.pc + 4⟩ := by
    rw [step_sym p env _ "SP" h3]; rfl
  have e4 : step p env ⟨0, m.D, updMem m.mem (m.mem 0) (w16 m.D), m.pc + 4⟩ =
      ⟨0, m.D, updMem (updMem m.mem (m.mem 0) (w16 m.D)) 0 (m.mem 0 + 1), m.pc + 5⟩ := by
    rw [step_dM p env _ .mPlus1 h4]
    dsimp only
    have hm : updMem m.mem (m.mem 0) (w16 m.D) 0 = m.mem 0 := by
      unfold updMem
      rw [if_neg (by omega)]
    rw [hm, show evalComp .mPlus1 0 m.D (m.mem 0) = w16 (m.mem 0 + 1) from rfl,
      w16_eq (m.mem 0 + 1) (by omega) (by omega)]
  calc run p env 5 m
      = run p env 4 (step p env m) := rfl
    _ = run p env 4 ⟨0, m.D, m.mem, m.pc + 1⟩ := by rw [e0]
    _ = run p env 3 (step p env ⟨0, m.D, m.mem, m.pc + 1⟩) := rfl
    _ = run p env 3 ⟨m.mem 0, m.D, m.mem, m.pc + 2⟩ := by rw [e1]
    _ = run p env 2 (step p env ⟨m.mem 0, m.D, m.mem, m.pc + 2⟩) := rfl
    _ = run p env 2 ⟨m.mem 0, m.D, updMem m.mem (m.mem 0) (w16 m.D), m.pc + 3⟩ := by rw [e2]
    _ = run p env 1 (step p env ⟨m.mem 0, m.D, updMem m.mem (m.mem 0) (w16 m.D), m.pc + 3⟩) := rfl
    _ = run p env 1 ⟨0, m.D, updMem m.mem (m.mem 0) (w16 m.D), m.pc + 4⟩ := by rw [e3]
    _ = run p env 0 (step p env ⟨0, m.D, updMem m.mem (m.mem 0) (w16 m.D), m.pc + 4⟩) := rfl
    _ = ⟨0, m.D, updMem (updMem m.mem (m.mem 0) (w16 m.D)) 0 (m.mem 0 + 1), m.pc + 5⟩ := by
        rw [run_zero, e4]


theorem load2_run (p : List Instr) (env : String → Int) (m : Mach) (s : String) (a : Int)
    (h0 : (code p)[m.pc]? = some (.sym s))
    (h1 : (code p)[m.pc + 1]? = some (.c .dD .cM .noJump))
    (hres : resolveSym p env s = a) :
    run p env 2 m = ⟨a, w16 (m.mem a), m.mem, m.pc + 2⟩ := by
  have e0 : step p env m = ⟨a, m.D, m.mem, m.pc + 1⟩ := by
    rw [step_sym p env m s h0, hres]
  have e1 : step p env ⟨a, m.D, m.mem, m.pc + 1⟩ = ⟨a, w16 (m.mem a), m.mem, m.pc + 2⟩ := by
    rw [step_dD p env _ .cM h1]; rfl
  calc run p env 2 m
      = run p env 1 (step p env m) := rfl
    _ = run p env 1 ⟨a, m.D, m.mem, m.pc + 1⟩ := by rw [e0]
    _ = run p env 0 (step p env ⟨a, m.D, m.mem, m.pc + 1⟩) := rfl
    _ = ⟨a, w16 (m.mem a), m.mem, m.pc + 2⟩ := by rw [run_zero, e1]

theorem loadAddr_run (p : List Instr) (env : String → Int) (m : Mach) (x : Instr) (a : Int)
    (h0 : (code p)[m.pc]? = some x)
    (hx : x = .num a ∨ ∃ s, x = .sym s ∧ resolveSym p env s = a)
    (h1 : (code p)[m.pc + 1]? = some (.c .dD .cA .noJump)) :
    run p env 2 m = ⟨a, w16 a, m.mem, m.pc + 2⟩ := by
  have e0 : step p env m = ⟨a, m.D, m.mem, m.pc + 1⟩ := by
    rcases hx with h | ⟨s, hs, hres⟩
    · rw [h] at h0
      rw [step_num p env m a h0]
    · rw [hs] at h0
      rw [step_sym p env m s h0, hres]
  have e1 : step p env ⟨a, m.D, m.mem, m.pc + 1⟩ = ⟨a, w16 a, m.mem, m.pc + 2⟩ := by
    rw [step_dD p env _ .cA h1]; rfl
  calc run p env 2 m
      = run p env 1 (step p env m) := rfl
    _ = run p env 1 ⟨a, m.D, m.mem, m.pc + 1⟩ := by rw [e0]
    _ = run p env 0 (step p env ⟨a, m.D, m.mem, m.pc + 1⟩) := rfl
    _ = ⟨a, w16 a, m.mem, m.pc + 2⟩ := by rw [run_zero, e1]

end Hack

namespace Hack

theorem binOp_run (p : List Instr) (env : String → Int) (op : Comp) (m : Mach)
    (h0 : (code p)[m.pc]? = some (.sym "SP"))
    (h1 : (code p)[m.pc + 1]? = some (.c .dAM .mMinus1 .noJump))
    (h2 : (code p)[m.pc + 2]? = some (.c .dD .cM .noJump))
    (h3 : (code p)[m.pc + 3]? = some (.c .dA .aMinus1 .noJump))
    (h4 : (code p)[m.pc + 4]? = some (.c .dM op .noJump))
    (hs1 : 256 ≤ m.mem 0) (hs2 : m.mem 0 ≤ 32767) :
    run p env 5 m =
      ⟨m.mem 0 - 2, w16 (m.mem (m.mem 0 - 1)),
       updMem (updMem m.mem 0 (m.mem 0 - 1)) (m.mem 0 - 2)
         (evalComp op (m.mem 0 - 2) (w16 (m.mem (m.mem 0 - 1))) (m.mem (m.mem 0 - 2))),
       m.pc + 5⟩ := by
  have e0 : step p env m = ⟨0, m.D, m.mem, m.pc + 1⟩ := by
    rw [step_sym p env m "SP" h0]; rfl
  have e1 : step p env ⟨0, m.D, m.mem, m.pc + 1⟩ =
      ⟨m.mem 0 - 1, m.D, updMem m.mem 0 (m.mem 0 - 1), m.pc + 2⟩ := by
    rw [step_dAM p env _ .mMinus1 h1]
    dsimp only
    rw [show evalComp .mMinus1 0 m.D (m.mem 0) = w16 (m.mem 0 - 1) from rfl,
      w16_eq (m.mem 0 - 1) (by omega) (by omega)]
  have e2 : step p env ⟨m.mem 0 - 1, m.D, updMem m.mem 0 (m.mem 0 - 1), m.pc + 2⟩ =
      ⟨m.mem 0 - 1, w16 (m.mem (m.mem 0 - 1)), updMem m.mem 0 (m.mem 0 - 1), m.pc + 3⟩ := by
    rw [step_dD p env _ .cM h2]
    dsimp only
    rw [updMem_ne m.mem 0 (m.mem 0 - 1) (m.mem 0 - 1) (by omega)]
    rfl
  have e3 : step p env ⟨m.mem 0 - 1, w16 (m.mem (m.mem 0 - 1)), updMem m.mem 0 (m.mem 0 - 1), m.pc + 3⟩ =
      ⟨m.mem 0 - 2, w16 (m.mem (m.mem 0 - 1)), updMem m.mem 0 (m.mem 0 - 1), m.pc + 4⟩ := by
    rw [step_dA p env _ .aMinus1 h3]
    dsimp only
    rw [show evalComp .aMinus1 (m.mem 0 - 1) (w16 (m.mem (m.mem 0 - 1)))
        (updMem m.mem 0 (m.mem 0 - 1) (m.mem 0 - 1)) = w16 (m.mem 0 - 1 - 1) from rfl,
      w16_eq (m.mem 0 - 1 - 1) (by omega) (by omega),
      show m.mem 0 - 1 - 1 = m.mem 0 - 2 from by omega]
  have e4 : step p env ⟨m.mem 0 - 2, w16 (m.mem (m.mem 0 - 1)), updMem m.mem 0 (m.mem 0 - 1), m.pc + 4⟩ =
      ⟨m.mem 0 - 2, w16 (m.mem (m.mem 0 - 1)),
       updMem (updMem m.mem 0 (m.mem 0 - 1)) (m.mem 0 - 2)
         (evalComp op (m.mem 0 - 2) (w16 (m.mem (m.mem 0 - 1))) (m.mem (m.mem 0 - 2))),
       m.pc + 5⟩ := by
    rw [step_dM p env _ op h4]
    dsimp only
    rw [updMem_ne m.mem 0 (m.mem 0 - 1) (m.mem 0 - 2) (by omega)]
  calc run p env 5 m
      = run p env 4 (step p env m) := rfl
    _ = run p env 4 ⟨0, m.D, m.mem, m.pc + 1⟩ := by rw [e0]
    _ = run p env 3 (step p env ⟨0, m.D, m.mem, m.pc + 1⟩) := rfl
    _ = run p env 3 ⟨m.mem 0 - 1, m.D, updMem m.mem 0 (m.mem 0 - 1), m.pc + 2⟩ := by rw [e1]
    _ = run p env 2 (step p env ⟨m.mem 0 - 1, m.D, updMem m.mem 0 (m.mem 0 - 1), m.pc + 2⟩) := rfl
    _ = run p env 2 ⟨m.mem 0 - 1, w16 (m.mem (m.mem 0 - 1)), updMem m.mem 0 (m.mem 0 - 1), m.pc + 3⟩ := by
        rw [e2]
    _ = run p env 1 (step p env ⟨m.mem 0 - 1, w16 (m.mem (m.mem 0 - 1)), updMem m.mem 0 (m.mem 0 - 1), m.pc + 3⟩) := rfl
    _ = run p env 1 ⟨m.mem 0 - 2, w16 (m.mem (m.mem 0 - 1)), updMem m.mem 0 (m.mem 0 - 1), m.pc + 4⟩ := by
        rw [e3]
    _ = run p env 0 (step p env ⟨m.mem 0 - 2, w16 (m.mem (m.mem 0 - 1)), updMem m.mem 0 (m.mem 0 - 1), m.pc + 4⟩) := rfl
    _ = _ := by rw [run_zero, e4]

theorem unOp_run (p : List Instr) (env : String → Int) (op : Comp) (m : Mach)
    (h0 : (code p)[m.pc]? = some (.sym "SP"))
    (h1 : (code p)[m.pc + 1]? = some (.c .dA .mMinus1 .noJump))
    (h2 : (code p)[m.pc + 2]? = some (.c .dM op .noJump))
    (hs1 : 256 ≤ m.mem 0) (hs2 : m.mem 0 ≤ 32767) :
    run p env 3 m =
      ⟨m.mem 0 - 1, m.D,
       updMem m.mem (m.mem 0 - 1)
         (evalComp op (m.mem 0 - 1) m.D (m.mem (m.mem 0 - 1))),
       m.pc + 3⟩ := by
  have e0 : step p env m = ⟨0, m.D, m.mem, m.pc + 1⟩ := by
    rw [step_sym p env m "SP" h0]; rfl
  have e1 : step p env ⟨0, m.D, m.mem, m.pc + 1⟩ =
      ⟨m.mem 0 - 1, m.D, m.mem, m.pc + 2⟩ := by
    rw [step_dA p env _ .mMinus1 h1]
    dsimp only
    rw [show evalComp .mMinus1 0 m.D (m.mem 0) = w16 (m.mem 0 - 1) from rfl,
      w16_eq (m.mem 0 - 1) (by omega) (by omega)]
  have e2 : step p env ⟨m.mem 0 - 1, m.D, m.mem, m.pc + 2⟩ =
      ⟨m.mem 0 - 1, m.D,
       updMem m.mem (m.mem 0 - 1)
         (evalComp op (m.mem 0 - 1) m.D (m.mem (m.mem 0 - 1))),
       m.pc + 3⟩ := by
    rw [step_dM p env _ op h2]
  calc run p env 3 m
      = run p env 2 (step p env m) := rfl
    _ = run p env 2 ⟨0, m.D, m.mem, m.pc + 1⟩ := by rw [e0]
    _ = run p env 1 (step p env ⟨0, m.D, m.mem, m.pc + 1⟩) := rfl
    _ = run p env 1 ⟨m.mem 0 - 1, m.D, m.mem, m.pc + 2⟩ := by rw [e1]
    _ = run p env 0 (step p env ⟨m.mem 0 - 1, m.D, m.mem, m.pc + 2⟩) := rfl
    _ = _ := by rw [run_zero, e2]

end Hack

namespace VMT

open Hack

/-- The comparison fragment of writeArithmetic (src/VMTranslator.py lines
60 to 72), as a function of the jump kind and the label counter; this is
the list produced by `arithAsm` for eq, gt and lt. -/
def cmpList (j : Hack.Jump) (cnt : Nat) : List Hack.Instr :=
  [.sym "SP", .c .dAM .mMinus1 .noJump, .c .dD .cM .noJump,
   .c .dA .aMinus1 .noJump, .c .dD .mMinusD .noJump,
   .sym ("TRUE_" ++ Nat.repr cnt), .c .dNone .cD j,
   .sym "SP", .c .dA .mMinus1 .noJump, .c .dM .zero .noJump,
   .sym ("END_" ++ Nat.repr cnt), .c .dNone .zero .jmp,
   .lab ("TRUE_" ++ Nat.repr cnt), .sym "SP", .c .dA .mMinus1 .noJump, .c .dM .negOne .noJump,
   .lab ("END_" ++ Nat.repr cnt)]

theorem arithAsm_eq_cmpList (cnt : Nat) :
    arithAsm "eq" cnt = some (cmpList .jeq cnt, cnt + 1) := rfl

theorem arithAsm_gt_cmpList (cnt : Nat) :
    arithAsm "gt" cnt = some (cmpList .jgt cnt, cnt + 1) := rfl

theorem arithAsm_lt_cmpList (cnt : Nat) :
    arithAsm "lt" cnt = some (cmpList .jlt cnt, cnt + 1) := rfl

theorem cmp_TRUE_ne_END (x y : String) : ("TRUE_" ++ x) ≠ ("END_" ++ y) :=
  str_ne_of_take2 _ _ ['T', 'R'] rfl
    (by rw [show ("END_" ++ y).data.take 2 = ['E', 'N'] from rfl]; decide)

theorem cmpList_labelIdx_TRUE (j : Hack.Jump) (cnt : Nat) :
    labelIdx (cmpList j cnt) ("TRUE_" ++ Nat.repr cnt) = some 12 := by
  unfold labelIdx
  show (if ("TRUE_" ++ Nat.repr cnt) = ("TRUE_" ++ Nat.repr cnt) then some 12
    else labelIdxAux [.sym "SP", .c .dA .mMinus1 .noJump, .c .dM .negOne .noJump,
      .lab ("END_" ++ Nat.repr cnt)] ("TRUE_" ++ Nat.repr cnt) 12) = some 12
  rw [if_pos rfl]

theorem cmpList_labelIdx_END (j : Hack.Jump) (cnt : Nat) :
    labelIdx (cmpList j cnt) ("END_" ++ Nat.repr cnt) = some 15 := by
  unfold labelIdx
  show (if ("TRUE_" ++ Nat.repr cnt) = ("END_" ++ Nat.repr cnt) then some 12
    else labelIdxAux [.sym "SP", .c .dA .mMinus1 .noJump, .c .dM .negOne .noJump,
      .lab ("END_" ++ Nat.repr cnt)] ("END_" ++ Nat.repr cnt) 12) = some 15
  rw [if_neg (cmp_TRUE_ne_END _ _)]
  show (if ("END_" ++ Nat.repr cnt) = ("END_" ++ Nat.repr cnt) then some 15
    else labelIdxAux [] ("END_" ++ Nat.repr cnt) 15) = some 15
  rw [if_pos rfl]

theorem cmpList_resolve_TRUE (j : Hack.Jump) (cnt : Nat) (env : String → Int) :
    resolveSym (cmpList j cnt) env ("TRUE_" ++ Nat.repr cnt) = 12 := by
  unfold resolveSym
  rw [builtin_TRUE, cmpList_labelIdx_TRUE]; rfl

theorem cmpList_resolve_END (j : Hack.Jump) (cnt : Nat) (env : String → Int) :
    resolveSym (cmpList j cnt) env ("END_" ++ Nat.repr cnt) = 15 := by
  unfold resolveSym
  rw [builtin_END, cmpList_labelIdx_END]; rfl


theorem cmp_run (j : Hack.Jump) (cnt : Nat) (env : String → Int)
    (a d : Int) (mem : Int → Int)
    (hs1 : 256 ≤ mem 0) (hs2 : mem 0 ≤ 32767) :
    (Hack.run (cmpList j cnt) env 12 ⟨a, d, mem, 0⟩).mem 0 = mem 0 - 1 ∧
    (Hack.run (cmpList j cnt) env 12 ⟨a, d, mem, 0⟩).pc = 15 := by
  have e0 : step (cmpList j cnt) env (⟨a, d, mem, 0⟩ : Mach) = (⟨0, d, mem, 1⟩ : Mach) := by
    rw [step_sym (cmpList j cnt) env (⟨a, d, mem, 0⟩ : Mach) "SP" rfl]; rfl
  have e1 : step (cmpList j cnt) env (⟨0, d, mem, 1⟩ : Mach) = (⟨mem 0 - 1, d, updMem mem 0 (mem 0 - 1), 2⟩ : Mach) := by
    rw [step_dAM (cmpList j cnt) env (⟨0, d, mem, 1⟩ : Mach) .mMinus1 rfl]
    dsimp only
    rw [show evalComp .mMinus1 0 d (mem 0) = w16 (mem 0 - 1) from rfl,
      w16_eq (mem 0 - 1) (by omega) (by omega)]
  have e2 : step (cmpList j cnt) env (⟨mem 0 - 1, d, updMem mem 0 (mem 0 - 1), 2⟩ : Mach) = (⟨mem 0 - 1, w16 (mem (mem 0 - 1)), updMem mem 0 (mem 0 - 1), 3⟩ : Mach) := by
    rw [step_dD (cmpList j cnt) env (⟨mem 0 - 1, d, updMem mem 0 (mem 0 - 1), 2⟩ : Mach) .cM rfl]
    dsimp only
    rw [updMem_ne mem 0 (mem 0 - 1) (mem 0 - 1) (by omega)]
    rfl
  have e3 : step (cmpList j cnt) env (⟨mem 0 - 1, w16 (mem (mem 0 - 1)), updMem mem 0 (mem 0 - 1), 3⟩ : Mach) = (⟨mem 0 - 2, w16 (mem (mem 0 - 1)), updMem mem 0 (mem 0 - 1), 4⟩ : Mach) := by
    rw [step_dA (cmpList j cnt) env (⟨mem 0 - 1, w16 (mem (mem 0 - 1)), updMem mem 0 (mem 0 - 1), 3⟩ : Mach) .aMinus1 rfl]
    dsimp only
    rw [show evalComp .aMinus1 (mem 0 - 1) (w16 (mem (mem 0 - 1)))
        (updMem mem 0 (mem 0 - 1) (mem 0 - 1)) = w16 (mem 0 - 1 - 1) from rfl,
      w16_eq (mem 0 - 1 - 1) (by omega) (by omega),
      show mem 0 - 1 - 1 = mem 0 - 2 from by omega]
  have e4 : step (cmpList j cnt) env (⟨mem 0 - 2, w16 (mem (mem 0 - 1)), updMem mem 0 (mem 0 - 1), 4⟩ : Mach) = (⟨mem 0 - 2, w16 (mem (mem 0 - 2) - w16 (mem (mem 0 - 1))), updMem mem 0 (mem 0 - 1), 5⟩ : Mach) := by
    rw [step_dD (cmpList j cnt) env (⟨mem 0 - 2, w16 (mem (mem 0 - 1)), updMem mem 0 (mem 0 - 1), 4⟩ : Mach) .mMinusD rfl]
    dsimp only
    rw [updMem_ne mem 0 (mem 0 - 1) (mem 0 - 2) (by omega)]
    rfl
  have e5 : step (cmpList j cnt) env (⟨mem 0 - 2, w16 (mem (mem 0 - 2) - w16 (mem (mem 0 - 1))), updMem mem 0 (mem 0 - 1), 5⟩ : Mach) = (⟨12, w16 (mem (mem 0 - 2) - w16 (mem (mem 0 - 1))), updMem mem 0 (mem 0 - 1), 6⟩ : Mach) := by
    rw [step_sym (cmpList j cnt) env (⟨mem 0 - 2, w16 (mem (mem 0 - 2) - w16 (mem (mem 0 - 1))), updMem mem 0 (mem 0 - 1), 5⟩ : Mach) ("TRUE_" ++ Nat.repr cnt) rfl, cmpList_resolve_TRUE]
  have e6 : step (cmpList j cnt) env (⟨12, w16 (mem (mem 0 - 2) - w16 (mem (mem 0 - 1))), updMem mem 0 (mem 0 - 1), 6⟩ : Mach) = (⟨12, w16 (mem (mem 0 - 2) - w16 (mem (mem 0 - 1))), updMem mem 0 (mem 0 - 1), if condHolds j (w16 (mem (mem 0 - 2) - w16 (mem (mem 0 - 1)))) then 12 else 7⟩ : Mach) := by
    rw [step_br (cmpList j cnt) env (⟨12, w16 (mem (mem 0 - 2) - w16 (mem (mem 0 - 1))), updMem mem 0 (mem 0 - 1), 6⟩ : Mach) .cD j rfl]
    dsimp only
    rw [show evalComp .cD 12 (w16 (mem (mem 0 - 2) - w16 (mem (mem 0 - 1)))) (updMem mem 0 (mem 0 - 1) 12) = w16 (w16 (mem (mem 0 - 2) - w16 (mem (mem 0 - 1)))) from rfl, w16_w16]
    rfl
  have hrun7 : run (cmpList j cnt) env 7 (⟨a, d, mem, 0⟩ : Mach) = (⟨12, w16 (mem (mem 0 - 2) - w16 (mem (mem 0 - 1))), updMem mem 0 (mem 0 - 1), if condHolds j (w16 (mem (mem 0 - 2) - w16 (mem (mem 0 - 1)))) then 12 else 7⟩ : Mach) := by
    calc run (cmpList j cnt) env 7 (⟨a, d, mem, 0⟩ : Mach)
        = run (cmpList j cnt) env 6 (step (cmpList j cnt) env (⟨a, d, mem, 0⟩ : Mach)) := run_succ (cmpList j cnt) env 6 (⟨a, d, mem, 0⟩ : Mach)
      _ = run (cmpList j cnt) env 6 (⟨0, d, mem, 1⟩ : Mach) := by rw [e0]
      _ = run (cmpList j cnt) env 5 (step (cmpList j cnt) env (⟨0, d, mem, 1⟩ : Mach)) := run_succ (cmpList j cnt) env 5 (⟨0, d, mem, 1⟩ : Mach)
      _ = run (cmpList j cnt) env 5 (⟨mem 0 - 1, d, updMem mem 0 (mem 0 - 1), 2⟩ : Mach) := by rw [e1]
      _ = run (cmpList j cnt) env 4 (step (cmpList j cnt) env (⟨mem 0 - 1, d, updMem mem 0 (mem 0 - 1), 2⟩ : Mach)) := run_succ (cmpList j cnt) env 4 (⟨mem 0 - 1, d, updMem mem 0 (mem 0 - 1), 2⟩ : Mach)
      _ = run (cmpList j cnt) env 4 (⟨mem 0 - 1, w16 (mem (mem 0 - 1)), updMem mem 0 (mem 0 - 1), 3⟩ : Mach) := by rw [e2]
      _ = run (cmpList j cnt) env 3 (step (cmpList j cnt) env (⟨mem 0 - 1, w16 (mem (mem 0 - 1)), updMem mem 0 (mem 0 - 1), 3⟩ : Mach)) := run_succ (cmpList j cnt) env 3 (⟨mem 0 - 1, w16 (mem (mem 0 - 1)), updMem mem 0 (mem 0 - 1), 3⟩ : Mach)
      _ = run (cmpList j cnt) env 3 (⟨mem 0 - 2, w16 (mem (mem 0 - 1)), updMem mem 0 (mem 0 - 1), 4⟩ : Mach) := by rw [e3]
      _ = run (cmpList j cnt) env 2 (step (cmpList j cnt) env (⟨mem 0 - 2, w16 (mem (mem 0 - 1)), updMem mem 0 (mem 0 - 1), 4⟩ : Mach)) := run_succ (cmpList j cnt) env 2 (⟨mem 0 - 2, w16 (mem (mem 0 - 1)), updMem mem 0 (mem 0 - 1), 4⟩ : Mach)
      _ = run (cmpList j cnt) env 2 (⟨mem 0 - 2, w16 (mem (mem 0 - 2) - w16 (mem (mem 0 - 1))), updMem mem 0 (mem 0 - 1), 5⟩ : Mach) := by rw [e4]
      _ = run (cmpList j cnt) env 1 (step (cmpList j cnt) env (⟨mem 0 - 2, w16 (mem (mem 0 - 2) - w16 (mem (mem 0 - 1))), updMem mem 0 (mem 0 - 1), 5⟩ : Mach)) := run_succ (cmpList j cnt) env 1 (⟨mem 0 - 2, w16 (mem (mem 0 - 2) - w16 (mem (mem 0 - 1))), updMem mem 0 (mem 0 - 1), 5⟩ : Mach)
      _ = run (cmpList j cnt) env 1 (⟨12, w16 (mem (mem 0 - 2) - w16 (mem (mem 0 - 1))), updMem mem 0 (mem 0 - 1), 6⟩ : Mach) := by rw [e5]
      _ = run (cmpList j cnt) env 0 (step (cmpList j cnt) env (⟨12, w16 (mem (mem 0 - 2) - w16 (mem (mem 0 - 1))), updMem mem 0 (mem 0 - 1), 6⟩ : Mach)) := run_succ (cmpList j cnt) env 0 (⟨12, w16 (mem (mem 0 - 2) - w16 (mem (mem 0 - 1))), updMem mem 0 (mem 0 - 1), 6⟩ : Mach)
      _ = run (cmpList j cnt) env 0 (⟨12, w16 (mem (mem 0 - 2) - w16 (mem (mem 0 - 1))), updMem mem 0 (mem 0 - 1), if condHolds j (w16 (mem (mem 0 - 2) - w16 (mem (mem 0 - 1)))) then 12 else 7⟩ : Mach) := by rw [e6]
      _ = (⟨12, w16 (mem (mem 0 - 2) - w16 (mem (mem 0 - 1))), updMem mem 0 (mem 0 - 1), if condHolds j (w16 (mem (mem 0 - 2) - w16 (mem (mem 0 - 1)))) then 12 else 7⟩ : Mach) := run_zero (cmpList j cnt) env (⟨12, w16 (mem (mem 0 - 2) - w16 (mem (mem 0 - 1))), updMem mem 0 (mem 0 - 1), if condHolds j (w16 (mem (mem 0 - 2) - w16 (mem (mem 0 - 1)))) then 12 else 7⟩ : Mach)
  have hsplit : run (cmpList j cnt) env 12 (⟨a, d, mem, 0⟩ : Mach) = run (cmpList j cnt) env 5 (run (cmpList j cnt) env 7 (⟨a, d, mem, 0⟩ : Mach)) :=
    run_add (cmpList j cnt) env 5 7 (⟨a, d, mem, 0⟩ : Mach)
  cases hc : condHolds j (w16 (mem (mem 0 - 2) - w16 (mem (mem 0 - 1)))) with
  | false =>
    have hpc : run (cmpList j cnt) env 7 (⟨a, d, mem, 0⟩ : Mach) = (⟨12, w16 (mem (mem 0 - 2) - w16 (mem (mem 0 - 1))), updMem mem 0 (mem 0 - 1), 7⟩ : Mach) := by
      rw [hrun7]
      rw [if_neg (show ¬(condHolds j (w16 (mem (mem 0 - 2) - w16 (mem (mem 0 - 1)))) = true) from by rw [hc]; decide)]
    have f0 : step (cmpList j cnt) env (⟨12, w16 (mem (mem 0 - 2) - w16 (mem (mem 0 - 1))), updMem mem 0 (mem 0 - 1), 7⟩ : Mach) = (⟨0, w16 (mem (mem 0 - 2) - w16 (mem (mem 0 - 1))), updMem mem 0 (mem 0 - 1), 8⟩ : Mach) := by
      rw [step_sym (cmpList j cnt) env (⟨12, w16 (mem (mem 0 - 2) - w16 (mem (mem 0 - 1))), updMem mem 0 (mem 0 - 1), 7⟩ : Mach) "SP" rfl]; rfl
    have f1 : step (cmpList j cnt) env (⟨0, w16 (mem (mem 0 - 2) - w16 (mem (mem 0 - 1))), updMem mem 0 (mem 0 - 1), 8⟩ : Mach) = (⟨mem 0 - 2, w16 (mem (mem 0 - 2) - w16 (mem (mem 0 - 1))), updMem mem 0 (mem 0 - 1), 9⟩ : Mach) := by
      rw [step_dA (cmpList j cnt) env (⟨0, w16 (mem (mem 0 - 2) - w16 (mem (mem 0 - 1))), updMem mem 0 (mem 0 - 1), 8⟩ : Mach) .mMinus1 rfl]
      dsimp only
      rw [updMem_same mem 0 (mem 0 - 1),
        show evalComp .mMinus1 0 (w16 (mem (mem 0 - 2) - w16 (mem (mem 0 - 1)))) (mem 0 - 1) = w16 (mem 0 - 1 - 1) from rfl,
        w16_eq (mem 0 - 1 - 1) (by omega) (by omega),
        show mem 0 - 1 - 1 = mem 0 - 2 from by omega]
    have f2 : step (cmpList j cnt) env (⟨mem 0 - 2, w16 (mem (mem 0 - 2) - w16 (mem (mem 0 - 1))), updMem mem 0 (mem 0 - 1), 9⟩ : Mach) = (⟨mem 0 - 2, w16 (mem (mem 0 - 2) - w16 (mem (mem 0 - 1))), updMem (updMem mem 0 (mem 0 - 1)) (mem 0 - 2) 0, 10⟩ : Mach) := by
      rw [step_dM (cmpList j cnt) env (⟨mem 0 - 2, w16 (mem (mem 0 - 2) - w16 (mem (mem 0 - 1))), updMem mem 0 (mem 0 - 1), 9⟩ : Mach) .zero rfl]; rfl
    have f3 : step (cmpList j cnt) env (⟨mem 0 - 2, w16 (mem (mem 0 - 2) - w16 (mem (mem 0 - 1))), updMem (updMem mem 0 (mem 0 - 1)) (mem 0 - 2) 0, 10⟩ : Mach) = (⟨15, w16 (mem (mem 0 - 2) - w16 (mem (mem 0 - 1))), updMem (updMem mem 0 (mem 0 - 1)) (mem 0 - 2) 0, 11⟩ : Mach) := by
      rw [step_sym (cmpList j cnt) env (⟨mem 0 - 2, w16 (mem (mem 0 - 2) - w16 (mem (mem 0 - 1))), updMem (updMem mem 0 (mem 0 - 1)) (mem 0 - 2) 0, 10⟩ : Mach) ("END_" ++ Nat.repr cnt) rfl, cmpList_resolve_END]
    have f4 : step (cmpList j cnt) env (⟨15, w16 (mem (mem 0 - 2) - w16 (mem (mem 0 - 1))), updMem (updMem mem 0 (mem 0 - 1)) (mem 0 - 2) 0, 11⟩ : Mach) = (⟨15, w16 (mem (mem 0 - 2) - w16 (mem (mem 0 - 1))), updMem (updMem mem 0 (mem 0 - 1)) (mem 0 - 2) 0, 15⟩ : Mach) := by
      rw [step_br (cmpList j cnt) env (⟨15, w16 (mem (mem 0 - 2) - w16 (mem (mem 0 - 1))), updMem (updMem mem 0 (mem 0 - 1)) (mem 0 - 2) 0, 11⟩ : Mach) .zero .jmp rfl]; rfl
    have hfin : run (cmpList j cnt) env 12 (⟨a, d, mem, 0⟩ : Mach) = (⟨15, w16 (mem (mem 0 - 2) - w16 (mem (mem 0 - 1))), updMem (updMem mem 0 (mem 0 - 1)) (mem 0 - 2) 0, 15⟩ : Mach) := by
      rw [hsplit, hpc]
      calc run (cmpList j cnt) env 5 (⟨12, w16 (mem (mem 0 - 2) - w16 (mem (mem 0 - 1))), updMem mem 0 (mem 0 - 1), 7⟩ : Mach)
          = run (cmpList j cnt) env 4 (step (cmpList j cnt) env (⟨12, w16 (mem (mem 0 - 2) - w16 (mem (mem 0 - 1))), updMem mem 0 (mem 0 - 1), 7⟩ : Mach)) := run_succ (cmpList j cnt) env 4 (⟨12, w16 (mem (mem 0 - 2) - w16 (mem (mem 0 - 1))), updMem mem 0 (mem 0 - 1), 7⟩ : Mach)
        _ = run (cmpList j cnt) env 4 (⟨0, w16 (mem (mem 0 - 2) - w16 (mem (mem 0 - 1))), updMem mem 0 (mem 0 - 1), 8⟩ : Mach) := by rw [f0]
        _ = run (cmpList j cnt) env 3 (step (cmpList j cnt) env (⟨0, w16 (mem (mem 0 - 2) - w16 (mem (mem 0 - 1))), updMem mem 0 (mem 0 - 1), 8⟩ : Mach)) := run_succ (cmpList j cnt) env 3 (⟨0, w16 (mem (mem 0 - 2) - w16 (mem (mem 0 - 1))), updMem mem 0 (mem 0 - 1), 8⟩ : Mach)
        _ = run (cmpList j cnt) env 3 (⟨mem 0 - 2, w16 (mem (mem 0 - 2) - w16 (mem (mem 0 - 1))), updMem mem 0 (mem 0 - 1), 9⟩ : Mach) := by rw [f1]
        _ = run (cmpList j cnt) env 2 (step (cmpList j cnt) env (⟨mem 0 - 2, w16 (mem (mem 0 - 2) - w16 (mem (mem 0 - 1))), updMem mem 0 (mem 0 - 1), 9⟩ : Mach)) := run_succ (cmpList j cnt) env 2 (⟨mem 0 - 2, w16 (mem (mem 0 - 2) - w16 (mem (mem 0 - 1))), updMem mem 0 (mem 0 - 1), 9⟩ : Mach)
        _ = run (cmpList j cnt) env 2 (⟨mem 0 - 2, w16 (mem (mem 0 - 2) - w16 (mem (mem 0 - 1))), updMem (updMem mem 0 (mem 0 - 1)) (mem 0 - 2) 0, 10⟩ : Mach) := by rw [f2]
        _ = run (cmpList j cnt) env 1 (step (cmpList j cnt) env (⟨mem 0 - 2, w16 (mem (mem 0 - 2) - w16 (mem (mem 0 - 1))), updMem (updMem mem 0 (mem 0 - 1)) (mem 0 - 2) 0, 10⟩ : Mach)) := run_succ (cmpList j cnt) env 1 (⟨mem 0 - 2, w16 (mem (mem 0 - 2) - w16 (mem (mem 0 - 1))), updMem (updMem mem 0 (mem 0 - 1)) (mem 0 - 2) 0, 10⟩ : Mach)
        _ = run (cmpList j cnt) env 1 (⟨15, w16 (mem (mem 0 - 2) - w16 (mem (mem 0 - 1))), updMem (updMem mem 0 (mem 0 - 1)) (mem 0 - 2) 0, 11⟩ : Mach) := by rw [f3]
        _ = run (cmpList j cnt) env 0 (step (cmpList j cnt) env (⟨15, w16 (mem (mem 0 - 2) - w16 (mem (mem 0 - 1))), updMem (updMem mem 0 (mem 0 - 1)) (mem 0 - 2) 0, 11⟩ : Mach)) := run_succ (cmpList j cnt) env 0 (⟨15, w16 (mem (mem 0 - 2) - w16 (mem (mem 0 - 1))), updMem (updMem mem 0 (mem 0 - 1)) (mem 0 - 2) 0, 11⟩ : Mach)
        _ = run (cmpList j cnt) env 0 (⟨15, w16 (mem (mem 0 - 2) - w16 (mem (mem 0 - 1))), updMem (updMem mem 0 (mem 0 - 1)) (mem 0 - 2) 0, 15⟩ : Mach) := by rw [f4]
        _ = (⟨15, w16 (mem (mem 0 - 2) - w16 (mem (mem 0 - 1))), updMem (updMem mem 0 (mem 0 - 1)) (mem 0 - 2) 0, 15⟩ : Mach) := run_zero (cmpList j cnt) env (⟨15, w16 (mem (mem 0 - 2) - w16 (mem (mem 0 - 1))), updMem (updMem mem 0 (mem 0 - 1)) (mem 0 - 2) 0, 15⟩ : Mach)
    rw [hfin]
    constructor
    · dsimp only
      rw [updMem_ne (updMem mem 0 (mem 0 - 1)) (mem 0 - 2) 0 0 (by omega),
        updMem_same mem 0 (mem 0 - 1)]
    · rfl
  | true =>
    have hpc : run (cmpList j cnt) env 7 (⟨a, d, mem, 0⟩ : Mach) = (⟨12, w16 (mem (mem 0 - 2) - w16 (mem (mem 0 - 1))), updMem mem 0 (mem 0 - 1), 12⟩ : Mach) := by
      rw [hrun7, if_pos hc]
    have t0 : step (cmpList j cnt) env (⟨12, w16 (mem (mem 0 - 2) - w16 (mem (mem 0 - 1))), updMem mem 0 (mem 0 - 1), 12⟩ : Mach) = (⟨0, w16 (mem (mem 0 - 2) - w16 (mem (mem 0 - 1))), updMem mem 0 (mem 0 - 1), 13⟩ : Mach) := by
      rw [step_sym (cmpList j cnt) env (⟨12, w16 (mem (mem 0 - 2) - w16 (mem (mem 0 - 1))), updMem mem 0 (mem 0 - 1), 12⟩ : Mach) "SP" rfl]; rfl
    have t1 : step (cmpList j cnt) env (⟨0, w16 (mem (mem 0 - 2) - w16 (mem (mem 0 - 1))), updMem mem 0 (mem 0 - 1), 13⟩ : Mach) = (⟨mem 0 - 2, w16 (mem (mem 0 - 2) - w16 (mem (mem 0 - 1))), updMem mem 0 (mem 0 - 1), 14⟩ : Mach) := by
      rw [step_dA (cmpList j cnt) env (⟨0, w16 (mem (mem 0 - 2) - w16 (mem (mem 0 - 1))), updMem mem 0 (mem 0 - 1), 13⟩ : Mach) .mMinus1 rfl]
      dsimp only
      rw [updMem_same mem 0 (mem 0 - 1),
        show evalComp .mMinus1 0 (w16 (mem (mem 0 - 2) - w16 (mem (mem 0 - 1)))) (mem 0 - 1) = w16 (mem 0 - 1 - 1) from rfl,
        w16_eq (mem 0 - 1 - 1) (by omega) (by omega),
        show mem 0 - 1 - 1 = mem 0 - 2 from by omega]
    have t2 : step (cmpList j cnt) env (⟨mem 0 - 2, w16 (mem (mem 0 - 2) - w16 (mem (mem 0 - 1))), updMem mem 0 (mem 0 - 1), 14⟩ : Mach) = (⟨mem 0 - 2, w16 (mem (mem 0 - 2) - w16 (mem (mem 0 - 1))), updMem (updMem mem 0 (mem 0 - 1)) (mem 0 - 2) (-1), 15⟩ : Mach) := by
      rw [step_dM (cmpList j cnt) env (⟨mem 0 - 2, w16 (mem (mem 0 - 2) - w16 (mem (mem 0 - 1))), updMem mem 0 (mem 0 - 1), 14⟩ : Mach) .negOne rfl]; rfl
    have hrun10 : run (cmpList j cnt) env 10 (⟨a, d, mem, 0⟩ : Mach) = (⟨mem 0 - 2, w16 (mem (mem 0 - 2) - w16 (mem (mem 0 - 1))), updMem (updMem mem 0 (mem 0 - 1)) (mem 0 - 2) (-1), 15⟩ : Mach) := by
      rw [run_add (cmpList j cnt) env 3 7 (⟨a, d, mem, 0⟩ : Mach), hpc]
      calc run (cmpList j cnt) env 3 (⟨12, w16 (mem (mem 0 - 2) - w16 (mem (mem 0 - 1))), updMem mem 0 (mem 0 - 1), 12⟩ : Mach)
          = run (cmpList j cnt) env 2 (step (cmpList j cnt) env (⟨12, w16 (mem (mem 0 - 2) - w16 (mem (mem 0 - 1))), updMem mem 0 (mem 0 - 1), 12⟩ : Mach)) := run_succ (cmpList j cnt) env 2 (⟨12, w16 (mem (mem 0 - 2) - w16 (mem (mem 0 - 1))), updMem mem 0 (mem 0 - 1), 12⟩ : Mach)
        _ = run (cmpList j cnt) env 2 (⟨0, w16 (mem (mem 0 - 2) - w16 (mem (mem 0 - 1))), updMem mem 0 (mem 0 - 1), 13⟩ : Mach) := by rw [t0]
        _ = run (cmpList j cnt) env 1 (step (cmpList j cnt) env (⟨0, w16 (mem (mem 0 - 2) - w16 (mem (mem 0 - 1))), updMem mem 0 (mem 0 - 1), 13⟩ : Mach)) := run_succ (cmpList j cnt) env 1 (⟨0, w16 (mem (mem 0 - 2) - w16 (mem (mem 0 - 1))), updMem mem 0 (mem 0 - 1), 13⟩ : Mach)
        _ = run (cmpList j cnt) env 1 (⟨mem 0 - 2, w16 (mem (mem 0 - 2) - w16 (mem (mem 0 - 1))), updMem mem 0 (mem 0 - 1), 14⟩ : Mach) := by rw [t1]
        _ = run (cmpList j cnt) env 0 (step (cmpList j cnt) env (⟨mem 0 - 2, w16 (mem (mem 0 - 2) - w16 (mem (mem 0 - 1))), updMem mem 0 (mem 0 - 1), 14⟩ : Mach)) := run_succ (cmpList j cnt) env 0 (⟨mem 0 - 2, w16 (mem (mem 0 - 2) - w16 (mem (mem 0 - 1))), updMem mem 0 (mem 0 - 1), 14⟩ : Mach)
        _ = run (cmpList j cnt) env 0 (⟨mem 0 - 2, w16 (mem (mem 0 - 2) - w16 (mem (mem 0 - 1))), updMem (updMem mem 0 (mem 0 - 1)) (mem 0 - 2) (-1), 15⟩ : Mach) := by rw [t2]
        _ = (⟨mem 0 - 2, w16 (mem (mem 0 - 2) - w16 (mem (mem 0 - 1))), updMem (updMem mem 0 (mem 0 - 1)) (mem 0 - 2) (-1), 15⟩ : Mach) := run_zero (cmpList j cnt) env (⟨mem 0 - 2, w16 (mem (mem 0 - 2) - w16 (mem (mem 0 - 1))), updMem (updMem mem 0 (mem 0 - 1)) (mem 0 - 2) (-1), 15⟩ : Mach)
    have hfin : run (cmpList j cnt) env 12 (⟨a, d, mem, 0⟩ : Mach) = (⟨mem 0 - 2, w16 (mem (mem 0 - 2) - w16 (mem (mem 0 - 1))), updMem (updMem mem 0 (mem 0 - 1)) (mem 0 - 2) (-1), 15⟩ : Mach) := by
      rw [run_add (cmpList j cnt) env 2 10 (⟨a, d, mem, 0⟩ : Mach), hrun10]
      exact run_halted (cmpList j cnt) env 2 (⟨mem 0 - 2, w16 (mem (mem 0 - 2) - w16 (mem (mem 0 - 1))), updMem (updMem mem 0 (mem 0 - 1)) (mem 0 - 2) (-1), 15⟩ : Mach) (by
        rw [show (code (cmpList j cnt)).length = 15 from rfl])
    rw [hfin]
    constructor
    · dsimp only
      rw [updMem_ne (updMem mem 0 (mem 0 - 1)) (mem 0 - 2) (-1) 0 (by omega),
        updMem_same mem 0 (mem 0 - 1)]
    · rfl

end VMT

namespace Hack

theorem w16_add_left (x y : Int) : w16 (w16 x + y) = w16 (x + y) := by
  unfold w16
  omega

theorem w16_add_right (x y : Int) : w16 (x + w16 y) = w16 (x + y) := by
  unfold w16
  omega

theorem loadMem_run (p : List Instr) (env : String → Int) (m : Mach) (x : Instr) (a : Int)
    (h0 : (code p)[m.pc]? = some x)
    (hx : x = .num a ∨ ∃ s, x = .sym s ∧ resolveSym p env s = a)
    (h1 : (code p)[m.pc + 1]? = some (.c .dD .cM .noJump)) :
    run p env 2 m = ⟨a, w16 (m.mem a), m.mem, m.pc + 2⟩ := by
  have e0 : step p env m = ⟨a, m.D, m.mem, m.pc + 1⟩ := by
    rcases hx with h | ⟨s, hs, hres⟩
    · rw [h] at h0
      rw [step_num p env m a h0]
    · rw [hs] at h0
      rw [step_sym p env m s h0, hres]
  have e1 : step p env ⟨a, m.D, m.mem, m.pc + 1⟩ = ⟨a, w16 (m.mem a), m.mem, m.pc + 2⟩ := by
    rw [step_dD p env _ .cM h1]; rfl
  calc run p env 2 m
      = run p env 1 (step p env m) := rfl
    _ = run p env 1 ⟨a, m.D, m.mem, m.pc + 1⟩ := by rw [e0]
    _ = run p env 0 (step p env ⟨a, m.D, m.mem, m.pc + 1⟩) := rfl
    _ = ⟨a, w16 (m.mem a), m.mem, m.pc + 2⟩ := by rw [run_zero, e1]

theorem pushFromAddr_run (p : List Instr) (env : String → Int) (m : Mach) (x : Instr) (a : Int)
    (h0 : (code p)[m.pc]? = some x)
    (hx : x = .num a ∨ ∃ s, x = .sym s ∧ resolveSym p env s = a)
    (h1 : (code p)[m.pc + 1]? = some (.c .dD .cM .noJump))
    (h2 : (code p)[m.pc + 2]? = some (.sym "SP"))
    (h3 : (code p)[m.pc + 3]? = some (.c .dA .cM .noJump))
    (h4 : (code p)[m.pc + 4]? = some (.c .dM .cD .noJump))
    (h5 : (code p)[m.pc + 5]? = some (.sym "SP"))
    (h6 : (code p)[m.pc + 6]? = some (.c .dM .mPlus1 .noJump))
    (hs1 : 256 ≤ m.mem 0) (hs2 : m.mem 0 ≤ 32766) :
    run p env 7 m =
      ⟨0, w16 (m.mem a),
       updMem (updMem m.mem (m.mem 0) (w16 (m.mem a))) 0 (m.mem 0 + 1),
       m.pc + 7⟩ := by
  rw [show (7 : Nat) = 5 + 2 from rfl, run_add p env 5 2 m,
    loadMem_run p env m x a h0 hx h1,
    pushTail_run p env ⟨a, w16 (m.mem a), m.mem, m.pc + 2⟩ h2 h3 h4 h5 h6 hs1 hs2,
    w16_w16]

theorem pushConstant_run (p : List Instr) (env : String → Int) (m : Mach) (x : Instr) (a : Int)
    (h0 : (code p)[m.pc]? = some x)
    (hx : x = .num a ∨ ∃ s, x = .sym s ∧ resolveSym p env s = a)
    (h1 : (code p)[m.pc + 1]? = some (.c .dD .cA .noJump))
    (h2 : (code p)[m.pc + 2]? = some (.sym "SP"))
    (h3 : (code p)[m.pc + 3]? = some (.c .dA .cM .noJump))
    (h4 : (code p)[m.pc + 4]? = some (.c .dM .cD .noJump))
    (h5 : (code p)[m.pc + 5]? = some (.sym "SP"))
    (h6 : (code p)[m.pc + 6]? = some (.c .dM .mPlus1 .noJump))
    (hs1 : 256 ≤ m.mem 0) (hs2 : m.mem 0 ≤ 32766) :
    run p env 7 m =
      ⟨0, w16 a,
       updMem (updMem m.mem (m.mem 0) (w16 a)) 0 (m.mem 0 + 1),
       m.pc + 7⟩ := by
  rw [show (7 : Nat) = 5 + 2 from rfl, run_add p env 5 2 m,
    loadAddr_run p env m x a h0 hx h1,
    pushTail_run p env ⟨a, w16 a, m.mem, m.pc + 2⟩ h2 h3 h4 h5 h6 hs1 hs2,
    w16_w16]

theorem loadIndirect_run (p : List Instr) (env : String → Int) (m : Mach)
    (s : String) (ra : Int) (i : Int)
    (h0 : (code p)[m.pc]? = some (.sym s))
    (hres : resolveSym p env s = ra)
    (h1 : (code p)[m.pc + 1]? = some (.c .dD .cM .noJump))
    (h2 : (code p)[m.pc + 2]? = some (.num i))
    (h3 : (code p)[m.pc + 3]? = some (.c .dA .dPlusA .noJump))
    (h4 : (code p)[m.pc + 4]? = some (.c .dD .cM .noJump)) :
    run p env 5 m =
      ⟨w16 (m.mem ra + i), w16 (m.mem (w16 (m.mem ra + i))), m.mem, m.pc + 5⟩ := by
  rw [show (5 : Nat) = 3 + 2 from rfl, run_add p env 3 2 m,
    load2_run p env m s ra h0 h1 hres]
  have e2 : step p env ⟨ra, w16 (m.mem ra), m.mem, m.pc + 2⟩ =
      ⟨i, w16 (m.mem ra), m.mem, m.pc + 3⟩ := by
    rw [step_num p env _ i h2]
  have e3 : step p env ⟨i, w16 (m.mem ra), m.mem, m.pc + 3⟩ =
      ⟨w16 (m.mem ra + i), w16 (m.mem ra), m.mem, m.pc + 4⟩ := by
    rw [step_dA p env _ .dPlusA h3]
    dsimp only
    rw [show evalComp .dPlusA i (w16 (m.mem ra)) (m.mem i) =
      w16 (w16 (m.mem ra) + i) from rfl, w16_add_left]
  have e4 : step p env ⟨w16 (m.mem ra + i), w16 (m.mem ra), m.mem, m.pc + 4⟩ =
      ⟨w16 (m.mem ra + i), w16 (m.mem (w16 (m.mem ra + i))), m.mem, m.pc + 5⟩ := by
    rw [step_dD p env _ .cM h4]; rfl
  calc run p env 3 ⟨ra, w16 (m.mem ra), m.mem, m.pc + 2⟩
      = run p env 2 (step p env ⟨ra, w16 (m.mem ra), m.mem, m.pc + 2⟩) := rfl
    _ = run p env 2 ⟨i, w16 (m.mem ra), m.mem, m.pc + 3⟩ := by rw [e2]
    _ = run p env 1 (step p env ⟨i, w16 (m.mem ra), m.mem, m.pc + 3⟩) := rfl
    _ = run p env 1 ⟨w16 (m.mem ra + i), w16 (m.mem ra), m.mem, m.pc + 4⟩ := by rw [e3]
    _ = run p env 0 (step p env ⟨w16 (m.mem ra + i), w16 (m.mem ra), m.mem, m.pc + 4⟩) := rfl
    _ = ⟨w16 (m.mem ra + i), w16 (m.mem (w16 (m.mem ra + i))), m.mem, m.pc + 5⟩ := by
        rw [run_zero, e4]

theorem pushIndirect_run (p : List Instr) (env : String → Int) (m : Mach)
    (s : String) (ra : Int) (i : Int)
    (h0 : (code p)[m.pc]? = some (.sym s))
    (hres : resolveSym p env s = ra)
    (h1 : (code p)[m.pc + 1]? = some (.c .dD .cM .noJump))
    (h2 : (code p)[m.pc + 2]? = some (.num i))
    (h3 : (code p)[m.pc + 3]? = some (.c .dA .dPlusA .noJump))
    (h4 : (code p)[m.pc + 4]? = some (.c .dD .cM .noJump))
    (h5 : (code p)[m.pc + 5]? = some (.sym "SP"))
    (h6 : (code p)[m.pc + 6]? = some (.c .dA .cM .noJump))
    (h7 : (code p)[m.pc + 7]? = some (.c .dM .cD .noJump))
    (h8 : (code p)[m.pc + 8]? = some (.sym "SP"))
    (h9 : (code p)[m.pc + 9]? = some (.c .dM .mPlus1 .noJump))
    (hs1 : 256 ≤ m.mem 0) (hs2 : m.mem 0 ≤ 32766) :
    run p env 10 m =
      ⟨0, w16 (m.mem (w16 (m.mem ra + i))),
       updMem (updMem m.mem (m.mem 0) (w16 (m.mem (w16 (m.mem ra + i))))) 0 (m.mem 0 + 1),
       m.pc + 10⟩ := by
  rw [show (10 : Nat) = 5 + 5 from rfl, run_add p env 5 5 m,
    loadIndirect_run p env m s ra i h0 hres h1 h2 h3 h4,
    pushTail_run p env ⟨w16 (m.mem ra + i), w16 (m.mem (w16 (m.mem ra + i))), m.mem, m.pc + 5⟩
      h5 h6 h7 h8 h9 hs1 hs2,
    w16_w16]

end Hack

namespace Hack

theorem popDirect_run (p : List Instr) (env : String → Int) (m : Mach) (x : Instr) (a : Int)
    (h0 : (code p)[m.pc]? = some (.sym "SP"))
    (h1 : (code p)[m.pc + 1]? = some (.c .dAM .mMinus1 .noJump))
    (h2 : (code p)[m.pc + 2]? = some (.c .dD .cM .noJump))
    (h3 : (code p)[m.pc + 3]? = some x)
    (hx : x = .num a ∨ ∃ s, x = .sym s ∧ resolveSym p env s = a)
    (h4 : (code p)[m.pc + 4]? = some (.c .dM .cD .noJump))
    (hs1 : 256 ≤ m.mem 0) (hs2 : m.mem 0 ≤ 32767) :
    run p env 5 m =
      ⟨a, w16 (m.mem (m.mem 0 - 1)),
       updMem (updMem m.mem 0 (m.mem 0 - 1)) a (w16 (m.mem (m.mem 0 - 1))),
       m.pc + 5⟩ := by
  have e0 : step p env m = ⟨0, m.D, m.mem, m.pc + 1⟩ := by
    rw [step_sym p env m "SP" h0]; rfl
  have e1 : step p env ⟨0, m.D, m.mem, m.pc + 1⟩ =
      ⟨m.mem 0 - 1, m.D, updMem m.mem 0 (m.mem 0 - 1), m.pc + 2⟩ := by
    rw [step_dAM p env _ .mMinus1 h1]
    dsimp only
    rw [show evalComp .mMinus1 0 m.D (m.mem 0) = w16 (m.mem 0 - 1) from rfl,
      w16_eq (m.mem 0 - 1) (by omega) (by omega)]
  have e2 : step p env ⟨m.mem 0 - 1, m.D, updMem m.mem 0 (m.mem 0 - 1), m.pc + 2⟩ =
      ⟨m.mem 0 - 1, w16 (m.mem (m.mem 0 - 1)), updMem m.mem 0 (m.mem 0 - 1), m.pc + 3⟩ := by
    rw [step_dD p env _ .cM h2]
    dsimp only
    rw [updMem_ne m.mem 0 (m.mem 0 - 1) (m.mem 0 - 1) (by omega)]
    rfl
  have e3 : step p env ⟨m.mem 0 - 1, w16 (m.mem (m.mem 0 - 1)), updMem m.mem 0 (m.mem 0 - 1), m.pc + 3⟩ =
      ⟨a, w16 (m.mem (m.mem 0 - 1)), updMem m.mem 0 (m.mem 0 - 1), m.pc + 4⟩ := by
    rcases hx with h | ⟨s, hs, hres⟩
    · rw [h] at h3
      rw [step_num p env _ a h3]
    · rw [hs] at h3
      rw [step_sym p env _ s h3, hres]
  have e4 : step p env ⟨a, w16 (m.mem (m.mem 0 - 1)), updMem m.mem 0 (m.mem 0 - 1), m.pc + 4⟩ =
      ⟨a, w16 (m.mem (m.mem 0 - 1)),
       updMem (updMem m.mem 0 (m.mem 0 - 1)) a (w16 (m.mem (m.mem 0 - 1))), m.pc + 5⟩ := by
    rw [step_dM p env _ .cD h4]
    dsimp only
    rw [show evalComp .cD a (w16 (m.mem (m.mem 0 - 1)))
      (updMem m.mem 0 (m.mem 0 - 1) a) = w16 (w16 (m.mem (m.mem 0 - 1))) from rfl, w16_w16]
  calc run p env 5 m
      = run p env 4 (step p env m) := rfl
    _ = run p env 4 ⟨0, m.D, m.mem, m.pc + 1⟩ := by rw [e0]
    _ = run p env 3 (step p env ⟨0, m.D, m.mem, m.pc + 1⟩) := rfl
    _ = run p env 3 ⟨m.mem 0 - 1, m.D, updMem m.mem 0 (m.mem 0 - 1), m.pc + 2⟩ := by rw [e1]
    _ = run p env 2 (step p env ⟨m.mem 0 - 1, m.D, updMem m.mem 0 (m.mem 0 - 1), m.pc + 2⟩) := rfl
    _ = run p env 2 ⟨m.mem 0 - 1, w16 (m.mem (m.mem 0 - 1)), updMem m.mem 0 (m.mem 0 - 1), m.pc + 3⟩ := by rw [e2]
    _ = run p env 1 (step p env ⟨m.mem 0 - 1, w16 (m.mem (m.mem 0 - 1)), updMem m.mem 0 (m.mem 0 - 1), m.pc + 3⟩) := rfl
    _ = run p env 1 ⟨a, w16 (m.mem (m.mem 0 - 1)), updMem m.mem 0 (m.mem 0 - 1), m.pc + 4⟩ := by rw [e3]
    _ = run p env 0 (step p env ⟨a, w16 (m.mem (m.mem 0 - 1)), updMem m.mem 0 (m.mem 0 - 1), m.pc + 4⟩) := rfl
    _ = _ := by rw [run_zero, e4]

theorem popTail_run (p : List Instr) (env : String → Int) (m : Mach)
    (h0 : (code p)[m.pc]? = some (.sym "R13"))
    (h1 : (code p)[m.pc + 1]? = some (.c .dM .cD .noJump))
    (h2 : (code p)[m.pc + 2]? = some (.sym "SP"))
    (h3 : (code p)[m.pc + 3]? = some (.c .dAM .mMinus1 .noJump))
    (h4 : (code p)[m.pc + 4]? = some (.c .dD .cM .noJump))
    (h5 : (code p)[m.pc + 5]? = some (.sym "R13"))
    (h6 : (code p)[m.pc + 6]? = some (.c .dA .cM .noJump))
    (h7 : (code p)[m.pc + 7]? = some (.c .dM .cD .noJump))
    (hs1 : 256 ≤ m.mem 0) (hs2 : m.mem 0 ≤ 32767) :
    run p env 8 m =
      ⟨w16 m.D, w16 (m.mem (m.mem 0 - 1)),
       updMem (updMem (updMem m.mem 13 (w16 m.D)) 0 (m.mem 0 - 1)) (w16 m.D)
         (w16 (m.mem (m.mem 0 - 1))),
       m.pc + 8⟩ := by
  have e0 : step p env m = ⟨13, m.D, m.mem, m.pc + 1⟩ := by
    rw [step_sym p env m "R13" h0]; rfl
  have e1 : step p env ⟨13, m.D, m.mem, m.pc + 1⟩ =
      ⟨13, m.D, updMem m.mem 13 (w16 m.D), m.pc + 2⟩ := by
    rw [step_dM p env _ .cD h1]; rfl
  have e2 : step p env ⟨13, m.D, updMem m.mem 13 (w16 m.D), m.pc + 2⟩ =
      ⟨0, m.D, updMem m.mem 13 (w16 m.D), m.pc + 3⟩ := by
    rw [step_sym p env _ "SP" h2]; rfl
  have e3 : step p env ⟨0, m.D, updMem m.mem 13 (w16 m.D), m.pc + 3⟩ =
      ⟨m.mem 0 - 1, m.D, updMem (updMem m.mem 13 (w16 m.D)) 0 (m.mem 0 - 1), m.pc + 4⟩ := by
    rw [step_dAM p env _ .mMinus1 h3]
    dsimp only
    rw [updMem_ne m.mem 13 (w16 m.D) 0 (by omega),
      show evalComp .mMinus1 0 m.D (m.mem 0) = w16 (m.mem 0 - 1) from rfl,
      w16_eq (m.mem 0 - 1) (by omega) (by omega)]
  have e4 : step p env ⟨m.mem 0 - 1, m.D, updMem (updMem m.mem 13 (w16 m.D)) 0 (m.mem 0 - 1), m.pc + 4⟩ =
      ⟨m.mem 0 - 1, w16 (m.mem (m.mem 0 - 1)),
       updMem (updMem m.mem 13 (w16 m.D)) 0 (m.mem 0 - 1), m.pc + 5⟩ := by
    rw [step_dD p env _ .cM h4]
    dsimp only
    rw [updMem_ne (updMem m.mem 13 (w16 m.D)) 0 (m.mem 0 - 1) (m.mem 0 - 1) (by omega),
      updMem_ne m.mem 13 (w16 m.D) (m.mem 0 - 1) (by omega)]
    rfl
  have e5 : step p env ⟨m.mem 0 - 1, w16 (m.mem (m.mem 0 - 1)),
      updMem (updMem m.mem 13 (w16 m.D)) 0 (m.mem 0 - 1), m.pc + 5⟩ =
      ⟨13, w16 (m.mem (m.mem 0 - 1)),
       updMem (updMem m.mem 13 (w16 m.D)) 0 (m.mem 0 - 1), m.pc + 6⟩ := by
    rw [step_sym p env _ "R13" h5]; rfl
  have e6 : step p env ⟨13, w16 (m.mem (m.mem 0 - 1)),
      updMem (updMem m.mem 13 (w16 m.D)) 0 (m.mem 0 - 1), m.pc + 6⟩ =
      ⟨w16 m.D, w16 (m.mem (m.mem 0 - 1)),
       updMem (updMem m.mem 13 (w16 m.D)) 0 (m.mem 0 - 1), m.pc + 7⟩ := by
    rw [step_dA p env _ .cM h6]
    dsimp only
    rw [updMem_ne (updMem m.mem 13 (w16 m.D)) 0 (m.mem 0 - 1) 13 (by omega),
      updMem_same m.mem 13 (w16 m.D),
      show evalComp .cM 13 (w16 (m.mem (m.mem 0 - 1))) (w16 m.D) = w16 (w16 m.D) from rfl,
      w16_w16]
  have e7 : step p env ⟨w16 m.D, w16 (m.mem (m.mem 0 - 1)),
      updMem (updMem m.mem 13 (w16 m.D)) 0 (m.mem 0 - 1), m.pc + 7⟩ =
      ⟨w16 m.D, w16 (m.mem (m.mem 0 - 1)),
       updMem (updMem (updMem m.mem 13 (w16 m.D)) 0 (m.mem 0 - 1)) (w16 m.D)
         (w16 (m.mem (m.mem 0 - 1))), m.pc + 8⟩ := by
    rw [step_dM p env _ .cD h7]
    dsimp only
    rw [show evalComp .cD (w16 m.D) (w16 (m.mem (m.mem 0 - 1)))
      (updMem (updMem m.mem 13 (w16 m.D)) 0 (m.mem 0 - 1) (w16 m.D)) =
      w16 (w16 (m.mem (m.mem 0 - 1))) from rfl, w16_w16]
  calc run p env 8 m
      = run p env 7 (step p env m) := rfl
    _ = run p env 7 ⟨13, m.D, m.mem, m.pc + 1⟩ := by rw [e0]
    _ = run p env 6 (step p env ⟨13, m.D, m.mem, m.pc + 1⟩) := rfl
    _ = run p env 6 ⟨13, m.D, updMem m.mem 13 (w16 m.D), m.pc + 2⟩ := by rw [e1]
    _ = run p env 5 (step p env ⟨13, m.D, updMem m.mem 13 (w16 m.D), m.pc + 2⟩) := rfl
    _ = run p env 5 ⟨0, m.D, updMem m.mem 13 (w16 m.D), m.pc + 3⟩ := by rw [e2]
    _ = run p env 4 (step p env ⟨0, m.D, updMem m.mem 13 (w16 m.D), m.pc + 3⟩) := rfl
    _ = run p env 4 ⟨m.mem 0 - 1, m.D, updMem (updMem m.mem 13 (w16 m.D)) 0 (m.mem 0 - 1), m.pc + 4⟩ := by rw [e3]
    _ = run p env 3 (step p env ⟨m.mem 0 - 1, m.D, updMem (updMem m.mem 13 (w16 m.D)) 0 (m.mem 0 - 1), m.pc + 4⟩) := rfl
    _ = run p env 3 ⟨m.mem 0 - 1, w16 (m.mem (m.mem 0 - 1)), updMem (updMem m.mem 13 (w16 m.D)) 0 (m.mem 0 - 1), m.pc + 5⟩ := by rw [e4]
    _ = run p env 2 (step p env ⟨m.mem 0 - 1, w16 (m.mem (m.mem 0 - 1)), updMem (updMem m.mem 13 (w16 m.D)) 0 (m.mem 0 - 1), m.pc + 5⟩) := rfl
    _ = run p env 2 ⟨13, w16 (m.mem (m.mem 0 - 1)), updMem (updMem m.mem 13 (w16 m.D)) 0 (m.mem 0 - 1), m.pc + 6⟩ := by rw [e5]
    _ = run p env 1 (step p env ⟨13, w16 (m.mem (m.mem 0 - 1)), updMem (updMem m.mem 13 (w16 m.D)) 0 (m.mem 0 - 1), m.pc + 6⟩) := rfl
    _ = run p env 1 ⟨w16 m.D, w16 (m.mem (m.mem 0 - 1)), updMem (updMem m.mem 13 (w16 m.D)) 0 (m.mem 0 - 1), m.pc + 7⟩ := by rw [e6]
    _ = run p env 0 (step p env ⟨w16 m.D, w16 (m.mem (m.mem 0 - 1)), updMem (updMem m.mem 13 (w16 m.D)) 0 (m.mem 0 - 1), m.pc + 7⟩) := rfl
    _ = _ := by rw [run_zero, e7]

end Hack

namespace Hack

theorem popIndirectVM_run (p : List Instr) (env : String → Int) (m : Mach)
    (s : String) (ra : Int) (i : Int)
    (h0 : (code p)[m.pc]? = some (.num i))
    (h1 : (code p)[m.pc + 1]? = some (.c .dD .cA .noJump))
    (h2 : (code p)[m.pc + 2]? = some (.sym s))
    (hres : resolveSym p env s = ra)
    (h3 : (code p)[m.pc + 3]? = some (.c .dD .mPlusD .noJump))
    (h4 : (code p)[m.pc + 4]? = some (.sym "R13"))
    (h5 : (code p)[m.pc + 5]? = some (.c .dM .cD .noJump))
    (h6 : (code p)[m.pc + 6]? = some (.sym "SP"))
    (h7 : (code p)[m.pc + 7]? = some (.c .dAM .mMinus1 .noJump))
    (h8 : (code p)[m.pc + 8]? = some (.c .dD .cM .noJump))
    (h9 : (code p)[m.pc + 9]? = some (.sym "R13"))
    (h10 : (code p)[m.pc + 10]? = some (.c .dA .cM .noJump))
    (h11 : (code p)[m.pc + 11]? = some (.c .dM .cD .noJump))
    (hs1 : 256 ≤ m.mem 0) (hs2 : m.mem 0 ≤ 32767) :
    run p env 12 m =
      ⟨w16 (m.mem ra + i), w16 (m.mem (m.mem 0 - 1)),
       updMem (updMem (updMem m.mem 13 (w16 (m.mem ra + i))) 0 (m.mem 0 - 1))
         (w16 (m.mem ra + i)) (w16 (m.mem (m.mem 0 - 1))),
       m.pc + 12⟩ := by
  have e0 : step p env m = ⟨i, m.D, m.mem, m.pc + 1⟩ := by
    rw [step_num p env m i h0]
  have e1 : step p env ⟨i, m.D, m.mem, m.pc + 1⟩ = ⟨i, w16 i, m.mem, m.pc + 2⟩ := by
    rw [step_dD p env _ .cA h1]; rfl
  have e2 : step p env ⟨i, w16 i, m.mem, m.pc + 2⟩ = ⟨ra, w16 i, m.mem, m.pc + 3⟩ := by
    rw [step_sym p env _ s h2, hres]
  have e3 : step p env ⟨ra, w16 i, m.mem, m.pc + 3⟩ =
      ⟨ra, w16 (m.mem ra + i), m.mem, m.pc + 4⟩ := by
    rw [step_dD p env _ .mPlusD h3]
    dsimp only
    rw [show evalComp .mPlusD ra (w16 i) (m.mem ra) = w16 (m.mem ra + w16 i) from rfl,
      w16_add_right]
  have hrun4 : run p env 4 m = ⟨ra, w16 (m.mem ra + i), m.mem, m.pc + 4⟩ := by
    calc run p env 4 m
        = run p env 3 (step p env m) := rfl
      _ = run p env 3 ⟨i, m.D, m.mem, m.pc + 1⟩ := by rw [e0]
      _ = run p env 2 (step p env ⟨i, m.D, m.mem, m.pc + 1⟩) := rfl
      _ = run p env 2 ⟨i, w16 i, m.mem, m.pc + 2⟩ := by rw [e1]
      _ = run p env 1 (step p env ⟨i, w16 i, m.mem, m.pc + 2⟩) := rfl
      _ = run p env 1 ⟨ra, w16 i, m.mem, m.pc + 3⟩ := by rw [e2]
      _ = run p env 0 (step p env ⟨ra, w16 i, m.mem, m.pc + 3⟩) := rfl
      _ = _ := by rw [run_zero, e3]
  rw [show (12 : Nat) = 8 + 4 from rfl, run_add p env 8 4 m, hrun4,
    popTail_run p env ⟨ra, w16 (m.mem ra + i), m.mem, m.pc + 4⟩ h4 h5 h6 h7 h8 h9 h10 h11 hs1 hs2,
    w16_w16]

theorem popIndirectMain_run (p : List Instr) (env : String → Int) (m : Mach)
    (s : String) (ra : Int) (i : Int)
    (h0 : (code p)[m.pc]? = some (.sym s))
    (hres : resolveSym p env s = ra)
    (h1 : (code p)[m.pc + 1]? = some (.c .dD .cM .noJump))
    (h2 : (code p)[m.pc + 2]? = some (.num i))
    (h3 : (code p)[m.pc + 3]? = some (.c .dD .dPlusA .noJump))
    (h4 : (code p)[m.pc + 4]? = some (.sym "R13"))
    (h5 : (code p)[m.pc + 5]? = some (.c .dM .cD .noJump))
    (h6 : (code p)[m.pc + 6]? = some (.sym "SP"))
    (h7 : (code p)[m.pc + 7]? = some (.c .dAM .mMinus1 .noJump))
    (h8 : (code p)[m.pc + 8]? = some (.c .dD .cM .noJump))
    (h9 : (code p)[m.pc + 9]? = some (.sym "R13"))
    (h10 : (code p)[m.pc + 10]? = some (.c .dA .cM .noJump))
    (h11 : (code p)[m.pc + 11]? = some (.c .dM .cD .noJump))
    (hs1 : 256 ≤ m.mem 0) (hs2 : m.mem 0 ≤ 32767) :
    run p env 12 m =
      ⟨w16 (m.mem ra + i), w16 (m.mem (m.mem 0 - 1)),
       updMem (updMem (updMem m.mem 13 (w16 (m.mem ra + i))) 0 (m.mem 0 - 1))
         (w16 (m.mem ra + i)) (w16 (m.mem (m.mem 0 - 1))),
       m.pc + 12⟩ := by
  have hrun2 : run p env 2 m = ⟨ra, w16 (m.mem ra), m.mem, m.pc + 2⟩ :=
    load2_run p env m s ra h0 h1 hres
  have e2 : step p env ⟨ra, w16 (m.mem ra), m.mem, m.pc + 2⟩ =
      ⟨i, w16 (m.mem ra), m.mem, m.pc + 3⟩ := by
    rw [step_num p env _ i h2]
  have e3 : step p env ⟨i, w16 (m.mem ra), m.mem, m.pc + 3⟩ =
      ⟨i, w16 (m.mem ra + i), m.mem, m.pc + 4⟩ := by
    rw [step_dD p env _ .dPlusA h3]
    dsimp only
    rw [show evalComp .dPlusA i (w16 (m.mem ra)) (m.mem i) =
      w16 (w16 (m.mem ra) + i) from rfl, w16_add_left]
  have hrun4 : run p env 4 m = ⟨i, w16 (m.mem ra + i), m.mem, m.pc + 4⟩ := by
    rw [show (4 : Nat) = 2 + 2 from rfl, run_add p env 2 2 m, hrun2]
    calc run p env 2 ⟨ra, w16 (m.mem ra), m.mem, m.pc + 2⟩
        = run p env 1 (step p env ⟨ra, w16 (m.mem ra), m.mem, m.pc + 2⟩) := rfl
      _ = run p env 1 ⟨i, w16 (m.mem ra), m.mem, m.pc + 3⟩ := by rw [e2]
      _ = run p env 0 (step p env ⟨i, w16 (m.mem ra), m.mem, m.pc + 3⟩) := rfl
      _ = _ := by rw [run_zero, e3]
  rw [show (12 : Nat) = 8 + 4 from rfl, run_add p env 8 4 m, hrun4,
    popTail_run p env ⟨i, w16 (m.mem ra + i), m.mem, m.pc + 4⟩ h4 h5 h6 h7 h8 h9 h10 h11 hs1 hs2,
    w16_w16]

end Hack

open Hack

theorem vmPush_sp_delta (env : String → Int) (a0 d0 : Int) (mem : Int → Int)
    (segment : String) (index : Nat) (frag : List Hack.Instr)
    (hfrag : VMT.pushAsm segment index = some frag)
    (hs1 : 256 ≤ mem 0) (hs2 : mem 0 ≤ 32766) :
    (Hack.run frag env 12 ⟨a0, d0, mem, 0⟩).mem 0 = mem 0 + 1 := by
  by_cases h1 : segment = "constant"
  · subst h1
    rw [show VMT.pushAsm "constant" index = some ([Instr.num (Nat.cast index), Instr.c Dest.dD Comp.cA Jump.noJump] ++ VMT.pushTail) from rfl] at hfrag
    obtain rfl := Option.some.inj hfrag
    rw [show (12 : Nat) = 5 + 7 from rfl,
      run_add ([Instr.num (Nat.cast index), Instr.c Dest.dD Comp.cA Jump.noJump] ++ VMT.pushTail) env 5 7 ⟨a0, d0, mem, 0⟩,
      pushConstant_run ([Instr.num (Nat.cast index), Instr.c Dest.dD Comp.cA Jump.noJump] ++ VMT.pushTail) env ⟨a0, d0, mem, 0⟩ (Instr.num (Nat.cast index)) (Nat.cast index)
        rfl (Or.inl rfl) rfl rfl rfl rfl rfl rfl hs1 hs2,
      run_halted ([Instr.num (Nat.cast index), Instr.c Dest.dD Comp.cA Jump.noJump] ++ VMT.pushTail) env 5 _ (by show (7 : Nat) ≤ 0 + 7; omega)]
    dsimp only
    exact updMem_same (updMem mem (mem 0) (w16 (Nat.cast index))) 0 (mem 0 + 1)
  by_cases hLCL : segment = "local"
  · subst hLCL
    rw [show VMT.pushAsm "local" index = some ([Instr.sym "LCL", Instr.c Dest.dD Comp.cM Jump.noJump, Instr.num (Nat.cast index), Instr.c Dest.dA Comp.dPlusA Jump.noJump, Instr.c Dest.dD Comp.cM Jump.noJump] ++ VMT.pushTail) from rfl] at hfrag
    obtain rfl := Option.some.inj hfrag
    rw [show (12 : Nat) = 2 + 10 from rfl,
      run_add ([Instr.sym "LCL", Instr.c Dest.dD Comp.cM Jump.noJump, Instr.num (Nat.cast index), Instr.c Dest.dA Comp.dPlusA Jump.noJump, Instr.c Dest.dD Comp.cM Jump.noJump] ++ VMT.pushTail) env 2 10 ⟨a0, d0, mem, 0⟩,
      pushIndirect_run ([Instr.sym "LCL", Instr.c Dest.dD Comp.cM Jump.noJump, Instr.num (Nat.cast index), Instr.c Dest.dA Comp.dPlusA Jump.noJump, Instr.c Dest.dD Comp.cM Jump.noJump] ++ VMT.pushTail) env ⟨a0, d0, mem, 0⟩ "LCL" 1 (Nat.cast index)
        rfl rfl rfl rfl rfl rfl rfl rfl rfl rfl rfl hs1 hs2,
      run_halted ([Instr.sym "LCL", Instr.c Dest.dD Comp.cM Jump.noJump, Instr.num (Nat.cast index), Instr.c Dest.dA Comp.dPlusA Jump.noJump, Instr.c Dest.dD Comp.cM Jump.noJump] ++ VMT.pushTail) env 2 _ (by show (10 : Nat) ≤ 0 + 10; omega)]
    dsimp only
    exact updMem_same (updMem mem (mem 0) (w16 (mem (w16 (mem 1 + Nat.cast index))))) 0 (mem 0 + 1)
  by_cases hARG : segment = "argument"
  · subst hARG
    rw [show VMT.pushAsm "argument" index = some ([Instr.sym "ARG", Instr.c Dest.dD Comp.cM Jump.noJump, Instr.num (Nat.cast index), Instr.c Dest.dA Comp.dPlusA Jump.noJump, Instr.c Dest.dD Comp.cM Jump.noJump] ++ VMT.pushTail) from rfl] at hfrag
    obtain rfl := Option.some.inj hfrag
    rw [show (12 : Nat) = 2 + 10 from rfl,
      run_add ([Instr.sym "ARG", Instr.c Dest.dD Comp.cM Jump.noJump, Instr.num (Nat.cast index), Instr.c Dest.dA Comp.dPlusA Jump.noJump, Instr.c Dest.dD Comp.cM Jump.noJump] ++ VMT.pushTail) env 2 10 ⟨a0, d0, mem, 0⟩,
      pushIndirect_run ([Instr.sym "ARG", Instr.c Dest.dD Comp.cM Jump.noJump, Instr.num (Nat.cast index), Instr.c Dest.dA Comp.dPlusA Jump.noJump, Instr.c Dest.dD Comp.cM Jump.noJump] ++ VMT.pushTail) env ⟨a0, d0, mem, 0⟩ "ARG" 2 (Nat.cast index)
        rfl rfl rfl rfl rfl rfl rfl rfl rfl rfl rfl hs1 hs2,
      run_halted ([Instr.sym "ARG", Instr.c Dest.dD Comp.cM Jump.noJump, Instr.num (Nat.cast index), Instr.c Dest.dA Comp.dPlusA Jump.noJump, Instr.c Dest.dD Comp.cM Jump.noJump] ++ VMT.pushTail) env 2 _ (by show (10 : Nat) ≤ 0 + 10; omega)]
    dsimp only
    exact updMem_same (updMem mem (mem 0) (w16 (mem (w16 (mem 2 + Nat.cast index))))) 0 (mem 0 + 1)
  by_cases hTHIS : segment = "this"
  · subst hTHIS
    rw [show VMT.pushAsm "this" index = some ([Instr.sym "THIS", Instr.c Dest.dD Comp.cM Jump.noJump, Instr.num (Nat.cast index), Instr.c Dest.dA Comp.dPlusA Jump.noJump, Instr.c Dest.dD Comp.cM Jump.noJump] ++ VMT.pushTail) from rfl] at hfrag
    obtain rfl := Option.some.inj hfrag
    rw [show (12 : Nat) = 2 + 10 from rfl,
      run_add ([Instr.sym "THIS", Instr.c Dest.dD Comp.cM Jump.noJump, Instr.num (Nat.cast index), Instr.c Dest.dA Comp.dPlusA Jump.noJump, Instr.c Dest.dD Comp.cM Jump.noJump] ++ VMT.pushTail) env 2 10 ⟨a0, d0, mem, 0⟩,
      pushIndirect_run ([Instr.sym "THIS", Instr.c Dest.dD Comp.cM Jump.noJump, Instr.num (Nat.cast index), Instr.c Dest.dA Comp.dPlusA Jump.noJump, Instr.c Dest.dD Comp.cM Jump.noJump] ++ VMT.pushTail) env ⟨a0, d0, mem, 0⟩ "THIS" 3 (Nat.cast index)
        rfl rfl rfl rfl rfl rfl rfl rfl rfl rfl rfl hs1 hs2,
      run_halted ([Instr.sym "THIS", Instr.c Dest.dD Comp.cM Jump.noJump, Instr.num (Nat.cast index), Instr.c Dest.dA Comp.dPlusA Jump.noJump, Instr.c Dest.dD Comp.cM Jump.noJump] ++ VMT.pushTail) env 2 _ (by show (10 : Nat) ≤ 0 + 10; omega)]
    dsimp only
    exact updMem_same (updMem mem (mem 0) (w16 (mem (w16 (mem 3 + Nat.cast index))))) 0 (mem 0 + 1)
  by_cases hTHAT : segment = "that"
  · subst hTHAT
    rw [show VMT.pushAsm "that" index = some ([Instr.sym "THAT", Instr.c Dest.dD Comp.cM Jump.noJump, Instr.num (Nat.cast index), Instr.c Dest.dA Comp.dPlusA Jump.noJump, Instr.c Dest.dD Comp.cM Jump.noJump] ++ VMT.pushTail) from rfl] at hfrag
    obtain rfl := Option.some.inj hfrag
    rw [show (12 : Nat) = 2 + 10 from rfl,
      run_add ([Instr.sym "THAT", Instr.c Dest.dD Comp.cM Jump.noJump, Instr.num (Nat.cast index), Instr.c Dest.dA Comp.dPlusA Jump.noJump, Instr.c Dest.dD Comp.cM Jump.noJump] ++ VMT.pushTail) env 2 10 ⟨a0, d0, mem, 0⟩,
      pushIndirect_run ([Instr.sym "THAT", Instr.c Dest.dD Comp.cM Jump.noJump, Instr.num (Nat.cast index), Instr.c Dest.dA Comp.dPlusA Jump.noJump, Instr.c Dest.dD Comp.cM Jump.noJump] ++ VMT.pushTail) env ⟨a0, d0, mem, 0⟩ "THAT" 4 (Nat.cast index)
        rfl rfl rfl rfl rfl rfl rfl rfl rfl rfl rfl hs1 hs2,
      run_halted ([Instr.sym "THAT", Instr.c Dest.dD Comp.cM Jump.noJump, Instr.num (Nat.cast index), Instr.c Dest.dA Comp.dPlusA Jump.noJump, Instr.c Dest.dD Comp.cM Jump.noJump] ++ VMT.pushTail) env 2 _ (by show (10 : Nat) ≤ 0 + 10; omega)]
    dsimp only
    exact updMem_same (updMem mem (mem 0) (w16 (mem (w16 (mem 4 + Nat.cast index))))) 0 (mem 0 + 1)
  by_cases htemp : segment = "temp"
  · subst htemp
    rw [show VMT.pushAsm "temp" index = some ([Instr.num (Nat.cast (5 + index)), Instr.c Dest.dD Comp.cM Jump.noJump] ++ VMT.pushTail) from rfl] at hfrag
    obtain rfl := Option.some.inj hfrag
    rw [show (12 : Nat) = 5 + 7 from rfl,
      run_add ([Instr.num (Nat.cast (5 + index)), Instr.c Dest.dD Comp.cM Jump.noJump] ++ VMT.pushTail) env 5 7 ⟨a0, d0, mem, 0⟩,
      pushFromAddr_run ([Instr.num (Nat.cast (5 + index)), Instr.c Dest.dD Comp.cM Jump.noJump] ++ VMT.pushTail) env ⟨a0, d0, mem, 0⟩ (Instr.num (Nat.cast (5 + index))) (Nat.cast (5 + index))
        rfl (Or.inl rfl) rfl rfl rfl rfl rfl rfl hs1 hs2,
      run_halted ([Instr.num (Nat.cast (5 + index)), Instr.c Dest.dD Comp.cM Jump.noJump] ++ VMT.pushTail) env 5 _ (by show (7 : Nat) ≤ 0 + 7; omega)]
    dsimp only
    exact updMem_same (updMem mem (mem 0) (w16 (mem (Nat.cast (5 + index))))) 0 (mem 0 + 1)
  by_cases hptr : segment = "pointer"
  · subst hptr
    by_cases hi : index = 0
    · subst hi
      rw [show VMT.pushAsm "pointer" 0 = some ([Instr.sym "THIS", Instr.c Dest.dD Comp.cM Jump.noJump] ++ VMT.pushTail) from rfl] at hfrag
      obtain rfl := Option.some.inj hfrag
      rw [show (12 : Nat) = 5 + 7 from rfl,
        run_add ([Instr.sym "THIS", Instr.c Dest.dD Comp.cM Jump.noJump] ++ VMT.pushTail) env 5 7 ⟨a0, d0, mem, 0⟩,
        pushFromAddr_run ([Instr.sym "THIS", Instr.c Dest.dD Comp.cM Jump.noJump] ++ VMT.pushTail) env ⟨a0, d0, mem, 0⟩ (Instr.sym "THIS") 3
          rfl (Or.inr ⟨"THIS", rfl, rfl⟩) rfl rfl rfl rfl rfl rfl hs1 hs2,
        run_halted ([Instr.sym "THIS", Instr.c Dest.dD Comp.cM Jump.noJump] ++ VMT.pushTail) env 5 _ (by show (7 : Nat) ≤ 0 + 7; omega)]
      dsimp only
      exact updMem_same (updMem mem (mem 0) (w16 (mem 3))) 0 (mem 0 + 1)
    · rw [show VMT.pushAsm "pointer" index =
        some ([Instr.sym (if index = 0 then "THIS" else "THAT"), Instr.c Dest.dD Comp.cM Jump.noJump] ++ VMT.pushTail) from rfl,
        if_neg hi] at hfrag
      obtain rfl := Option.some.inj hfrag
      rw [show (12 : Nat) = 5 + 7 from rfl,
        run_add ([Instr.sym "THAT", Instr.c Dest.dD Comp.cM Jump.noJump] ++ VMT.pushTail) env 5 7 ⟨a0, d0, mem, 0⟩,
        pushFromAddr_run ([Instr.sym "THAT", Instr.c Dest.dD Comp.cM Jump.noJump] ++ VMT.pushTail) env ⟨a0, d0, mem, 0⟩ (Instr.sym "THAT") 4
          rfl (Or.inr ⟨"THAT", rfl, rfl⟩) rfl rfl rfl rfl rfl rfl hs1 hs2,
        run_halted ([Instr.sym "THAT", Instr.c Dest.dD Comp.cM Jump.noJump] ++ VMT.pushTail) env 5 _ (by show (7 : Nat) ≤ 0 + 7; omega)]
      dsimp only
      exact updMem_same (updMem mem (mem 0) (w16 (mem 4))) 0 (mem 0 + 1)
  by_cases hst : segment = "static"
  · subst hst
    rw [show VMT.pushAsm "static" index = some ([Instr.sym ("Static." ++ Nat.repr index), Instr.c Dest.dD Comp.cM Jump.noJump] ++ VMT.pushTail) from rfl] at hfrag
    obtain rfl := Option.some.inj hfrag
    have hres : resolveSym ([Instr.sym ("Static." ++ Nat.repr index), Instr.c Dest.dD Comp.cM Jump.noJump] ++ VMT.pushTail) env ("Static." ++ Nat.repr index) =
        env ("Static." ++ Nat.repr index) := by
      unfold resolveSym
      rw [builtin_Static]
      rfl
    rw [show (12 : Nat) = 5 + 7 from rfl,
      run_add ([Instr.sym ("Static." ++ Nat.repr index), Instr.c Dest.dD Comp.cM Jump.noJump] ++ VMT.pushTail) env 5 7 ⟨a0, d0, mem, 0⟩,
      pushFromAddr_run ([Instr.sym ("Static." ++ Nat.repr index), Instr.c Dest.dD Comp.cM Jump.noJump] ++ VMT.pushTail) env ⟨a0, d0, mem, 0⟩
        (Instr.sym ("Static." ++ Nat.repr index)) (env ("Static." ++ Nat.repr index))
        rfl (Or.inr ⟨("Static." ++ Nat.repr index), rfl, hres⟩) rfl rfl rfl rfl rfl rfl hs1 hs2,
      run_halted ([Instr.sym ("Static." ++ Nat.repr index), Instr.c Dest.dD Comp.cM Jump.noJump] ++ VMT.pushTail) env 5 _ (by show (7 : Nat) ≤ 0 + 7; omega)]
    dsimp only
    exact updMem_same (updMem mem (mem 0) (w16 (mem (env ("Static." ++ Nat.repr index))))) 0 (mem 0 + 1)
  exfalso
  have hnone : VMT.pushAsm segment index = none := by
    simp only [VMT.pushAsm]
    rw [if_neg h1, if_neg hLCL, if_neg hARG, if_neg hTHIS, if_neg hTHAT,
      if_neg htemp, if_neg hptr, if_neg hst]
  rw [hnone] at hfrag
  exact Option.noConfusion hfrag

/-- Side condition for the SP-delta of a pop: the resolved target address is
not RAM cell 0 (the SP cell itself); with the machine invariant (segment
bases point into their segments, static variables live at addresses 16 and
up) this always holds. -/
def popTargetOK (segment : String) (index : Nat) (env : String → Int) (mem : Int → Int) : Prop :=
  if segment = "local" then Hack.w16 (mem 1 + (index : Int)) ≠ 0
  else if segment = "argument" then Hack.w16 (mem 2 + (index : Int)) ≠ 0
  else if segment = "this" then Hack.w16 (mem 3 + (index : Int)) ≠ 0
  else if segment = "that" then Hack.w16 (mem 4 + (index : Int)) ≠ 0
  else if segment = "static" then env ("Static." ++ Nat.repr index) ≠ 0
  else True

theorem vmPop_sp_delta (env : String → Int) (a0 d0 : Int) (mem : Int → Int)
    (segment : String) (index : Nat) (frag : List Hack.Instr)
    (hfrag : VMT.popAsm segment index = some frag)
    (hok : popTargetOK segment index env mem)
    (hs1 : 256 ≤ mem 0) (hs2 : mem 0 ≤ 32767) :
    (Hack.run frag env 12 ⟨a0, d0, mem, 0⟩).mem 0 = mem 0 - 1 := by
  by_cases h1 : segment = "constant"
  · subst h1
    rw [show VMT.popAsm "constant" index = none from rfl] at hfrag
    exact Option.noConfusion hfrag
  by_cases hLCL : segment = "local"
  · subst hLCL
    rw [show VMT.popAsm "local" index = some ([Instr.num (Nat.cast index), Instr.c Dest.dD Comp.cA Jump.noJump, Instr.sym "LCL", Instr.c Dest.dD Comp.mPlusD Jump.noJump, Instr.sym "R13", Instr.c Dest.dM Comp.cD Jump.noJump, Instr.sym "SP", Instr.c Dest.dAM Comp.mMinus1 Jump.noJump, Instr.c Dest.dD Comp.cM Jump.noJump, Instr.sym "R13", Instr.c Dest.dA Comp.cM Jump.noJump, Instr.c Dest.dM Comp.cD Jump.noJump]) from rfl] at hfrag
    obtain rfl := Option.some.inj hfrag
    have hok2 : Hack.w16 (mem 1 + (Nat.cast index)) ≠ 0 := hok
    rw [popIndirectVM_run ([Instr.num (Nat.cast index), Instr.c Dest.dD Comp.cA Jump.noJump, Instr.sym "LCL", Instr.c Dest.dD Comp.mPlusD Jump.noJump, Instr.sym "R13", Instr.c Dest.dM Comp.cD Jump.noJump, Instr.sym "SP", Instr.c Dest.dAM Comp.mMinus1 Jump.noJump, Instr.c Dest.dD Comp.cM Jump.noJump, Instr.sym "R13", Instr.c Dest.dA Comp.cM Jump.noJump, Instr.c Dest.dM Comp.cD Jump.noJump]) env ⟨a0, d0, mem, 0⟩ "LCL" 1 (Nat.cast index)
        rfl rfl rfl rfl rfl rfl rfl rfl rfl rfl rfl rfl rfl hs1 hs2]
    dsimp only
    rw [updMem_ne (updMem (updMem mem 13 (w16 (mem 1 + (Nat.cast index)))) 0 (mem 0 - 1))
        (w16 (mem 1 + (Nat.cast index))) (w16 (mem (mem 0 - 1))) 0 (Ne.symm hok2),
      updMem_same (updMem mem 13 (w16 (mem 1 + (Nat.cast index)))) 0 (mem 0 - 1)]
  by_cases hARG : segment = "argument"
  · subst hARG
    rw [show VMT.popAsm "argument" index = some ([Instr.num (Nat.cast index), Instr.c Dest.dD Comp.cA Jump.noJump, Instr.sym "ARG", Instr.c Dest.dD Comp.mPlusD Jump.noJump, Instr.sym "R13", Instr.c Dest.dM Comp.cD Jump.noJump, Instr.sym "SP", Instr.c Dest.dAM Comp.mMinus1 Jump.noJump, Instr.c Dest.dD Comp.cM Jump.noJump, Instr.sym "R13", Instr.c Dest.dA Comp.cM Jump.noJump, Instr.c Dest.dM Comp.cD Jump.noJump]) from rfl] at hfrag
    obtain rfl := Option.some.inj hfrag
    have hok2 : Hack.w16 (mem 2 + (Nat.cast index)) ≠ 0 := hok
    rw [popIndirectVM_run ([Instr.num (Nat.cast index), Instr.c Dest.dD Comp.cA Jump.noJump, Instr.sym "ARG", Instr.c Dest.dD Comp.mPlusD Jump.noJump, Instr.sym "R13", Instr.c Dest.dM Comp.cD Jump.noJump, Instr.sym "SP", Instr.c Dest.dAM Comp.mMinus1 Jump.noJump, Instr.c Dest.dD Comp.cM Jump.noJump, Instr.sym "R13", Instr.c Dest.dA Comp.cM Jump.noJump, Instr.c Dest.dM Comp.cD Jump.noJump]) env ⟨a0, d0, mem, 0⟩ "ARG" 2 (Nat.cast index)
        rfl rfl rfl rfl rfl rfl rfl rfl rfl rfl rfl rfl rfl hs1 hs2]
    dsimp only
    rw [updMem_ne (updMem (updMem mem 13 (w16 (mem 2 + (Nat.cast index)))) 0 (mem 0 - 1))
        (w16 (mem 2 + (Nat.cast index))) (w16 (mem (mem 0 - 1))) 0 (Ne.symm hok2),
      updMem_same (updMem mem 13 (w16 (mem 2 + (Nat.cast index)))) 0 (mem 0 - 1)]
  by_cases hTHIS : segment = "this"
  · subst hTHIS
    rw [show VMT.popAsm "this" index = some ([Instr.num (Nat.cast index), Instr.c Dest.dD Comp.cA Jump.noJump, Instr.sym "THIS", Instr.c Dest.dD Comp.mPlusD Jump.noJump, Instr.sym "R13", Instr.c Dest.dM Comp.cD Jump.noJump, Instr.sym "SP", Instr.c Dest.dAM Comp.mMinus1 Jump.noJump, Instr.c Dest.dD Comp.cM Jump.noJump, Instr.sym "R13", Instr.c Dest.dA Comp.cM Jump.noJump, Instr.c Dest.dM Comp.cD Jump.noJump]) from rfl] at hfrag
    obtain rfl := Option.some.inj hfrag
    have hok2 : Hack.w16 (mem 3 + (Nat.cast index)) ≠ 0 := hok
    rw [popIndirectVM_run ([Instr.num (Nat.cast index), Instr.c Dest.dD Comp.cA Jump.noJump, Instr.sym "THIS", Instr.c Dest.dD Comp.mPlusD Jump.noJump, Instr.sym "R13", Instr.c Dest.dM Comp.cD Jump.noJump, Instr.sym "SP", Instr.c Dest.dAM Comp.mMinus1 Jump.noJump, Instr.c Dest.dD Comp.cM Jump.noJump, Instr.sym "R13", Instr.c Dest.dA Comp.cM Jump.noJump, Instr.c Dest.dM Comp.cD Jump.noJump]) env ⟨a0, d0, mem, 0⟩ "THIS" 3 (Nat.cast index)
        rfl rfl rfl rfl rfl rfl rfl rfl rfl rfl rfl rfl rfl hs1 hs2]
    dsimp only
    rw [updMem_ne (updMem (updMem mem 13 (w16 (mem 3 + (Nat.cast index)))) 0 (mem 0 - 1))
        (w16 (mem 3 + (Nat.cast index))) (w16 (mem (mem 0 - 1))) 0 (Ne.symm hok2),
      updMem_same (updMem mem 13 (w16 (mem 3 + (Nat.cast index)))) 0 (mem 0 - 1)]
  by_cases hTHAT : segment = "that"
  · subst hTHAT
    rw [show VMT.popAsm "that" index = some ([Instr.num (Nat.cast index), Instr.c Dest.dD Comp.cA Jump.noJump, Instr.sym "THAT", Instr.c Dest.dD Comp.mPlusD Jump.noJump, Instr.sym "R13", Instr.c Dest.dM Comp.cD Jump.noJump, Instr.sym "SP", Instr.c Dest.dAM Comp.mMinus1 Jump.noJump, Instr.c Dest.dD Comp.cM Jump.noJump, Instr.sym "R13", Instr.c Dest.dA Comp.cM Jump.noJump, Instr.c Dest.dM Comp.cD Jump.noJump]) from rfl] at hfrag
    obtain rfl := Option.some.inj hfrag
    have hok2 : Hack.w16 (mem 4 + (Nat.cast index)) ≠ 0 := hok
    rw [popIndirectVM_run ([Instr.num (Nat.cast index), Instr.c Dest.dD Comp.cA Jump.noJump, Instr.sym "THAT", Instr.c Dest.dD Comp.mPlusD Jump.noJump, Instr.sym "R13", Instr.c Dest.dM Comp.cD Jump.noJump, Instr.sym "SP", Instr.c Dest.dAM Comp.mMinus1 Jump.noJump, Instr.c Dest.dD Comp.cM Jump.noJump, Instr.sym "R13", Instr.c Dest.dA Comp.cM Jump.noJump, Instr.c Dest.dM Comp.cD Jump.noJump]) env ⟨a0, d0, mem, 0⟩ "THAT" 4 (Nat.cast index)
        rfl rfl rfl rfl rfl rfl rfl rfl rfl rfl rfl rfl rfl hs1 hs2]
    dsimp only
    rw [updMem_ne (updMem (updMem mem 13 (w16 (mem 4 + (Nat.cast index)))) 0 (mem 0 - 1))
        (w16 (mem 4 + (Nat.cast index))) (w16 (mem (mem 0 - 1))) 0 (Ne.symm hok2),
      updMem_same (updMem mem 13 (w16 (mem 4 + (Nat.cast index)))) 0 (mem 0 - 1)]
  by_cases htemp : segment = "temp"
  · subst htemp
    rw [show VMT.popAsm "temp" index = some ([Instr.sym "SP", Instr.c Dest.dAM Comp.mMinus1 Jump.noJump, Instr.c Dest.dD Comp.cM Jump.noJump, Instr.num (Nat.cast (5 + index)), Instr.c Dest.dM Comp.cD Jump.noJump]) from rfl] at hfrag
    obtain rfl := Option.some.inj hfrag
    rw [show (12 : Nat) = 7 + 5 from rfl,
      run_add ([Instr.sym "SP", Instr.c Dest.dAM Comp.mMinus1 Jump.noJump, Instr.c Dest.dD Comp.cM Jump.noJump, Instr.num (Nat.cast (5 + index)), Instr.c Dest.dM Comp.cD Jump.noJump]) env 7 5 ⟨a0, d0, mem, 0⟩,
      popDirect_run ([Instr.sym "SP", Instr.c Dest.dAM Comp.mMinus1 Jump.noJump, Instr.c Dest.dD Comp.cM Jump.noJump, Instr.num (Nat.cast (5 + index)), Instr.c Dest.dM Comp.cD Jump.noJump]) env ⟨a0, d0, mem, 0⟩ (Instr.num (Nat.cast (5 + index))) (Nat.cast (5 + index))
        rfl rfl rfl rfl (Or.inl rfl) rfl hs1 hs2,
      run_halted ([Instr.sym "SP", Instr.c Dest.dAM Comp.mMinus1 Jump.noJump, Instr.c Dest.dD Comp.cM Jump.noJump, Instr.num (Nat.cast (5 + index)), Instr.c Dest.dM Comp.cD Jump.noJump]) env 7 _ (by show (5 : Nat) ≤ 0 + 5; omega)]
    dsimp only
    rw [updMem_ne (updMem mem 0 (mem 0 - 1)) (Nat.cast (5 + index)) (w16 (mem (mem 0 - 1))) 0 (by omega),
      updMem_same mem 0 (mem 0 - 1)]
  by_cases hptr : segment = "pointer"
  · subst hptr
    by_cases hi : index = 0
    · subst hi
      rw [show VMT.popAsm "pointer" 0 = some ([Instr.sym "SP", Instr.c Dest.dAM Comp.mMinus1 Jump.noJump, Instr.c Dest.dD Comp.cM Jump.noJump, Instr.sym "THIS", Instr.c Dest.dM Comp.cD Jump.noJump]) from rfl] at hfrag
      obtain rfl := Option.some.inj hfrag
      rw [show (12 : Nat) = 7 + 5 from rfl,
        run_add ([Instr.sym "SP", Instr.c Dest.dAM Comp.mMinus1 Jump.noJump, Instr.c Dest.dD Comp.cM Jump.noJump, Instr.sym "THIS", Instr.c Dest.dM Comp.cD Jump.noJump]) env 7 5 ⟨a0, d0, mem, 0⟩,
        popDirect_run ([Instr.sym "SP", Instr.c Dest.dAM Comp.mMinus1 Jump.noJump, Instr.c Dest.dD Comp.cM Jump.noJump, Instr.sym "THIS", Instr.c Dest.dM Comp.cD Jump.noJump]) env ⟨a0, d0, mem, 0⟩ (Instr.sym "THIS") (3)
          rfl rfl rfl rfl (Or.inr ⟨"THIS", rfl, rfl⟩) rfl hs1 hs2,
        run_halted ([Instr.sym "SP", Instr.c Dest.dAM Comp.mMinus1 Jump.noJump, Instr.c Dest.dD Comp.cM Jump.noJump, Instr.sym "THIS", Instr.c Dest.dM Comp.cD Jump.noJump]) env 7 _ (by show (5 : Nat) ≤ 0 + 5; omega)]
      dsimp only
      rw [updMem_ne (updMem mem 0 (mem 0 - 1)) (3) (w16 (mem (mem 0 - 1))) 0 (by omega),
        updMem_same mem 0 (mem 0 - 1)]
    · rw [show VMT.popAsm "pointer" index =
        some ([Instr.sym "SP", Instr.c Dest.dAM Comp.mMinus1 Jump.noJump, Instr.c Dest.dD Comp.cM Jump.noJump, Instr.sym (if index = 0 then "THIS" else "THAT"),
          Instr.c Dest.dM Comp.cD Jump.noJump]) from rfl, if_neg hi] at hfrag
      obtain rfl := Option.some.inj hfrag
      rw [show (12 : Nat) = 7 + 5 from rfl,
        run_add ([Instr.sym "SP", Instr.c Dest.dAM Comp.mMinus1 Jump.noJump, Instr.c Dest.dD Comp.cM Jump.noJump, Instr.sym "THAT", Instr.c Dest.dM Comp.cD Jump.noJump]) env 7 5 ⟨a0, d0, mem, 0⟩,
        popDirect_run ([Instr.sym "SP", Instr.c Dest.dAM Comp.mMinus1 Jump.noJump, Instr.c Dest.dD Comp.cM Jump.noJump, Instr.sym "THAT", Instr.c Dest.dM Comp.cD Jump.noJump]) env ⟨a0, d0, mem, 0⟩ (Instr.sym "THAT") (4)
          rfl rfl rfl rfl (Or.inr ⟨"THAT", rfl, rfl⟩) rfl hs1 hs2,
        run_halted ([Instr.sym "SP", Instr.c Dest.dAM Comp.mMinus1 Jump.noJump, Instr.c Dest.dD Comp.cM Jump.noJump, Instr.sym "THAT", Instr.c Dest.dM Comp.cD Jump.noJump]) env 7 _ (by show (5 : Nat) ≤ 0 + 5; omega)]
      dsimp only
      rw [updMem_ne (updMem mem 0 (mem 0 - 1)) (4) (w16 (mem (mem 0 - 1))) 0 (by omega),
        updMem_same mem 0 (mem 0 - 1)]
  by_cases hst : segment = "static"
  · subst hst
    rw [show VMT.popAsm "static" index = some ([Instr.sym "SP", Instr.c Dest.dAM Comp.mMinus1 Jump.noJump, Instr.c Dest.dD Comp.cM Jump.noJump, Instr.sym ("Static." ++ Nat.repr index), Instr.c Dest.dM Comp.cD Jump.noJump]) from rfl] at hfrag
    obtain rfl := Option.some.inj hfrag
    have hok2 : env ("Static." ++ Nat.repr index) ≠ 0 := hok
    have hres : resolveSym ([Instr.sym "SP", Instr.c Dest.dAM Comp.mMinus1 Jump.noJump, Instr.c Dest.dD Comp.cM Jump.noJump, Instr.sym ("Static." ++ Nat.repr index), Instr.c Dest.dM Comp.cD Jump.noJump]) env ("Static." ++ Nat.repr index) =
        env ("Static." ++ Nat.repr index) := by
      unfold resolveSym
      rw [builtin_Static]
      rfl
    rw [show (12 : Nat) = 7 + 5 from rfl,
      run_add ([Instr.sym "SP", Instr.c Dest.dAM Comp.mMinus1 Jump.noJump, Instr.c Dest.dD Comp.cM Jump.noJump, Instr.sym ("Static." ++ Nat.repr index), Instr.c Dest.dM Comp.cD Jump.noJump]) env 7 5 ⟨a0, d0, mem, 0⟩,
      popDirect_run ([Instr.sym "SP", Instr.c Dest.dAM Comp.mMinus1 Jump.noJump, Instr.c Dest.dD Comp.cM Jump.noJump, Instr.sym ("Static." ++ Nat.repr index), Instr.c Dest.dM Comp.cD Jump.noJump]) env ⟨a0, d0, mem, 0⟩ (Instr.sym ("Static." ++ Nat.repr index)) (env ("Static." ++ Nat.repr index))
        rfl rfl rfl rfl (Or.inr ⟨("Static." ++ Nat.repr index), rfl, rfl⟩) rfl hs1 hs2,
      run_halted ([Instr.sym "SP", Instr.c Dest.dAM Comp.mMinus1 Jump.noJump, Instr.c Dest.dD Comp.cM Jump.noJump, Instr.sym ("Static." ++ Nat.repr index), Instr.c Dest.dM Comp.cD Jump.noJump]) env 7 _ (by show (5 : Nat) ≤ 0 + 5; omega)]
    dsimp only
    rw [updMem_ne (updMem mem 0 (mem 0 - 1)) (env ("Static." ++ Nat.repr index)) (w16 (mem (mem 0 - 1))) 0 (Ne.symm hok2),
      updMem_same mem 0 (mem 0 - 1)]
  exfalso
  have hnone : VMT.popAsm segment index = none := by
    simp only [VMT.popAsm]
    rw [if_neg h1, if_neg hLCL, if_neg hARG, if_neg hTHIS, if_neg hTHAT,
      if_neg htemp, if_neg hptr, if_neg hst]
  rw [hnone] at hfrag
  exact Option.noConfusion hfrag

theorem vmArith_sp_delta (env : String → Int) (a0 d0 : Int) (mem : Int → Int)
    (command : String) (cnt : Nat) (frag : List Hack.Instr) (cnt2 : Nat)
    (hfrag : VMT.arithAsm command cnt = some (frag, cnt2))
    (hs1 : 256 ≤ mem 0) (hs2 : mem 0 ≤ 32767) :
    (Hack.run frag env 12 ⟨a0, d0, mem, 0⟩).mem 0 =
      (if command = "neg" ∨ command = "not" then mem 0 else mem 0 - 1) := by
  by_cases hadd : command = "add"
  · subst hadd
    rw [show VMT.arithAsm "add" cnt = some (([Instr.sym "SP", Instr.c Dest.dAM Comp.mMinus1 Jump.noJump, Instr.c Dest.dD Comp.cM Jump.noJump, Instr.c Dest.dA Comp.aMinus1 Jump.noJump, Instr.c Dest.dM Comp.mPlusD Jump.noJump], cnt)) from rfl] at hfrag
    have hp := Option.some.inj hfrag
    rw [Prod.mk.injEq] at hp
    obtain ⟨rfl, rfl⟩ := hp
    rw [if_neg (by decide), show (12 : Nat) = 7 + 5 from rfl,
      run_add ([Instr.sym "SP", Instr.c Dest.dAM Comp.mMinus1 Jump.noJump, Instr.c Dest.dD Comp.cM Jump.noJump, Instr.c Dest.dA Comp.aMinus1 Jump.noJump, Instr.c Dest.dM Comp.mPlusD Jump.noJump]) env 7 5 ⟨a0, d0, mem, 0⟩,
      binOp_run ([Instr.sym "SP", Instr.c Dest.dAM Comp.mMinus1 Jump.noJump, Instr.c Dest.dD Comp.cM Jump.noJump, Instr.c Dest.dA Comp.aMinus1 Jump.noJump, Instr.c Dest.dM Comp.mPlusD Jump.noJump]) env Comp.mPlusD ⟨a0, d0, mem, 0⟩ rfl rfl rfl rfl rfl hs1 hs2,
      run_halted ([Instr.sym "SP", Instr.c Dest.dAM Comp.mMinus1 Jump.noJump, Instr.c Dest.dD Comp.cM Jump.noJump, Instr.c Dest.dA Comp.aMinus1 Jump.noJump, Instr.c Dest.dM Comp.mPlusD Jump.noJump]) env 7 _ (by show (5 : Nat) ≤ 0 + 5; omega)]
    dsimp only
    rw [updMem_ne (updMem mem 0 (mem 0 - 1)) (mem 0 - 2) _ 0 (by omega),
      updMem_same mem 0 (mem 0 - 1)]
  by_cases hsub : command = "sub"
  · subst hsub
    rw [show VMT.arithAsm "sub" cnt = some (([Instr.sym "SP", Instr.c Dest.dAM Comp.mMinus1 Jump.noJump, Instr.c Dest.dD Comp.cM Jump.noJump, Instr.c Dest.dA Comp.aMinus1 Jump.noJump, Instr.c Dest.dM Comp.mMinusD Jump.noJump], cnt)) from rfl] at hfrag
    have hp := Option.some.inj hfrag
    rw [Prod.mk.injEq] at hp
    obtain ⟨rfl, rfl⟩ := hp
    rw [if_neg (by decide), show (12 : Nat) = 7 + 5 from rfl,
      run_add ([Instr.sym "SP", Instr.c Dest.dAM Comp.mMinus1 Jump.noJump, Instr.c Dest.dD Comp.cM Jump.noJump, Instr.c Dest.dA Comp.aMinus1 Jump.noJump, Instr.c Dest.dM Comp.mMinusD Jump.noJump]) env 7 5 ⟨a0, d0, mem, 0⟩,
      binOp_run ([Instr.sym "SP", Instr.c Dest.dAM Comp.mMinus1 Jump.noJump, Instr.c Dest.dD Comp.cM Jump.noJump, Instr.c Dest.dA Comp.aMinus1 Jump.noJump, Instr.c Dest.dM Comp.mMinusD Jump.noJump]) env Comp.mMinusD ⟨a0, d0, mem, 0⟩ rfl rfl rfl rfl rfl hs1 hs2,
      run_halted ([Instr.sym "SP", Instr.c Dest.dAM Comp.mMinus1 Jump.noJump, Instr.c Dest.dD Comp.cM Jump.noJump, Instr.c Dest.dA Comp.aMinus1 Jump.noJump, Instr.c Dest.dM Comp.mMinusD Jump.noJump]) env 7 _ (by show (5 : Nat) ≤ 0 + 5; omega)]
    dsimp only
    rw [updMem_ne (updMem mem 0 (mem 0 - 1)) (mem 0 - 2) _ 0 (by omega),
      updMem_same mem 0 (mem 0 - 1)]
  by_cases hand : command = "and"
  · subst hand
    rw [show VMT.arithAsm "and" cnt = some (([Instr.sym "SP", Instr.c Dest.dAM Comp.mMinus1 Jump.noJump, Instr.c Dest.dD Comp.cM Jump.noJump, Instr.c Dest.dA Comp.aMinus1 Jump.noJump, Instr.c Dest.dM Comp.mAndD Jump.noJump], cnt)) from rfl] at hfrag
    have hp := Option.some.inj hfrag
    rw [Prod.mk.injEq] at hp
    obtain ⟨rfl, rfl⟩ := hp
    rw [if_neg (by decide), show (12 : Nat) = 7 + 5 from rfl,
      run_add ([Instr.sym "SP", Instr.c Dest.dAM Comp.mMinus1 Jump.noJump, Instr.c Dest.dD Comp.cM Jump.noJump, Instr.c Dest.dA Comp.aMinus1 Jump.noJump, Instr.c Dest.dM Comp.mAndD Jump.noJump]) env 7 5 ⟨a0, d0, mem, 0⟩,
      binOp_run ([Instr.sym "SP", Instr.c Dest.dAM Comp.mMinus1 Jump.noJump, Instr.c Dest.dD Comp.cM Jump.noJump, Instr.c Dest.dA Comp.aMinus1 Jump.noJump, Instr.c Dest.dM Comp.mAndD Jump.noJump]) env Comp.mAndD ⟨a0, d0, mem, 0⟩ rfl rfl rfl rfl rfl hs1 hs2,
      run_halted ([Instr.sym "SP", Instr.c Dest.dAM Comp.mMinus1 Jump.noJump, Instr.c Dest.dD Comp.cM Jump.noJump, Instr.c Dest.dA Comp.aMinus1 Jump.noJump, Instr.c Dest.dM Comp.mAndD Jump.noJump]) env 7 _ (by show (5 : Nat) ≤ 0 + 5; omega)]
    dsimp only
    rw [updMem_ne (updMem mem 0 (mem 0 - 1)) (mem 0 - 2) _ 0 (by omega),
      updMem_same mem 0 (mem 0 - 1)]
  by_cases hor : command = "or"
  · subst hor
    rw [show VMT.arithAsm "or" cnt = some (([Instr.sym "SP", Instr.c Dest.dAM Comp.mMinus1 Jump.noJump, Instr.c Dest.dD Comp.cM Jump.noJump, Instr.c Dest.dA Comp.aMinus1 Jump.noJump, Instr.c Dest.dM Comp.mOrD Jump.noJump], cnt)) from rfl] at hfrag
    have hp := Option.some.inj hfrag
    rw [Prod.mk.injEq] at hp
    obtain ⟨rfl, rfl⟩ := hp
    rw [if_neg (by decide), show (12 : Nat) = 7 + 5 from rfl,
      run_add ([Instr.sym "SP", Instr.c Dest.dAM Comp.mMinus1 Jump.noJump, Instr.c Dest.dD Comp.cM Jump.noJump, Instr.c Dest.dA Comp.aMinus1 Jump.noJump, Instr.c Dest.dM Comp.mOrD Jump.noJump]) env 7 5 ⟨a0, d0, mem, 0⟩,
      binOp_run ([Instr.sym "SP", Instr.c Dest.dAM Comp.mMinus1 Jump.noJump, Instr.c Dest.dD Comp.cM Jump.noJump, Instr.c Dest.dA Comp.aMinus1 Jump.noJump, Instr.c Dest.dM Comp.mOrD Jump.noJump]) env Comp.mOrD ⟨a0, d0, mem, 0⟩ rfl rfl rfl rfl rfl hs1 hs2,
      run_halted ([Instr.sym "SP", Instr.c Dest.dAM Comp.mMinus1 Jump.noJump, Instr.c Dest.dD Comp.cM Jump.noJump, Instr.c Dest.dA Comp.aMinus1 Jump.noJump, Instr.c Dest.dM Comp.mOrD Jump.noJump]) env 7 _ (by show (5 : Nat) ≤ 0 + 5; omega)]
    dsimp only
    rw [updMem_ne (updMem mem 0 (mem 0 - 1)) (mem 0 - 2) _ 0 (by omega),
      updMem_same mem 0 (mem 0 - 1)]
  by_cases hneg : command = "neg"
  · subst hneg
    rw [show VMT.arithAsm "neg" cnt = some (([Instr.sym "SP", Instr.c Dest.dA Comp.mMinus1 Jump.noJump, Instr.c Dest.dM Comp.negM Jump.noJump], cnt)) from rfl] at hfrag
    have hp := Option.some.inj hfrag
    rw [Prod.mk.injEq] at hp
    obtain ⟨rfl, rfl⟩ := hp
    rw [if_pos (by decide), show (12 : Nat) = 9 + 3 from rfl,
      run_add ([Instr.sym "SP", Instr.c Dest.dA Comp.mMinus1 Jump.noJump, Instr.c Dest.dM Comp.negM Jump.noJump]) env 9 3 ⟨a0, d0, mem, 0⟩,
      unOp_run ([Instr.sym "SP", Instr.c Dest.dA Comp.mMinus1 Jump.noJump, Instr.c Dest.dM Comp.negM Jump.noJump]) env Comp.negM ⟨a0, d0, mem, 0⟩ rfl rfl rfl hs1 hs2,
      run_halted ([Instr.sym "SP", Instr.c Dest.dA Comp.mMinus1 Jump.noJump, Instr.c Dest.dM Comp.negM Jump.noJump]) env 9 _ (by show (3 : Nat) ≤ 0 + 3; omega)]
    dsimp only
    rw [updMem_ne mem (mem 0 - 1) _ 0 (by omega)]
  by_cases hnot : command = "not"
  · subst hnot
    rw [show VMT.arithAsm "not" cnt = some (([Instr.sym "SP", Instr.c Dest.dA Comp.mMinus1 Jump.noJump, Instr.c Dest.dM Comp.notM Jump.noJump], cnt)) from rfl] at hfrag
    have hp := Option.some.inj hfrag
    rw [Prod.mk.injEq] at hp
    obtain ⟨rfl, rfl⟩ := hp
    rw [if_pos (by decide), show (12 : Nat) = 9 + 3 from rfl,
      run_add ([Instr.sym "SP", Instr.c Dest.dA Comp.mMinus1 Jump.noJump, Instr.c Dest.dM Comp.notM Jump.noJump]) env 9 3 ⟨a0, d0, mem, 0⟩,
      unOp_run ([Instr.sym "SP", Instr.c Dest.dA Comp.mMinus1 Jump.noJump, Instr.c Dest.dM Comp.notM Jump.noJump]) env Comp.notM ⟨a0, d0, mem, 0⟩ rfl rfl rfl hs1 hs2,
      run_halted ([Instr.sym "SP", Instr.c Dest.dA Comp.mMinus1 Jump.noJump, Instr.c Dest.dM Comp.notM Jump.noJump]) env 9 _ (by show (3 : Nat) ≤ 0 + 3; omega)]
    dsimp only
    rw [updMem_ne mem (mem 0 - 1) _ 0 (by omega)]
  by_cases heq : command = "eq"
  · subst heq
    rw [VMT.arithAsm_eq_cmpList cnt] at hfrag
    have hp := Option.some.inj hfrag
    rw [Prod.mk.injEq] at hp
    obtain ⟨rfl, rfl⟩ := hp
    rw [if_neg (by decide)]
    exact (VMT.cmp_run Hack.Jump.jeq cnt env a0 d0 mem hs1 hs2).1
  by_cases hgt : command = "gt"
  · subst hgt
    rw [VMT.arithAsm_gt_cmpList cnt] at hfrag
    have hp := Option.some.inj hfrag
    rw [Prod.mk.injEq] at hp
    obtain ⟨rfl, rfl⟩ := hp
    rw [if_neg (by decide)]
    exact (VMT.cmp_run Hack.Jump.jgt cnt env a0 d0 mem hs1 hs2).1
  by_cases hlt : command = "lt"
  · subst hlt
    rw [VMT.arithAsm_lt_cmpList cnt] at hfrag
    have hp := Option.some.inj hfrag
    rw [Prod.mk.injEq] at hp
    obtain ⟨rfl, rfl⟩ := hp
    rw [if_neg (by decide)]
    exact (VMT.cmp_run Hack.Jump.jlt cnt env a0 d0 mem hs1 hs2).1
  exfalso
  have hnone : VMT.arithAsm command cnt = none := by
    unfold VMT.arithAsm
    rw [if_neg (by tauto), if_neg (by tauto), if_neg (by tauto)]
  rw [hnone] at hfrag
  exact Option.noConfusion hfrag

/-- C4: for every fragment emitted by src/VMTranslator.py, executing it
under the machine semantics changes the stack depth as claimed: a binary
arithmetic or comparison command (add, sub, and, or, eq, gt, lt)
decrements SP by exactly one cell, a unary command (neg, not) leaves SP
unchanged, every push increments SP by one cell, and every pop decrements
SP by one cell (given that the resolved pop target is not the SP cell,
`popTargetOK`). -/
theorem C4_stack_effect (env : String → Int) (a0 d0 : Int) (mem : Int → Int)
    (hs1 : 256 ≤ mem 0) (hs2 : mem 0 ≤ 32766) :
    (∀ command cnt frag cnt2, VMT.arithAsm command cnt = some (frag, cnt2) →
      (Hack.run frag env 12 ⟨a0, d0, mem, 0⟩).mem 0 =
        (if command = "neg" ∨ command = "not" then mem 0 else mem 0 - 1)) ∧
    (∀ segment index frag, VMT.pushAsm segment index = some frag →
      (Hack.run frag env 12 ⟨a0, d0, mem, 0⟩).mem 0 = mem 0 + 1) ∧
    (∀ segment index frag, VMT.popAsm segment index = some frag →
      popTargetOK segment index env mem →
      (Hack.run frag env 12 ⟨a0, d0, mem, 0⟩).mem 0 = mem 0 - 1) :=
  ⟨fun command cnt frag cnt2 hfrag =>
      vmArith_sp_delta env a0 d0 mem command cnt frag cnt2 hfrag hs1 (by omega),
   fun segment index frag hfrag =>
      vmPush_sp_delta env a0 d0 mem segment index frag hfrag hs1 hs2,
   fun segment index frag hfrag hok =>
      vmPop_sp_delta env a0 d0 mem segment index frag hfrag hok hs1 (by omega)⟩

/-- Witness for C4 at a concrete machine state: `push constant 7` from
SP = 300 leaves SP = 301. -/
theorem C4_stack_effect_witness :
    (Hack.run ([Hack.Instr.num 7, Hack.Instr.c .dD .cA .noJump] ++ VMT.pushTail)
      (fun _ => 16) 12 ⟨0, 0, fun _ => 300, 0⟩).mem 0 = 300 + 1 :=
  (C4_stack_effect (fun _ => 16) 0 0 (fun _ => 300) (by norm_num) (by norm_num)).2.1
    "constant" 7 _ rfl

/-- C10: CodeWriter.writeArithmetic of src/main.py and of
src/VMTranslator.py emit character-for-character identical assembly text
and leave the label counter at the same value for every command string,
and both reject (raise) on an unrecognized command: the two functions are
definitionally equal. -/
theorem C10_writeArithmetic_equivalent :
    ∀ (command : String) (label_count : Nat),
      MainPy.writeArithmetic command label_count =
        VMT.writeArithmetic command label_count :=
  fun _ _ => rfl

/-- C1 (code defect): the dispatch loop of VMTranslator.translate in
src/main.py recognizes label, goto, if-goto, function, call and return
commands (Parser.commandType classifies them), but routes none of them to
a codegen routine: the loop body appends the empty fragment, silently
skipping the command, contradicting the claim that every recognized kind
produces a non-empty fragment. -/
theorem C1_recognized_kinds_skipped (t : String) (args : List String) (cnt : Nat)
    (h : t ∈ ["label", "goto", "if-goto", "function", "call", "return"]) :
    (∃ k, MainPy.commandType (t :: args) = some (some k) ∧
      k ≠ "C_ARITHMETIC" ∧ k ≠ "C_PUSH" ∧ k ≠ "C_POP") ∧
    MainPy.translateStep (t :: args) cnt = some ("", cnt) := by
  fin_cases h
  · exact ⟨⟨"C_LABEL", rfl, by decide, by decide, by decide⟩, rfl⟩
  · exact ⟨⟨"C_GOTO", rfl, by decide, by decide, by decide⟩, rfl⟩
  · exact ⟨⟨"C_IF", rfl, by decide, by decide, by decide⟩, rfl⟩
  · exact ⟨⟨"C_FUNCTION", rfl, by decide, by decide, by decide⟩, rfl⟩
  · exact ⟨⟨"C_CALL", rfl, by decide, by decide, by decide⟩, rfl⟩
  · exact ⟨⟨"C_RETURN", rfl, by decide, by decide, by decide⟩, rfl⟩

/-- Witness for C1: a `label LOOP` command is recognized yet translated to
the empty fragment. -/
theorem C1_recognized_kinds_skipped_witness :
    MainPy.translateStep ["label", "LOOP"] 1 = some ("", 1) :=
  (C1_recognized_kinds_skipped "label" ["LOOP"] 1 (by decide)).2

theorem vmStep_pop_constant (tok : String) (cnt : Nat) :
    VMT.translateStep ["pop", "constant", tok] cnt = none := by
  cases htok : parseNat? tok with
  | none => simp [VMT.translateStep, VMT.commandType, VMT.arithOps, htok]
  | some i => simp [VMT.translateStep, VMT.commandType, VMT.arithOps, htok, VMT.writePop]

theorem mainStep_pop_constant (tok : String) (cnt : Nat) :
    MainPy.translateStep ["pop", "constant", tok] cnt = none := by
  cases htok : parseNat? tok with
  | none => simp [MainPy.translateStep, MainPy.commandType, VMT.arithOps, htok]
  | some i =>
    simp [MainPy.translateStep, MainPy.commandType, VMT.arithOps, htok,
      MainPy.writePop, MainPy.SEGMENTS]

theorem vmTranslateFrom_abort (pre post : List (List String)) (tok acc out : String)
    (cnt cnt2 : Nat) (h : VMT.translateFrom pre acc cnt = some (out, cnt2)) :
    VMT.translateFrom (pre ++ (["pop", "constant", tok] :: post)) acc cnt = none := by
  induction pre generalizing acc cnt with
  | nil =>
    rw [List.nil_append, VMT.translateFrom, vmStep_pop_constant]
  | cons c rest ih =>
    rw [List.cons_append, VMT.translateFrom]
    rw [VMT.translateFrom] at h
    cases hstep : VMT.translateStep c cnt with
    | none => rw [hstep] at h
    | some pr =>
      obtain ⟨fr, c3⟩ := pr
      rw [hstep] at h
      exact ih (acc ++ fr) c3 h

theorem mainTranslateFrom_abort (pre post : List (List String)) (tok acc out : String)
    (cnt cnt2 : Nat) (h : MainPy.translateFrom pre acc cnt = some (out, cnt2)) :
    MainPy.translateFrom (pre ++ (["pop", "constant", tok] :: post)) acc cnt = none := by
  induction pre generalizing acc cnt with
  | nil =>
    rw [List.nil_append, MainPy.translateFrom, mainStep_pop_constant]
  | cons c rest ih =>
    rw [List.cons_append, MainPy.translateFrom]
    rw [MainPy.translateFrom] at h
    cases hstep : MainPy.translateStep c cnt with
    | none => rw [hstep] at h
    | some pr =>
      obtain ⟨fr, c3⟩ := pr
      rw [hstep] at h
      exact ih (acc ++ fr) c3 h

/-- C6: a pop targeting the constant segment is a fatal, non-recoverable
translation error in both files: writePop raises (returns nothing, so no
fragment is appended for that command), and a translation run that reaches
such a command halts immediately with no output. -/
theorem C6_pop_constant_fatal :
    (∀ index : Nat, VMT.writePop "constant" index = none) ∧
    (∀ index : Nat, MainPy.writePop "constant" index = none) ∧
    (∀ (pre post : List (List String)) (tok acc out : String) (cnt cnt2 : Nat),
      VMT.translateFrom pre acc cnt = some (out, cnt2) →
      VMT.translateFrom (pre ++ (["pop", "constant", tok] :: post)) acc cnt = none) ∧
    (∀ (pre post : List (List String)) (tok acc out : String) (cnt cnt2 : Nat),
      MainPy.translateFrom pre acc cnt = some (out, cnt2) →
      MainPy.translateFrom (pre ++ (["pop", "constant", tok] :: post)) acc cnt = none) :=
  ⟨fun _ => rfl, fun _ => rfl,
   fun pre post tok acc out cnt cnt2 h => vmTranslateFrom_abort pre post tok acc out cnt cnt2 h,
   fun pre post tok acc out cnt cnt2 h => mainTranslateFrom_abort pre post tok acc out cnt cnt2 h⟩

/-- Witness for C6: a run that has successfully translated `push constant 7`
aborts on reaching `pop constant 0`. -/
theorem C6_pop_constant_fatal_witness :
    VMT.translateFrom ([["push", "constant", "7"]] ++ (["pop", "constant", "0"] :: [])) "" 0 =
      none :=
  C6_pop_constant_fatal.2.2.1 [["push", "constant", "7"]] [] "0" ""
    "@7\nD=A\n@SP\nA=M\nM=D\n@SP\nM=M+1\n" 0 0 (by decide)

/-- Temp segment cells per the spec data model (section 3): temp occupies 8
fixed cells at base 5, that is addresses 5 to 12. -/
def isTempCell (a : Nat) : Prop := 5 ≤ a ∧ a ≤ 12

instance (a : Nat) : Decidable (isTempCell a) :=
  inferInstanceAs (Decidable (5 ≤ a ∧ a ≤ 12))

/-- Counterexample for C9 as stated: for pointer index 10, src/main.py
emits code addressing absolute cell 3 + 10 = 13, which is NOT inside the
temp segment's cells (5..12) — it is the scratch register R13. -/
theorem C9_pointer_counterexample :
    MainPy.writePush "pointer" 10 = some "@13\nD=M\n@SP\nA=M\nM=D\n@SP\nM=M+1\n" ∧
    ¬ isTempCell (3 + 10) := by
  exact ⟨by decide, by decide⟩

/-- C9 (amended): for every pointer index i outside 0..1, writePush and
writePop accept the command without raising; src/VMTranslator.py emits code
addressing THAT for every nonzero i, while src/main.py emits code
addressing absolute cell 3 + i, which lies inside the temp segment's cells
exactly for 2 ≤ i ≤ 9 and beyond temp for i ≥ 10. -/
theorem C9_pointer_amended (i : Nat) :
    (∃ s1, VMT.writePush "pointer" i = some s1) ∧
    (∃ s2, VMT.writePop "pointer" i = some s2) ∧
    (∃ s3, MainPy.writePush "pointer" i = some s3) ∧
    (∃ s4, MainPy.writePop "pointer" i = some s4) ∧
    (i ≠ 0 →
      VMT.writePush "pointer" i = some "@THAT\nD=M\n@SP\nA=M\nM=D\n@SP\nM=M+1\n" ∧
      VMT.writePop "pointer" i = some "@SP\nAM=M-1\nD=M\n@THAT\nM=D\n") ∧
    MainPy.writePush "pointer" i =
      some ("@" ++ Nat.repr (3 + i) ++ "\nD=M\n" ++ "@SP\nA=M\nM=D\n@SP\nM=M+1\n") ∧
    MainPy.writePop "pointer" i =
      some ("@SP\nAM=M-1\nD=M\n@" ++ Nat.repr (3 + i) ++ "\nM=D\n") ∧
    (2 ≤ i → i ≤ 9 → isTempCell (3 + i)) ∧
    (10 ≤ i → ¬ isTempCell (3 + i)) := by
  refine ⟨⟨_, rfl⟩, ⟨_, rfl⟩, ⟨_, rfl⟩, ⟨_, rfl⟩, ?_, rfl, rfl, ?_, ?_⟩
  · intro h
    constructor
    · rw [show VMT.writePush "pointer" i =
        some ("@" ++ (if i = 0 then "THIS" else "THAT") ++ "\nD=M\n"
          ++ "@SP\nA=M\nM=D\n@SP\nM=M+1\n") from rfl, if_neg h]
      rfl
    · rw [show VMT.writePop "pointer" i =
        some ("@SP\nAM=M-1\nD=M\n" ++ (if i = 0 then "@THIS" else "@THAT")
          ++ "\nM=D\n") from rfl, if_neg h]
      rfl
  · intro h1 h2
    exact ⟨by omega, by omega⟩
  · intro h1 h2
    obtain ⟨hA, hB⟩ := h2
    omega
  
/-- Witness for C9 (amended) at pointer index 10. -/
theorem C9_pointer_amended_witness :
    VMT.writePush "pointer" 10 = some "@THAT\nD=M\n@SP\nA=M\nM=D\n@SP\nM=M+1\n" ∧
    ¬ isTempCell (3 + 10) :=
  ⟨((C9_pointer_amended 10).2.2.2.2.1 (by decide)).1,
   (C9_pointer_amended 10).2.2.2.2.2.2.2.2 (by decide)⟩

/-- Counterexample for C7 as stated: src/VMTranslator.py does not resolve
static (or out-of-range pointer) accesses as a fixed absolute base plus
index: `push static 0` emits the assembler symbol `@Static.0`, not `@16`,
and `push pointer 2` emits `@THAT` (cell 4), not the cell 3 + 2 = 5. -/
theorem C7_resolution_counterexample :
    VMT.writePush "static" 0 = some "@Static.0\nD=M\n@SP\nA=M\nM=D\n@SP\nM=M+1\n" ∧
    VMT.writePush "static" 0 ≠ some "@16\nD=M\n@SP\nA=M\nM=D\n@SP\nM=M+1\n" ∧
    VMT.writePush "pointer" 2 = some "@THAT\nD=M\n@SP\nA=M\nM=D\n@SP\nM=M+1\n" ∧
    VMT.writePush "pointer" 2 ≠ some "@5\nD=M\n@SP\nA=M\nM=D\n@SP\nM=M+1\n" :=
  ⟨by decide, by decide, by decide, by decide⟩

/-- C7 (amended): the resolution claim, stated for both translators, both
directions (push and pop) and every memory segment.  In src/main.py, temp,
pointer and static resolve to the fixed absolute cell base + index (bases
5, 3 and 16) with a direct dereference, while local, argument, this and
that go through the value of the segment's base register plus the index —
for push and for pop alike.  In src/VMTranslator.py the same holds for
temp and for the four register segments, but static resolves to a
per-unit assembler symbol `Static.index` (not numeric base 16) and
pointer to the alias THIS (index 0) or THAT (any other index), again for
push and for pop.  Semantically, a direct access reads or writes cell
base + index itself, the pointer alias reads or writes cell 3 or 4, and
an indirect access reads or writes the cell addressed by the register
contents plus the index. -/
theorem C7_segment_resolution_amended (i : Nat) (env : String → Int)
    (a0 d0 : Int) (mem : Int → Int) (hs1 : 256 ≤ mem 0) (hs2 : mem 0 ≤ 32766) :
    (MainPy.writePush "temp" i =
      some ("@" ++ Nat.repr (5 + i) ++ "\nD=M\n" ++ "@SP\nA=M\nM=D\n@SP\nM=M+1\n") ∧
    MainPy.writePush "pointer" i =
      some ("@" ++ Nat.repr (3 + i) ++ "\nD=M\n" ++ "@SP\nA=M\nM=D\n@SP\nM=M+1\n") ∧
    MainPy.writePush "static" i =
      some ("@" ++ Nat.repr (16 + i) ++ "\nD=M\n" ++ "@SP\nA=M\nM=D\n@SP\nM=M+1\n") ∧
    MainPy.writePush "local" i =
      some ("@" ++ "LCL" ++ "\nD=M\n@" ++ Nat.repr i ++ "\nA=D+A\nD=M\n"
        ++ "@SP\nA=M\nM=D\n@SP\nM=M+1\n") ∧
    MainPy.writePush "argument" i =
      some ("@" ++ "ARG" ++ "\nD=M\n@" ++ Nat.repr i ++ "\nA=D+A\nD=M\n"
        ++ "@SP\nA=M\nM=D\n@SP\nM=M+1\n") ∧
    MainPy.writePush "this" i =
      some ("@" ++ "THIS" ++ "\nD=M\n@" ++ Nat.repr i ++ "\nA=D+A\nD=M\n"
        ++ "@SP\nA=M\nM=D\n@SP\nM=M+1\n") ∧
    MainPy.writePush "that" i =
      some ("@" ++ "THAT" ++ "\nD=M\n@" ++ Nat.repr i ++ "\nA=D+A\nD=M\n"
        ++ "@SP\nA=M\nM=D\n@SP\nM=M+1\n")) ∧
    (MainPy.writePop "temp" i =
      some ("@SP\nAM=M-1\nD=M\n@" ++ Nat.repr (5 + i) ++ "\nM=D\n") ∧
    MainPy.writePop "pointer" i =
      some ("@SP\nAM=M-1\nD=M\n@" ++ Nat.repr (3 + i) ++ "\nM=D\n") ∧
    MainPy.writePop "static" i =
      some ("@SP\nAM=M-1\nD=M\n@" ++ Nat.repr (16 + i) ++ "\nM=D\n") ∧
    MainPy.writePop "local" i =
      some ("@" ++ "LCL" ++ "\nD=M\n@" ++ Nat.repr i
        ++ "\nD=D+A\n@R13\nM=D\n@SP\nAM=M-1\nD=M\n@R13\nA=M\nM=D\n") ∧
    MainPy.writePop "argument" i =
      some ("@" ++ "ARG" ++ "\nD=M\n@" ++ Nat.repr i
        ++ "\nD=D+A\n@R13\nM=D\n@SP\nAM=M-1\nD=M\n@R13\nA=M\nM=D\n") ∧
    MainPy.writePop "this" i =
      some ("@" ++ "THIS" ++ "\nD=M\n@" ++ Nat.repr i
        ++ "\nD=D+A\n@R13\nM=D\n@SP\nAM=M-1\nD=M\n@R13\nA=M\nM=D\n") ∧
    MainPy.writePop "that" i =
      some ("@" ++ "THAT" ++ "\nD=M\n@" ++ Nat.repr i
        ++ "\nD=D+A\n@R13\nM=D\n@SP\nAM=M-1\nD=M\n@R13\nA=M\nM=D\n")) ∧
    (VMT.writePush "temp" i =
      some ("@" ++ Nat.repr (5 + i) ++ "\nD=M\n" ++ "@SP\nA=M\nM=D\n@SP\nM=M+1\n") ∧
    VMT.writePush "pointer" i =
      some ("@" ++ (if i = 0 then "THIS" else "THAT") ++ "\nD=M\n" ++ "@SP\nA=M\nM=D\n@SP\nM=M+1\n") ∧
    VMT.writePush "static" i =
      some ("@Static." ++ Nat.repr i ++ "\nD=M\n" ++ "@SP\nA=M\nM=D\n@SP\nM=M+1\n") ∧
    VMT.writePush "local" i =
      some ("@LCL\nD=M\n@" ++ Nat.repr i ++ "\nA=D+A\nD=M\n" ++ "@SP\nA=M\nM=D\n@SP\nM=M+1\n") ∧
    VMT.writePush "argument" i =
      some ("@ARG\nD=M\n@" ++ Nat.repr i ++ "\nA=D+A\nD=M\n" ++ "@SP\nA=M\nM=D\n@SP\nM=M+1\n") ∧
    VMT.writePush "this" i =
      some ("@THIS\nD=M\n@" ++ Nat.repr i ++ "\nA=D+A\nD=M\n" ++ "@SP\nA=M\nM=D\n@SP\nM=M+1\n") ∧
    VMT.writePush "that" i =
      some ("@THAT\nD=M\n@" ++ Nat.repr i ++ "\nA=D+A\nD=M\n" ++ "@SP\nA=M\nM=D\n@SP\nM=M+1\n")) ∧
    (VMT.writePop "temp" i =
      some ("@SP\nAM=M-1\nD=M\n" ++ ("@" ++ Nat.repr (5 + i)) ++ "\nM=D\n") ∧
    VMT.writePop "pointer" i =
      some ("@SP\nAM=M-1\nD=M\n" ++ (if i = 0 then "@THIS" else "@THAT") ++ "\nM=D\n") ∧
    VMT.writePop "static" i =
      some ("@SP\nAM=M-1\nD=M\n" ++ ("@Static." ++ Nat.repr i) ++ "\nM=D\n") ∧
    VMT.writePop "local" i =
      some ("@" ++ Nat.repr i ++ "\nD=A\n" ++ "@LCL" ++ "\nD=M+D\n@R13\nM=D\n"
        ++ "@SP\nAM=M-1\nD=M\n@R13\nA=M\nM=D\n") ∧
    VMT.writePop "argument" i =
      some ("@" ++ Nat.repr i ++ "\nD=A\n" ++ "@ARG" ++ "\nD=M+D\n@R13\nM=D\n"
        ++ "@SP\nAM=M-1\nD=M\n@R13\nA=M\nM=D\n") ∧
    VMT.writePop "this" i =
      some ("@" ++ Nat.repr i ++ "\nD=A\n" ++ "@THIS" ++ "\nD=M+D\n@R13\nM=D\n"
        ++ "@SP\nAM=M-1\nD=M\n@R13\nA=M\nM=D\n") ∧
    VMT.writePop "that" i =
      some ("@" ++ Nat.repr i ++ "\nD=A\n" ++ "@THAT" ++ "\nD=M+D\n@R13\nM=D\n"
        ++ "@SP\nAM=M-1\nD=M\n@R13\nA=M\nM=D\n")) ∧
    ((∀ frag, MainPy.pushAsm "temp" i = some frag →
      (Hack.run frag env 12 ⟨a0, d0, mem, 0⟩).mem (mem 0) =
        Hack.w16 (mem ((5 + i : Nat) : Int))) ∧
    (∀ frag, MainPy.pushAsm "local" i = some frag →
      (Hack.run frag env 12 ⟨a0, d0, mem, 0⟩).mem (mem 0) =
        Hack.w16 (mem (Hack.w16 (mem 1 + (i : Int))))) ∧
    (∀ frag, MainPy.popAsm "temp" i = some frag →
      (Hack.run frag env 5 ⟨a0, d0, mem, 0⟩).mem ((5 + i : Nat) : Int) =
        Hack.w16 (mem (mem 0 - 1))) ∧
    (∀ frag, MainPy.popAsm "pointer" i = some frag →
      (Hack.run frag env 5 ⟨a0, d0, mem, 0⟩).mem ((3 + i : Nat) : Int) =
        Hack.w16 (mem (mem 0 - 1))) ∧
    (∀ frag, MainPy.popAsm "argument" i = some frag →
      (Hack.run frag env 12 ⟨a0, d0, mem, 0⟩).mem (Hack.w16 (mem 2 + (i : Int))) =
        Hack.w16 (mem (mem 0 - 1))) ∧
    (∀ frag, VMT.pushAsm "pointer" i = some frag →
      (Hack.run frag env 7 ⟨a0, d0, mem, 0⟩).mem (mem 0) =
        Hack.w16 (mem (if i = 0 then 3 else 4))) ∧
    (∀ frag, VMT.popAsm "pointer" i = some frag →
      (Hack.run frag env 5 ⟨a0, d0, mem, 0⟩).mem (if i = 0 then 3 else 4) =
        Hack.w16 (mem (mem 0 - 1))) ∧
    (∀ frag, VMT.popAsm "that" i = some frag →
      (Hack.run frag env 12 ⟨a0, d0, mem, 0⟩).mem (Hack.w16 (mem 4 + (i : Int))) =
        Hack.w16 (mem (mem 0 - 1))) ∧
    (∀ frag, VMT.pushAsm "argument" i = some frag →
      (Hack.run frag env 10 ⟨a0, d0, mem, 0⟩).mem (mem 0) =
        Hack.w16 (mem (Hack.w16 (mem 2 + (i : Int)))))) := by
  refine ⟨⟨rfl, rfl, rfl, rfl, rfl, rfl, rfl⟩, ⟨rfl, rfl, rfl, rfl, rfl, rfl, rfl⟩, ⟨rfl, rfl, rfl, rfl, rfl, rfl, rfl⟩, ⟨rfl, rfl, rfl, rfl, rfl, rfl, rfl⟩,
    ?_, ?_, ?_, ?_, ?_, ?_, ?_, ?_, ?_⟩
  · intro frag hfrag
    rw [show MainPy.pushAsm "temp" i =
      some ([Instr.num (Nat.cast (5 + i)), Instr.c Dest.dD Comp.cM Jump.noJump] ++ VMT.pushTail)
      from rfl] at hfrag
    obtain rfl := Option.some.inj hfrag
    rw [show (12 : Nat) = 5 + 7 from rfl,
      run_add ([Instr.num (Nat.cast (5 + i)), Instr.c Dest.dD Comp.cM Jump.noJump] ++ VMT.pushTail)
        env 5 7 ⟨a0, d0, mem, 0⟩,
      pushFromAddr_run ([Instr.num (Nat.cast (5 + i)), Instr.c Dest.dD Comp.cM Jump.noJump] ++ VMT.pushTail)
        env ⟨a0, d0, mem, 0⟩ (Instr.num (Nat.cast (5 + i))) (Nat.cast (5 + i))
        rfl (Or.inl rfl) rfl rfl rfl rfl rfl rfl hs1 hs2,
      run_halted ([Instr.num (Nat.cast (5 + i)), Instr.c Dest.dD Comp.cM Jump.noJump] ++ VMT.pushTail)
        env 5 _ (by show (7 : Nat) ≤ 0 + 7; omega)]
    dsimp only
    rw [updMem_ne (updMem mem (mem 0) (w16 (mem (Nat.cast (5 + i))))) 0 (mem 0 + 1) (mem 0) (by omega),
      updMem_same mem (mem 0) (w16 (mem (Nat.cast (5 + i))))]
  · intro frag hfrag
    rw [show MainPy.pushAsm "local" i =
      some ([Instr.sym "LCL", Instr.c Dest.dD Comp.cM Jump.noJump, Instr.num (Nat.cast i),
        Instr.c Dest.dA Comp.dPlusA Jump.noJump, Instr.c Dest.dD Comp.cM Jump.noJump] ++ VMT.pushTail)
      from rfl] at hfrag
    obtain rfl := Option.some.inj hfrag
    rw [show (12 : Nat) = 2 + 10 from rfl,
      run_add ([Instr.sym "LCL", Instr.c Dest.dD Comp.cM Jump.noJump, Instr.num (Nat.cast i),
        Instr.c Dest.dA Comp.dPlusA Jump.noJump, Instr.c Dest.dD Comp.cM Jump.noJump] ++ VMT.pushTail)
        env 2 10 ⟨a0, d0, mem, 0⟩,
      pushIndirect_run ([Instr.sym "LCL", Instr.c Dest.dD Comp.cM Jump.noJump, Instr.num (Nat.cast i),
        Instr.c Dest.dA Comp.dPlusA Jump.noJump, Instr.c Dest.dD Comp.cM Jump.noJump] ++ VMT.pushTail)
        env ⟨a0, d0, mem, 0⟩ "LCL" 1 (Nat.cast i)
        rfl rfl rfl rfl rfl rfl rfl rfl rfl rfl rfl hs1 hs2,
      run_halted ([Instr.sym "LCL", Instr.c Dest.dD Comp.cM Jump.noJump, Instr.num (Nat.cast i),
        Instr.c Dest.dA Comp.dPlusA Jump.noJump, Instr.c Dest.dD Comp.cM Jump.noJump] ++ VMT.pushTail)
        env 2 _ (by show (10 : Nat) ≤ 0 + 10; omega)]
    dsimp only
    rw [updMem_ne (updMem mem (mem 0) (w16 (mem (w16 (mem 1 + Nat.cast i))))) 0 (mem 0 + 1)
        (mem 0) (by omega),
      updMem_same mem (mem 0) (w16 (mem (w16 (mem 1 + Nat.cast i))))]
  · intro frag hfrag
    rw [show MainPy.popAsm "temp" i =
      some ([Instr.sym "SP", Instr.c Dest.dAM Comp.mMinus1 Jump.noJump,
      Instr.c Dest.dD Comp.cM Jump.noJump, Instr.num (Nat.cast (5 + i)),
      Instr.c Dest.dM Comp.cD Jump.noJump])
      from rfl] at hfrag
    obtain rfl := Option.some.inj hfrag
    rw [popDirect_run ([Instr.sym "SP", Instr.c Dest.dAM Comp.mMinus1 Jump.noJump,
      Instr.c Dest.dD Comp.cM Jump.noJump, Instr.num (Nat.cast (5 + i)),
      Instr.c Dest.dM Comp.cD Jump.noJump])
        env ⟨a0, d0, mem, 0⟩ (Instr.num (Nat.cast (5 + i))) (Nat.cast (5 + i))
        rfl rfl rfl rfl (Or.inl rfl) rfl hs1 (show mem 0 ≤ 32767 by omega)]
    dsimp only
    rw [updMem_same (updMem mem 0 (mem 0 - 1)) (Nat.cast (5 + i)) (w16 (mem (mem 0 - 1)))]
  · intro frag hfrag
    rw [show MainPy.popAsm "pointer" i =
      some ([Instr.sym "SP", Instr.c Dest.dAM Comp.mMinus1 Jump.noJump,
      Instr.c Dest.dD Comp.cM Jump.noJump, Instr.num (Nat.cast (3 + i)),
      Instr.c Dest.dM Comp.cD Jump.noJump])
      from rfl] at hfrag
    obtain rfl := Option.some.inj hfrag
    rw [popDirect_run ([Instr.sym "SP", Instr.c Dest.dAM Comp.mMinus1 Jump.noJump,
      Instr.c Dest.dD Comp.cM Jump.noJump, Instr.num (Nat.cast (3 + i)),
      Instr.c Dest.dM Comp.cD Jump.noJump])
        env ⟨a0, d0, mem, 0⟩ (Instr.num (Nat.cast (3 + i))) (Nat.cast (3 + i))
        rfl rfl rfl rfl (Or.inl rfl) rfl hs1 (show mem 0 ≤ 32767 by omega)]
    dsimp only
    rw [updMem_same (updMem mem 0 (mem 0 - 1)) (Nat.cast (3 + i)) (w16 (mem (mem 0 - 1)))]
  · intro frag hfrag
    rw [show MainPy.popAsm "argument" i =
      some ([Instr.sym "ARG", Instr.c Dest.dD Comp.cM Jump.noJump, Instr.num (Nat.cast i),
      Instr.c Dest.dD Comp.dPlusA Jump.noJump, Instr.sym "R13", Instr.c Dest.dM Comp.cD Jump.noJump,
      Instr.sym "SP", Instr.c Dest.dAM Comp.mMinus1 Jump.noJump, Instr.c Dest.dD Comp.cM Jump.noJump,
      Instr.sym "R13", Instr.c Dest.dA Comp.cM Jump.noJump, Instr.c Dest.dM Comp.cD Jump.noJump])
      from rfl] at hfrag
    obtain rfl := Option.some.inj hfrag
    rw [popIndirectMain_run ([Instr.sym "ARG", Instr.c Dest.dD Comp.cM Jump.noJump, Instr.num (Nat.cast i),
      Instr.c Dest.dD Comp.dPlusA Jump.noJump, Instr.sym "R13", Instr.c Dest.dM Comp.cD Jump.noJump,
      Instr.sym "SP", Instr.c Dest.dAM Comp.mMinus1 Jump.noJump, Instr.c Dest.dD Comp.cM Jump.noJump,
      Instr.sym "R13", Instr.c Dest.dA Comp.cM Jump.noJump, Instr.c Dest.dM Comp.cD Jump.noJump])
        env ⟨a0, d0, mem, 0⟩ "ARG" 2 (Nat.cast i)
        rfl rfl rfl rfl rfl rfl rfl rfl rfl rfl rfl rfl rfl hs1 (show mem 0 ≤ 32767 by omega)]
    dsimp only
    rw [updMem_same (updMem (updMem mem 13 (w16 (mem 2 + Nat.cast i))) 0 (mem 0 - 1))
      (w16 (mem 2 + Nat.cast i)) (w16 (mem (mem 0 - 1)))]
  · intro frag hfrag
    by_cases hi : i = 0
    · subst hi
      rw [show (if (0 : Nat) = 0 then (3 : Int) else 4) = 3 from rfl]
      rw [show VMT.pushAsm "pointer" 0 =
        some ([Instr.sym "THIS", Instr.c Dest.dD Comp.cM Jump.noJump] ++ VMT.pushTail)
        from rfl] at hfrag
      obtain rfl := Option.some.inj hfrag
      rw [pushFromAddr_run ([Instr.sym "THIS", Instr.c Dest.dD Comp.cM Jump.noJump] ++ VMT.pushTail)
          env ⟨a0, d0, mem, 0⟩ (Instr.sym "THIS") 3 rfl (Or.inr ⟨"THIS", rfl, rfl⟩)
          rfl rfl rfl rfl rfl rfl hs1 hs2]
      dsimp only
      rw [updMem_ne (updMem mem (mem 0) (w16 (mem 3))) 0 (mem 0 + 1) (mem 0) (by omega),
        updMem_same mem (mem 0) (w16 (mem 3))]
    · rw [show VMT.pushAsm "pointer" i =
        some ([Instr.sym (if i = 0 then "THIS" else "THAT"),
          Instr.c Dest.dD Comp.cM Jump.noJump] ++ VMT.pushTail)
        from rfl, if_neg hi] at hfrag
      rw [if_neg hi]
      obtain rfl := Option.some.inj hfrag
      rw [pushFromAddr_run ([Instr.sym "THAT", Instr.c Dest.dD Comp.cM Jump.noJump] ++ VMT.pushTail)
          env ⟨a0, d0, mem, 0⟩ (Instr.sym "THAT") 4 rfl (Or.inr ⟨"THAT", rfl, rfl⟩)
          rfl rfl rfl rfl rfl rfl hs1 hs2]
      dsimp only
      rw [updMem_ne (updMem mem (mem 0) (w16 (mem 4))) 0 (mem 0 + 1) (mem 0) (by omega),
        updMem_same mem (mem 0) (w16 (mem 4))]
  · intro frag hfrag
    by_cases hi : i = 0
    · subst hi
      rw [show (if (0 : Nat) = 0 then (3 : Int) else 4) = 3 from rfl]
      rw [show VMT.popAsm "pointer" 0 =
        some [Instr.sym "SP", Instr.c Dest.dAM Comp.mMinus1 Jump.noJump,
          Instr.c Dest.dD Comp.cM Jump.noJump, Instr.sym "THIS",
          Instr.c Dest.dM Comp.cD Jump.noJump]
        from rfl] at hfrag
      obtain rfl := Option.some.inj hfrag
      rw [popDirect_run ([Instr.sym "SP", Instr.c Dest.dAM Comp.mMinus1 Jump.noJump,
        Instr.c Dest.dD Comp.cM Jump.noJump, Instr.sym "THIS",
        Instr.c Dest.dM Comp.cD Jump.noJump])
          env ⟨a0, d0, mem, 0⟩ (Instr.sym "THIS") 3 rfl rfl rfl rfl
          (Or.inr ⟨"THIS", rfl, rfl⟩) rfl hs1 (show mem 0 ≤ 32767 by omega)]
      dsimp only
      rw [updMem_same (updMem mem 0 (mem 0 - 1)) 3 (w16 (mem (mem 0 - 1)))]
    · rw [show VMT.popAsm "pointer" i =
        some [Instr.sym "SP", Instr.c Dest.dAM Comp.mMinus1 Jump.noJump,
          Instr.c Dest.dD Comp.cM Jump.noJump,
          Instr.sym (if i = 0 then "THIS" else "THAT"),
          Instr.c Dest.dM Comp.cD Jump.noJump]
        from rfl, if_neg hi] at hfrag
      rw [if_neg hi]
      obtain rfl := Option.some.inj hfrag
      rw [popDirect_run ([Instr.sym "SP", Instr.c Dest.dAM Comp.mMinus1 Jump.noJump,
        Instr.c Dest.dD Comp.cM Jump.noJump, Instr.sym "THAT",
        Instr.c Dest.dM Comp.cD Jump.noJump])
          env ⟨a0, d0, mem, 0⟩ (Instr.sym "THAT") 4 rfl rfl rfl rfl
          (Or.inr ⟨"THAT", rfl, rfl⟩) rfl hs1 (show mem 0 ≤ 32767 by omega)]
      dsimp only
      rw [updMem_same (updMem mem 0 (mem 0 - 1)) 4 (w16 (mem (mem 0 - 1)))]
  · intro frag hfrag
    rw [show VMT.popAsm "that" i =
      some ([Instr.num (Nat.cast i), Instr.c Dest.dD Comp.cA Jump.noJump, Instr.sym "THAT",
      Instr.c Dest.dD Comp.mPlusD Jump.noJump, Instr.sym "R13", Instr.c Dest.dM Comp.cD Jump.noJump,
      Instr.sym "SP", Instr.c Dest.dAM Comp.mMinus1 Jump.noJump, Instr.c Dest.dD Comp.cM Jump.noJump,
      Instr.sym "R13", Instr.c Dest.dA Comp.cM Jump.noJump, Instr.c Dest.dM Comp.cD Jump.noJump])
      from rfl] at hfrag
    obtain rfl := Option.some.inj hfrag
    rw [popIndirectVM_run ([Instr.num (Nat.cast i), Instr.c Dest.dD Comp.cA Jump.noJump, Instr.sym "THAT",
      Instr.c Dest.dD Comp.mPlusD Jump.noJump, Instr.sym "R13", Instr.c Dest.dM Comp.cD Jump.noJump,
      Instr.sym "SP", Instr.c Dest.dAM Comp.mMinus1 Jump.noJump, Instr.c Dest.dD Comp.cM Jump.noJump,
      Instr.sym "R13", Instr.c Dest.dA Comp.cM Jump.noJump, Instr.c Dest.dM Comp.cD Jump.noJump])
        env ⟨a0, d0, mem, 0⟩ "THAT" 4 (Nat.cast i)
        rfl rfl rfl rfl rfl rfl rfl rfl rfl rfl rfl rfl rfl hs1 (show mem 0 ≤ 32767 by omega)]
    dsimp only
    rw [updMem_same (updMem (updMem mem 13 (w16 (mem 4 + Nat.cast i))) 0 (mem 0 - 1))
      (w16 (mem 4 + Nat.cast i)) (w16 (mem (mem 0 - 1)))]
  · intro frag hfrag
    rw [show VMT.pushAsm "argument" i =
      some ([Instr.sym "ARG", Instr.c Dest.dD Comp.cM Jump.noJump, Instr.num (Nat.cast i),
      Instr.c Dest.dA Comp.dPlusA Jump.noJump, Instr.c Dest.dD Comp.cM Jump.noJump] ++ VMT.pushTail)
      from rfl] at hfrag
    obtain rfl := Option.some.inj hfrag
    rw [pushIndirect_run ([Instr.sym "ARG", Instr.c Dest.dD Comp.cM Jump.noJump, Instr.num (Nat.cast i),
      Instr.c Dest.dA Comp.dPlusA Jump.noJump, Instr.c Dest.dD Comp.cM Jump.noJump] ++ VMT.pushTail)
        env ⟨a0, d0, mem, 0⟩ "ARG" 2 (Nat.cast i)
        rfl rfl rfl rfl rfl rfl rfl rfl rfl rfl rfl hs1 hs2]
    dsimp only
    rw [updMem_ne (updMem mem (mem 0) (w16 (mem (w16 (mem 2 + Nat.cast i))))) 0 (mem 0 + 1)
        (mem 0) (by omega),
      updMem_same mem (mem 0) (w16 (mem (w16 (mem 2 + Nat.cast i))))]

/-- Witness for C7 (amended): `push temp 2` from SP = 300 copies the value
of cell 7 to the old stack top. -/
theorem C7_segment_resolution_amended_witness :
    (Hack.run ([Hack.Instr.num 7, Hack.Instr.c .dD .cM .noJump] ++ VMT.pushTail)
      (fun _ => 16) 12 ⟨0, 0, fun _ => 300, 0⟩).mem 300 = Hack.w16 300 :=
  (C7_segment_resolution_amended 2 (fun _ => 16) 0 0 (fun _ => 300)
    (by norm_num) (by norm_num)).2.2.2.2.1 _ rfl

namespace MainPy

/-- The comparison labels the generator synthesizes while translating a
command stream, threaded through the same dispatch and counter updates as
the translate loop (writeArithmetic is the only dispatched routine that
touches the counter, and it creates `TRUE_` and `END_` labels exactly for
eq, gt and lt). -/
def cmpLabels : List (List String) → Nat → List String
  | [], _ => []
  | cmd :: rest, cnt =>
    match translateStep cmd cnt with
    | none => []
    | some (_, cnt2) =>
      (match cmd.head? with
       | some t =>
         if t = "eq" ∨ t = "gt" ∨ t = "lt" then
           ["TRUE_" ++ Nat.repr cnt, "END_" ++ Nat.repr cnt]
         else []
       | none => []) ++ cmpLabels rest cnt2

/-- User-declared identifiers of a program: the names carried by `label`
and `function` commands, as classified by Parser.commandType of
src/main.py. -/
def userIdents : List (List String) → List String
  | [] => []
  | cmd :: rest =>
    (match commandType cmd, cmd[1]? with
     | some (some k), some nm =>
       if k = "C_LABEL" ∨ k = "C_FUNCTION" then [nm] else []
     | _, _ => []) ++ userIdents rest

end MainPy

/-- The comparison fragment of writeArithmetic really declares the two
synthesized labels: its emitted string contains `(TRUE_cnt)` and
`(END_cnt)` as label lines and the counter advances by one. -/
theorem writeArithmetic_cmp_emits (t : String) (cnt : Nat)
    (h : t = "eq" ∨ t = "gt" ∨ t = "lt") :
    ∃ jump, MainPy.writeArithmetic t cnt =
      some ("@SP\nAM=M-1\nD=M\nA=A-1\nD=M-D\n"
        ++ "@" ++ ("TRUE_" ++ Nat.repr cnt) ++ "\nD;" ++ jump ++ "\n"
        ++ "@SP\nA=M-1\nM=0\n"
        ++ "@" ++ ("END_" ++ Nat.repr cnt) ++ "\n0;JMP\n"
        ++ "(" ++ ("TRUE_" ++ Nat.repr cnt) ++ ")\n@SP\nA=M-1\nM=-1\n"
        ++ "(" ++ ("END_" ++ Nat.repr cnt) ++ ")\n", cnt + 1) := by
  rcases h with rfl | rfl | rfl
  · exact ⟨"JEQ", rfl⟩
  · exact ⟨"JGT", rfl⟩
  · exact ⟨"JLT", rfl⟩

theorem str_append_left_cancel (s x y : String) (h : s ++ x = s ++ y) : x = y := by
  have hd := congrArg String.data h
  rw [String.data_append, String.data_append] at hd
  exact String.ext (List.append_cancel_left hd)

theorem true_label_inj (a b : Nat) (h : "TRUE_" ++ Nat.repr a = "TRUE_" ++ Nat.repr b) :
    a = b :=
  DecimalRepr.repr_injective a b (str_append_left_cancel "TRUE_" _ _ h)

theorem end_label_inj (a b : Nat) (h : "END_" ++ Nat.repr a = "END_" ++ Nat.repr b) :
    a = b :=
  DecimalRepr.repr_injective a b (str_append_left_cancel "END_" _ _ h)

theorem mainTranslateStep_counter (cmd : List String) (cnt : Nat) (s : String) (c2 : Nat)
    (h : MainPy.translateStep cmd cnt = some (s, c2)) : cnt ≤ c2 := by
  unfold MainPy.translateStep MainPy.writeArithmetic at h
  repeat' split at h
  all_goals try exact Option.noConfusion h
  all_goals try (injection h with hp; injection hp with h1 h2; omega)
  all_goals rw [Option.map_eq_some'] at h
  all_goals obtain ⟨x, hx, hfx⟩ := h
  all_goals injection hfx with h1 h2
  all_goals omega

theorem mainTranslateStep_cmp_counter (t : String) (args : List String) (cnt : Nat)
    (s : String) (c2 : Nat) (ht : t = "eq" ∨ t = "gt" ∨ t = "lt")
    (h : MainPy.translateStep (t :: args) cnt = some (s, c2)) : c2 = cnt + 1 := by
  rcases ht with rfl | rfl | rfl
  · have h2 : MainPy.writeArithmetic "eq" cnt = some (s, c2) := h
    unfold MainPy.writeArithmetic at h2
    rw [if_neg (by decide), if_neg (by decide), if_pos (by decide)] at h2
    injection h2 with hp
    injection hp with h1 h2
    omega
  · have h2 : MainPy.writeArithmetic "gt" cnt = some (s, c2) := h
    unfold MainPy.writeArithmetic at h2
    rw [if_neg (by decide), if_neg (by decide), if_pos (by decide)] at h2
    injection h2 with hp
    injection hp with h1 h2
    omega
  · have h2 : MainPy.writeArithmetic "lt" cnt = some (s, c2) := h
    unfold MainPy.writeArithmetic at h2
    rw [if_neg (by decide), if_neg (by decide), if_pos (by decide)] at h2
    injection h2 with hp
    injection hp with h1 h2
    omega

theorem cmpLabels_shape (cmds : List (List String)) (cnt : Nat) :
    ∀ l ∈ MainPy.cmpLabels cmds cnt, ∃ k, cnt ≤ k ∧
      (l = "TRUE_" ++ Nat.repr k ∨ l = "END_" ++ Nat.repr k) := by
  induction cmds generalizing cnt with
  | nil => intro l hl; exact absurd hl (by simp [MainPy.cmpLabels])
  | cons cmd rest ih =>
    intro l hl
    rw [MainPy.cmpLabels] at hl
    cases hstep : MainPy.translateStep cmd cnt with
    | none => rw [hstep] at hl; exact absurd hl (by simp)
    | some pr =>
      obtain ⟨str, cnt2⟩ := pr
      rw [hstep] at hl
      have hmono := mainTranslateStep_counter cmd cnt str cnt2 hstep
      rcases List.mem_append.mp hl with hmem | hmem
      · cases hh : cmd.head? with
        | none => rw [hh] at hmem; exact absurd hmem (by simp)
        | some t =>
          rw [hh] at hmem
          dsimp only at hmem
          by_cases hcmp : t = "eq" ∨ t = "gt" ∨ t = "lt"
          · rw [if_pos hcmp] at hmem
            rcases (by simpa using hmem : l = "TRUE_" ++ Nat.repr cnt ∨
                l = "END_" ++ Nat.repr cnt) with rfl | rfl
            · exact ⟨cnt, Nat.le_refl cnt, Or.inl rfl⟩
            · exact ⟨cnt, Nat.le_refl cnt, Or.inr rfl⟩
          · rw [if_neg hcmp] at hmem
            exact absurd hmem (by simp)
      · obtain ⟨k, hk, hor⟩ := ih cnt2 l hmem
        exact ⟨k, Nat.le_trans hmono hk, hor⟩

/-- C5: across one translation stream, the label strings the generator
synthesizes for its comparison commands — one TRUE_ and one END_ label per
eq/gt/lt occurrence, collected by `MainPy.cmpLabels`, which threads the
translate loop's counter updates; `writeArithmetic_cmp_emits` ties these
strings to the emitted fragment — are pairwise distinct, so two
invocations of eq in the same stream never reuse a label name. -/
theorem C5_comparison_labels_distinct (cmds : List (List String)) (cnt : Nat) :
    (MainPy.cmpLabels cmds cnt).Nodup := by
  induction cmds generalizing cnt with
  | nil => exact List.nodup_nil
  | cons cmd rest ih =>
    rw [MainPy.cmpLabels]
    cases hstep : MainPy.translateStep cmd cnt with
    | none => exact List.nodup_nil
    | some pr =>
      obtain ⟨str, cnt2⟩ := pr
      cases cmd with
      | nil =>
        simp only [List.head?_nil, List.nil_append]
        exact ih cnt2
      | cons t args =>
        simp only [List.head?_cons]
        by_cases hcmp : t = "eq" ∨ t = "gt" ∨ t = "lt"
        · rw [if_pos hcmp]
          have hc2 : cnt2 = cnt + 1 :=
            mainTranslateStep_cmp_counter t args cnt str cnt2 hcmp hstep
          subst hc2
          rw [List.cons_append, List.cons_append, List.nil_append]
          refine List.nodup_cons.mpr ⟨?_, List.nodup_cons.mpr ⟨?_, ih (cnt + 1)⟩⟩
          · intro hmem
            rcases List.mem_cons.mp hmem with he | hm
            · exact VMT.cmp_TRUE_ne_END (Nat.repr cnt) (Nat.repr cnt) he
            · obtain ⟨k, hk, hor | hor⟩ := cmpLabels_shape rest (cnt + 1) _ hm
              · have := true_label_inj cnt k hor
                omega
              · exact VMT.cmp_TRUE_ne_END (Nat.repr cnt) (Nat.repr k) hor
          · intro hm
            obtain ⟨k, hk, hor | hor⟩ := cmpLabels_shape rest (cnt + 1) _ hm
            · exact VMT.cmp_TRUE_ne_END (Nat.repr k) (Nat.repr cnt) hor.symm
            · have := end_label_inj cnt k hor
              omega
        · rw [if_neg hcmp, List.nil_append]
          exact ih cnt2

/-- C8 (code defect): the generator reserves no naming namespace for its
synthesized labels.  For the program `label TRUE_1; eq`, the user-declared
label name TRUE_1 is exactly the first comparison label the generator
synthesizes in the same stream (src/main.py's counter is 1 after the
bootstrap call), contradicting the claim that no user-declared identifier
can equal a generator-emitted label. -/
theorem C8_no_reserved_namespace :
    "TRUE_1" ∈ MainPy.userIdents [["label", "TRUE_1"], ["eq"]] ∧
    "TRUE_1" ∈ MainPy.cmpLabels [["label", "TRUE_1"], ["eq"]] MainPy.writeInit.2 :=
  ⟨by decide, by decide⟩

namespace Hack

/-- An instruction whose jump field is set: a control transfer. -/
def isJumpInstr : Instr → Bool
  | .c _ _ .noJump => false
  | .c _ _ _ => true
  | _ => false

end Hack

/-- The while-loop of src/main.py only ever appends to the output file, so
any successful run's output extends the accumulator it started from. -/
theorem mainTranslateFrom_prefix (cmds : List (List String)) :
    ∀ acc cnt out cnt2, MainPy.translateFrom cmds acc cnt = some (out, cnt2) →
      ∃ rest, out = acc ++ rest := by
  induction cmds with
  | nil =>
    intro acc cnt out cnt2 h
    rw [MainPy.translateFrom] at h
    injection h with h2
    injection h2 with h3 h4
    exact ⟨"", by rw [← h3]; exact (String.append_empty acc).symm⟩
  | cons cmd rest ih =>
    intro acc cnt out cnt2 h
    rw [MainPy.translateFrom] at h
    cases hs : MainPy.translateStep cmd cnt with
    | none => rw [hs] at h; exact Option.noConfusion h
    | some pr =>
      obtain ⟨frag, cnt3⟩ := pr
      rw [hs] at h
      obtain ⟨r, hr⟩ := ih (acc ++ frag) cnt3 out cnt2 h
      exact ⟨frag ++ r, by rw [hr, String.append_assoc]⟩

/-- Running the first four instructions of the bootstrap sets RAM[0] (SP)
to 256, regardless of the starting registers and memory. -/
theorem bootAsm_run4 (env : String → Int) (a0 d0 : Int) (mem : Int → Int) :
    Hack.run MainPy.bootAsm env 4 ⟨a0, d0, mem, 0⟩ =
      ⟨0, 256, Hack.updMem mem 0 256, 4⟩ :=
  calc Hack.run MainPy.bootAsm env 4 ⟨a0, d0, mem, 0⟩
      = Hack.run MainPy.bootAsm env 3 ⟨256, d0, mem, 1⟩ :=
        Hack.run_succ MainPy.bootAsm env 3 ⟨a0, d0, mem, 0⟩
    _ = Hack.run MainPy.bootAsm env 2 ⟨256, 256, mem, 2⟩ :=
        Hack.run_succ MainPy.bootAsm env 2 ⟨256, d0, mem, 1⟩
    _ = Hack.run MainPy.bootAsm env 1 ⟨0, 256, mem, 3⟩ :=
        Hack.run_succ MainPy.bootAsm env 1 ⟨256, 256, mem, 2⟩
    _ = Hack.run MainPy.bootAsm env 0 ⟨0, 256, Hack.updMem mem 0 256, 4⟩ :=
        Hack.run_succ MainPy.bootAsm env 0 ⟨0, 256, mem, 3⟩
    _ = ⟨0, 256, Hack.updMem mem 0 256, 4⟩ :=
        Hack.run_zero MainPy.bootAsm env ⟨0, 256, Hack.updMem mem 0 256, 4⟩

/-- C3 (code defect): in src/main.py the claim holds — every successful
translation's output starts with the bootstrap text writeInit.1, whose
first four instructions set SP=256 in any state, and whose only control
transfer before ROM index 52 is the unconditional jump at index 52, loaded
at index 51 with the symbol Sys.init — but src/VMTranslator.py's CodeWriter
constructor writes nothing, so the run on an empty program produces an
empty output stream containing no bootstrap at all, refuting the claim for
that file. -/
theorem C3_bootstrap_prologue :
    (∀ cmds out cnt, MainPy.translate cmds = some (out, cnt) →
        ∃ rest, out = MainPy.writeInit.1 ++ rest) ∧
    (∀ env a0 d0 mem,
        (Hack.run MainPy.bootAsm env 4 ⟨a0, d0, mem, 0⟩).mem 0 = 256 ∧
        (Hack.run MainPy.bootAsm env 4 ⟨a0, d0, mem, 0⟩).pc = 4) ∧
    (Hack.code MainPy.bootAsm)[51]? = some (Hack.Instr.sym "Sys.init") ∧
    (Hack.code MainPy.bootAsm)[52]? =
      some (Hack.Instr.c Hack.Dest.dNone Hack.Comp.zero Hack.Jump.jmp) ∧
    ((Hack.code MainPy.bootAsm).take 52).all (fun i => !Hack.isJumpInstr i) = true ∧
    VMT.translate [] = some ("", 0) := by
  refine ⟨?_, ?_, ?_, ?_, ?_, ?_⟩
  · intro cmds out cnt h
    exact mainTranslateFrom_prefix cmds MainPy.writeInit.1 MainPy.writeInit.2 out cnt h
  · intro env a0 d0 mem
    rw [bootAsm_run4 env a0 d0 mem]
    exact ⟨Hack.updMem_same mem 0 256, rfl⟩
  · decide
  · decide
  · decide
  · rfl

/-- The return-address label of writeCall sits at ROM index 49 of the call
fragment: 49 real instructions precede the `(RETURN_k)` line. -/
theorem callAsm_labelIdx (name : String) (nArgs cnt : Nat) :
    Hack.labelIdx (MainPy.callAsm name nArgs cnt).1 ("RETURN_" ++ Nat.repr cnt) =
      some 49 := by
  unfold Hack.labelIdx
  show (if ("RETURN_" ++ Nat.repr cnt) = ("RETURN_" ++ Nat.repr cnt) then some 49
    else Hack.labelIdxAux [] ("RETURN_" ++ Nat.repr cnt) 49) = some 49
  rw [if_pos rfl]

/-- The symbolic A-instruction `@RETURN_k` inside the call fragment resolves
to ROM address 49. -/
theorem callAsm_resolve_RETURN (name : String) (nArgs cnt : Nat) (env : String → Int) :
    Hack.resolveSym (MainPy.callAsm name nArgs cnt).1 env ("RETURN_" ++ Nat.repr cnt) =
      49 := by
  unfold Hack.resolveSym
  rw [Hack.builtin_RETURN (Nat.repr cnt), callAsm_labelIdx name nArgs cnt]; rfl

namespace Hack

/-- Symbolic execution of the frame fixup `@n / D=A / @5 / D=D+A / @SP /
D=M-D / @ARG / M=D`: writes SP − (n + 5) into the ARG register (cell 2). -/
theorem argSet_run (p : List Instr) (env : String → Int) (m : Mach) (n : Int)
    (h0 : (code p)[m.pc]? = some (.num n))
    (h1 : (code p)[m.pc + 1]? = some (.c .dD .cA .noJump))
    (h2 : (code p)[m.pc + 2]? = some (.num 5))
    (h3 : (code p)[m.pc + 3]? = some (.c .dD .dPlusA .noJump))
    (h4 : (code p)[m.pc + 4]? = some (.sym "SP"))
    (h5 : (code p)[m.pc + 5]? = some (.c .dD .mMinusD .noJump))
    (h6 : (code p)[m.pc + 6]? = some (.sym "ARG"))
    (h7 : (code p)[m.pc + 7]? = some (.c .dM .cD .noJump))
    (hn1 : 0 ≤ n) (hn2 : n + 5 ≤ 32767)
    (hs1 : 256 ≤ m.mem 0) (hs2 : m.mem 0 ≤ 32767) :
    run p env 8 m =
      ⟨2, m.mem 0 - (n + 5), updMem m.mem 2 (m.mem 0 - (n + 5)), m.pc + 8⟩ := by
  have e0 : step p env m = ⟨n, m.D, m.mem, m.pc + 1⟩ := step_num p env m n h0
  have e1 : step p env ⟨n, m.D, m.mem, m.pc + 1⟩ = ⟨n, n, m.mem, m.pc + 2⟩ := by
    rw [step_dD p env _ .cA h1]
    dsimp only
    rw [show evalComp .cA n m.D (m.mem n) = w16 n from rfl, w16_eq n (by omega) (by omega)]
  have e2 : step p env ⟨n, n, m.mem, m.pc + 2⟩ = ⟨5, n, m.mem, m.pc + 3⟩ :=
    step_num p env _ 5 h2
  have e3 : step p env ⟨5, n, m.mem, m.pc + 3⟩ = ⟨5, n + 5, m.mem, m.pc + 4⟩ := by
    rw [step_dD p env _ .dPlusA h3]
    dsimp only
    rw [show evalComp .dPlusA 5 n (m.mem 5) = w16 (n + 5) from rfl,
      w16_eq (n + 5) (by omega) (by omega)]
  have e4 : step p env ⟨5, n + 5, m.mem, m.pc + 4⟩ = ⟨0, n + 5, m.mem, m.pc + 5⟩ := by
    rw [step_sym p env _ "SP" h4]; rfl
  have e5 : step p env ⟨0, n + 5, m.mem, m.pc + 5⟩ =
      ⟨0, m.mem 0 - (n + 5), m.mem, m.pc + 6⟩ := by
    rw [step_dD p env _ .mMinusD h5]
    dsimp only
    rw [show evalComp .mMinusD 0 (n + 5) (m.mem 0) = w16 (m.mem 0 - (n + 5)) from rfl,
      w16_eq (m.mem 0 - (n + 5)) (by omega) (by omega)]
  have e6 : step p env ⟨0, m.mem 0 - (n + 5), m.mem, m.pc + 6⟩ =
      ⟨2, m.mem 0 - (n + 5), m.mem, m.pc + 7⟩ := by
    rw [step_sym p env _ "ARG" h6]; rfl
  have e7 : step p env ⟨2, m.mem 0 - (n + 5), m.mem, m.pc + 7⟩ =
      ⟨2, m.mem 0 - (n + 5), updMem m.mem 2 (m.mem 0 - (n + 5)), m.pc + 8⟩ := by
    rw [step_dM p env _ .cD h7]
    dsimp only
    rw [show evalComp .cD 2 (m.mem 0 - (n + 5)) (m.mem 2) = w16 (m.mem 0 - (n + 5)) from rfl,
      w16_eq (m.mem 0 - (n + 5)) (by omega) (by omega)]
  calc run p env 8 m
      = run p env 7 (step p env m) := rfl
    _ = run p env 7 ⟨n, m.D, m.mem, m.pc + 1⟩ := by rw [e0]
    _ = run p env 6 (step p env ⟨n, m.D, m.mem, m.pc + 1⟩) := rfl
    _ = run p env 6 ⟨n, n, m.mem, m.pc + 2⟩ := by rw [e1]
    _ = run p env 5 (step p env ⟨n, n, m.mem, m.pc + 2⟩) := rfl
    _ = run p env 5 ⟨5, n, m.mem, m.pc + 3⟩ := by rw [e2]
    _ = run p env 4 (step p env ⟨5, n, m.mem, m.pc + 3⟩) := rfl
    _ = run p env 4 ⟨5, n + 5, m.mem, m.pc + 4⟩ := by rw [e3]
    _ = run p env 3 (step p env ⟨5, n + 5, m.mem, m.pc + 4⟩) := rfl
    _ = run p env 3 ⟨0, n + 5, m.mem, m.pc + 5⟩ := by rw [e4]
    _ = run p env 2 (step p env ⟨0, n + 5, m.mem, m.pc + 5⟩) := rfl
    _ = run p env 2 ⟨0, m.mem 0 - (n + 5), m.mem, m.pc + 6⟩ := by rw [e5]
    _ = run p env 1 (step p env ⟨0, m.mem 0 - (n + 5), m.mem, m.pc + 6⟩) := rfl
    _ = run p env 1 ⟨2, m.mem 0 - (n + 5), m.mem, m.pc + 7⟩ := by rw [e6]
    _ = run p env 0 (step p env ⟨2, m.mem 0 - (n + 5), m.mem, m.pc + 7⟩) := rfl
    _ = ⟨2, m.mem 0 - (n + 5), updMem m.mem 2 (m.mem 0 - (n + 5)), m.pc + 8⟩ := by
        rw [run_zero, e7]

/-- Symbolic execution of `@SP / D=M / @LCL / M=D`: copies SP into the LCL
register (cell 1). -/
theorem lclSet_run (p : List Instr) (env : String → Int) (m : Mach)
    (h0 : (code p)[m.pc]? = some (.sym "SP"))
    (h1 : (code p)[m.pc + 1]? = some (.c .dD .cM .noJump))
    (h2 : (code p)[m.pc + 2]? = some (.sym "LCL"))
    (h3 : (code p)[m.pc + 3]? = some (.c .dM .cD .noJump))
    (hs1 : 256 ≤ m.mem 0) (hs2 : m.mem 0 ≤ 32767) :
    run p env 4 m = ⟨1, m.mem 0, updMem m.mem 1 (m.mem 0), m.pc + 4⟩ := by
  have e0 : step p env m = ⟨0, m.D, m.mem, m.pc + 1⟩ := by
    rw [step_sym p env m "SP" h0]; rfl
  have e1 : step p env ⟨0, m.D, m.mem, m.pc + 1⟩ = ⟨0, m.mem 0, m.mem, m.pc + 2⟩ := by
    rw [step_dD p env _ .cM h1]
    dsimp only
    rw [show evalComp .cM 0 m.D (m.mem 0) = w16 (m.mem 0) from rfl,
      w16_eq (m.mem 0) (by omega) (by omega)]
  have e2 : step p env ⟨0, m.mem 0, m.mem, m.pc + 2⟩ = ⟨1, m.mem 0, m.mem, m.pc + 3⟩ := by
    rw [step_sym p env _ "LCL" h2]; rfl
  have e3 : step p env ⟨1, m.mem 0, m.mem, m.pc + 3⟩ =
      ⟨1, m.mem 0, updMem m.mem 1 (m.mem 0), m.pc + 4⟩ := by
    rw [step_dM p env _ .cD h3]
    dsimp only
    rw [show evalComp .cD 1 (m.mem 0) (m.mem 1) = w16 (m.mem 0) from rfl,
      w16_eq (m.mem 0) (by omega) (by omega)]
  calc run p env 4 m
      = run p env 3 (step p env m) := rfl
    _ = run p env 3 ⟨0, m.D, m.mem, m.pc + 1⟩ := by rw [e0]
    _ = run p env 2 (step p env ⟨0, m.D, m.mem, m.pc + 1⟩) := rfl
    _ = run p env 2 ⟨0, m.mem 0, m.mem, m.pc + 2⟩ := by rw [e1]
    _ = run p env 1 (step p env ⟨0, m.mem 0, m.mem, m.pc + 2⟩) := rfl
    _ = run p env 1 ⟨1, m.mem 0, m.mem, m.pc + 3⟩ := by rw [e2]
    _ = run p env 0 (step p env ⟨1, m.mem 0, m.mem, m.pc + 3⟩) := rfl
    _ = ⟨1, m.mem 0, updMem m.mem 1 (m.mem 0), m.pc + 4⟩ := by
        rw [run_zero, e3]

end Hack

/-- Symbolic execution of the whole call fragment (writeCall, src/main.py
lines 142 to 159) up to the jump: 47 steps from pc 0 push the return
address (ROM index 49 of the fragment), then the caller's LCL, ARG, THIS
and THAT, then set ARG := SP − (nArgs + 5) and LCL := SP, ending at the
`@function_name` instruction (pc 47). -/
theorem callAsm_run (name : String) (nArgs cnt : Nat) (env : String → Int)
    (a0 d0 : Int) (mem : Int → Int)
    (hs1 : 256 ≤ mem 0) (hs2 : mem 0 + 5 ≤ 32767)
    (hn : (nArgs : Int) + 5 ≤ 32767)
    (hr1 : -32768 ≤ mem 1 ∧ mem 1 ≤ 32767)
    (hr2 : -32768 ≤ mem 2 ∧ mem 2 ≤ 32767)
    (hr3 : -32768 ≤ mem 3 ∧ mem 3 ≤ 32767)
    (hr4 : -32768 ≤ mem 4 ∧ mem 4 ≤ 32767) :
    Hack.run (MainPy.callAsm name nArgs cnt).1 env 47 (⟨a0, d0, mem, 0⟩ : Hack.Mach) = (⟨1, mem 0 + 5, Hack.updMem (Hack.updMem (Hack.updMem (Hack.updMem (Hack.updMem (Hack.updMem (Hack.updMem (Hack.updMem (Hack.updMem (Hack.updMem (Hack.updMem (Hack.updMem mem (mem 0) 49) 0 (mem 0 + 1)) (mem 0 + 1) (mem 1)) 0 (mem 0 + 2)) (mem 0 + 2) (mem 2)) 0 (mem 0 + 3)) (mem 0 + 3) (mem 3)) 0 (mem 0 + 4)) (mem 0 + 4) (mem 4)) 0 (mem 0 + 5)) 2 (mem 0 + 5 - (Nat.cast nArgs + 5))) 1 (mem 0 + 5), 47⟩ : Hack.Mach) := by
  have hA : Hack.run (MainPy.callAsm name nArgs cnt).1 env 7 (⟨a0, d0, mem, 0⟩ : Hack.Mach) = (⟨0, 49, Hack.updMem (Hack.updMem mem (mem 0) 49) 0 (mem 0 + 1), 7⟩ : Hack.Mach) := by
    rw [Hack.pushConstant_run (MainPy.callAsm name nArgs cnt).1 env (⟨a0, d0, mem, 0⟩ : Hack.Mach)
      (Hack.Instr.sym ("RETURN_" ++ Nat.repr cnt)) 49 rfl
      (Or.inr ⟨"RETURN_" ++ Nat.repr cnt, rfl, callAsm_resolve_RETURN name nArgs cnt env⟩)
      rfl rfl rfl rfl rfl rfl hs1 (show mem 0 ≤ 32766 by omega)]
    rfl
  have hB : Hack.run (MainPy.callAsm name nArgs cnt).1 env 7 (⟨0, 49, Hack.updMem (Hack.updMem mem (mem 0) 49) 0 (mem 0 + 1), 7⟩ : Hack.Mach) = (⟨0, mem 1, Hack.updMem (Hack.updMem (Hack.updMem (Hack.updMem mem (mem 0) 49) 0 (mem 0 + 1)) (mem 0 + 1) (mem 1)) 0 (mem 0 + 2), 14⟩ : Hack.Mach) := by
    rw [Hack.pushFromAddr_run (MainPy.callAsm name nArgs cnt).1 env (⟨0, 49, Hack.updMem (Hack.updMem mem (mem 0) 49) 0 (mem 0 + 1), 7⟩ : Hack.Mach) (Hack.Instr.sym "LCL") 1 rfl
      (Or.inr ⟨"LCL", rfl, rfl⟩) rfl rfl rfl rfl rfl rfl
      (show 256 ≤ (Hack.updMem (Hack.updMem mem (mem 0) 49) 0 (mem 0 + 1)) 0 by rw [Hack.updMem_same]; omega)
      (show (Hack.updMem (Hack.updMem mem (mem 0) 49) 0 (mem 0 + 1)) 0 ≤ 32766 by rw [Hack.updMem_same]; omega)]
    dsimp only
    rw [Hack.updMem_ne _ 0 (mem 0 + 1) 1 (by omega),
        Hack.updMem_ne _ (mem 0) 49 1 (by omega),
        Hack.w16_eq (mem 1) hr1.1 hr1.2,
        Hack.updMem_same _ 0 (mem 0 + 1),
        show (mem 0 + 1 + 1 : Int) = mem 0 + 2 from by omega]
  have hC : Hack.run (MainPy.callAsm name nArgs cnt).1 env 7 (⟨0, mem 1, Hack.updMem (Hack.updMem (Hack.updMem (Hack.updMem mem (mem 0) 49) 0 (mem 0 + 1)) (mem 0 + 1) (mem 1)) 0 (mem 0 + 2), 14⟩ : Hack.Mach) = (⟨0, mem 2, Hack.updMem (Hack.updMem (Hack.updMem (Hack.updMem (Hack.updMem (Hack.updMem mem (mem 0) 49) 0 (mem 0 + 1)) (mem 0 + 1) (mem 1)) 0 (mem 0 + 2)) (mem 0 + 2) (mem 2)) 0 (mem 0 + 3), 21⟩ : Hack.Mach) := by
    rw [Hack.pushFromAddr_run (MainPy.callAsm name nArgs cnt).1 env (⟨0, mem 1, Hack.updMem (Hack.updMem (Hack.updMem (Hack.updMem mem (mem 0) 49) 0 (mem 0 + 1)) (mem 0 + 1) (mem 1)) 0 (mem 0 + 2), 14⟩ : Hack.Mach) (Hack.Instr.sym "ARG") 2 rfl
      (Or.inr ⟨"ARG", rfl, rfl⟩) rfl rfl rfl rfl rfl rfl
      (show 256 ≤ (Hack.updMem (Hack.updMem (Hack.updMem (Hack.updMem mem (mem 0) 49) 0 (mem 0 + 1)) (mem 0 + 1) (mem 1)) 0 (mem 0 + 2)) 0 by rw [Hack.updMem_same]; omega)
      (show (Hack.updMem (Hack.updMem (Hack.updMem (Hack.updMem mem (mem 0) 49) 0 (mem 0 + 1)) (mem 0 + 1) (mem 1)) 0 (mem 0 + 2)) 0 ≤ 32766 by rw [Hack.updMem_same]; omega)]
    dsimp only
    rw [Hack.updMem_ne _ 0 (mem 0 + 2) 2 (by omega),
        Hack.updMem_ne _ (mem 0 + 1) (mem 1) 2 (by omega),
        Hack.updMem_ne _ 0 (mem 0 + 1) 2 (by omega),
        Hack.updMem_ne _ (mem 0) 49 2 (by omega),
        Hack.w16_eq (mem 2) hr2.1 hr2.2,
        Hack.updMem_same _ 0 (mem 0 + 2),
        show (mem 0 + 2 + 1 : Int) = mem 0 + 3 from by omega]
  have hD : Hack.run (MainPy.callAsm name nArgs cnt).1 env 7 (⟨0, mem 2, Hack.updMem (Hack.updMem (Hack.updMem (Hack.updMem (Hack.updMem (Hack.updMem mem (mem 0) 49) 0 (mem 0 + 1)) (mem 0 + 1) (mem 1)) 0 (mem 0 + 2)) (mem 0 + 2) (mem 2)) 0 (mem 0 + 3), 21⟩ : Hack.Mach) = (⟨0, mem 3, Hack.updMem (Hack.updMem (Hack.updMem (Hack.updMem (Hack.updMem (Hack.updMem (Hack.updMem (Hack.updMem mem (mem 0) 49) 0 (mem 0 + 1)) (mem 0 + 1) (mem 1)) 0 (mem 0 + 2)) (mem 0 + 2) (mem 2)) 0 (mem 0 + 3)) (mem 0 + 3) (mem 3)) 0 (mem 0 + 4), 28⟩ : Hack.Mach) := by
    rw [Hack.pushFromAddr_run (MainPy.callAsm name nArgs cnt).1 env (⟨0, mem 2, Hack.updMem (Hack.updMem (Hack.updMem (Hack.updMem (Hack.updMem (Hack.updMem mem (mem 0) 49) 0 (mem 0 + 1)) (mem 0 + 1) (mem 1)) 0 (mem 0 + 2)) (mem 0 + 2) (mem 2)) 0 (mem 0 + 3), 21⟩ : Hack.Mach) (Hack.Instr.sym "THIS") 3 rfl
      (Or.inr ⟨"THIS", rfl, rfl⟩) rfl rfl rfl rfl rfl rfl
      (show 256 ≤ (Hack.updMem (Hack.updMem (Hack.updMem (Hack.updMem (Hack.updMem (Hack.updMem mem (mem 0) 49) 0 (mem 0 + 1)) (mem 0 + 1) (mem 1)) 0 (mem 0 + 2)) (mem 0 + 2) (mem 2)) 0 (mem 0 + 3)) 0 by rw [Hack.updMem_same]; omega)
      (show (Hack.updMem (Hack.updMem (Hack.updMem (Hack.updMem (Hack.updMem (Hack.updMem mem (mem 0) 49) 0 (mem 0 + 1)) (mem 0 + 1) (mem 1)) 0 (mem 0 + 2)) (mem 0 + 2) (mem 2)) 0 (mem 0 + 3)) 0 ≤ 32766 by rw [Hack.updMem_same]; omega)]
    dsimp only
    rw [Hack.updMem_ne _ 0 (mem 0 + 3) 3 (by omega),
        Hack.updMem_ne _ (mem 0 + 2) (mem 2) 3 (by omega),
        Hack.updMem_ne _ 0 (mem 0 + 2) 3 (by omega),
        Hack.updMem_ne _ (mem 0 + 1) (mem 1) 3 (by omega),
        Hack.updMem_ne _ 0 (mem 0 + 1) 3 (by omega),
        Hack.updMem_ne _ (mem 0) 49 3 (by omega),
        Hack.w16_eq (mem 3) hr3.1 hr3.2,
        Hack.updMem_same _ 0 (mem 0 + 3),
        show (mem 0 + 3 + 1 : Int) = mem 0 + 4 from by omega]
  have hE : Hack.run (MainPy.callAsm name nArgs cnt).1 env 7 (⟨0, mem 3, Hack.updMem (Hack.updMem (Hack.updMem (Hack.updMem (Hack.updMem (Hack.updMem (Hack.updMem (Hack.updMem mem (mem 0) 49) 0 (mem 0 + 1)) (mem 0 + 1) (mem 1)) 0 (mem 0 + 2)) (mem 0 + 2) (mem 2)) 0 (mem 0 + 3)) (mem 0 + 3) (mem 3)) 0 (mem 0 + 4), 28⟩ : Hack.Mach) = (⟨0, mem 4, Hack.updMem (Hack.updMem (Hack.updMem (Hack.updMem (Hack.updMem (Hack.updMem (Hack.updMem (Hack.updMem (Hack.updMem (Hack.updMem mem (mem 0) 49) 0 (mem 0 + 1)) (mem 0 + 1) (mem 1)) 0 (mem 0 + 2)) (mem 0 + 2) (mem 2)) 0 (mem 0 + 3)) (mem 0 + 3) (mem 3)) 0 (mem 0 + 4)) (mem 0 + 4) (mem 4)) 0 (mem 0 + 5), 35⟩ : Hack.Mach) := by
    rw [Hack.pushFromAddr_run (MainPy.callAsm name nArgs cnt).1 env (⟨0, mem 3, Hack.updMem (Hack.updMem (Hack.updMem (Hack.updMem (Hack.updMem (Hack.updMem (Hack.updMem (Hack.updMem mem (mem 0) 49) 0 (mem 0 + 1)) (mem 0 + 1) (mem 1)) 0 (mem 0 + 2)) (mem 0 + 2) (mem 2)) 0 (mem 0 + 3)) (mem 0 + 3) (mem 3)) 0 (mem 0 + 4), 28⟩ : Hack.Mach) (Hack.Instr.sym "THAT") 4 rfl
      (Or.inr ⟨"THAT", rfl, rfl⟩) rfl rfl rfl rfl rfl rfl
      (show 256 ≤ (Hack.updMem (Hack.updMem (Hack.updMem (Hack.updMem (Hack.updMem (Hack.updMem (Hack.updMem (Hack.updMem mem (mem 0) 49) 0 (mem 0 + 1)) (mem 0 + 1) (mem 1)) 0 (mem 0 + 2)) (mem 0 + 2) (mem 2)) 0 (mem 0 + 3)) (mem 0 + 3) (mem 3)) 0 (mem 0 + 4)) 0 by rw [Hack.updMem_same]; omega)
      (show (Hack.updMem (Hack.updMem (Hack.updMem (Hack.updMem (Hack.updMem (Hack.updMem (Hack.updMem (Hack.updMem mem (mem 0) 49) 0 (mem 0 + 1)) (mem 0 + 1) (mem 1)) 0 (mem 0 + 2)) (mem 0 + 2) (mem 2)) 0 (mem 0 + 3)) (mem 0 + 3) (mem 3)) 0 (mem 0 + 4)) 0 ≤ 32766 by rw [Hack.updMem_same]; omega)]
    dsimp only
    rw [Hack.updMem_ne _ 0 (mem 0 + 4) 4 (by omega),
        Hack.updMem_ne _ (mem 0 + 3) (mem 3) 4 (by omega),
        Hack.updMem_ne _ 0 (mem 0 + 3) 4 (by omega),
        Hack.updMem_ne _ (mem 0 + 2) (mem 2) 4 (by omega),
        Hack.updMem_ne _ 0 (mem 0 + 2) 4 (by omega),
        Hack.updMem_ne _ (mem 0 + 1) (mem 1) 4 (by omega),
        Hack.updMem_ne _ 0 (mem 0 + 1) 4 (by omega),
        Hack.updMem_ne _ (mem 0) 49 4 (by omega),
        Hack.w16_eq (mem 4) hr4.1 hr4.2,
        Hack.updMem_same _ 0 (mem 0 + 4),
        show (mem 0 + 4 + 1 : Int) = mem 0 + 5 from by omega]
  have hF : Hack.run (MainPy.callAsm name nArgs cnt).1 env 8 (⟨0, mem 4, Hack.updMem (Hack.updMem (Hack.updMem (Hack.updMem (Hack.updMem (Hack.updMem (Hack.updMem (Hack.updMem (Hack.updMem (Hack.updMem mem (mem 0) 49) 0 (mem 0 + 1)) (mem 0 + 1) (mem 1)) 0 (mem 0 + 2)) (mem 0 + 2) (mem 2)) 0 (mem 0 + 3)) (mem 0 + 3) (mem 3)) 0 (mem 0 + 4)) (mem 0 + 4) (mem 4)) 0 (mem 0 + 5), 35⟩ : Hack.Mach) = (⟨2, mem 0 + 5 - (Nat.cast nArgs + 5), Hack.updMem (Hack.updMem (Hack.updMem (Hack.updMem (Hack.updMem (Hack.updMem (Hack.updMem (Hack.updMem (Hack.updMem (Hack.updMem (Hack.updMem mem (mem 0) 49) 0 (mem 0 + 1)) (mem 0 + 1) (mem 1)) 0 (mem 0 + 2)) (mem 0 + 2) (mem 2)) 0 (mem 0 + 3)) (mem 0 + 3) (mem 3)) 0 (mem 0 + 4)) (mem 0 + 4) (mem 4)) 0 (mem 0 + 5)) 2 (mem 0 + 5 - (Nat.cast nArgs + 5)), 43⟩ : Hack.Mach) := by
    rw [Hack.argSet_run (MainPy.callAsm name nArgs cnt).1 env (⟨0, mem 4, Hack.updMem (Hack.updMem (Hack.updMem (Hack.updMem (Hack.updMem (Hack.updMem (Hack.updMem (Hack.updMem (Hack.updMem (Hack.updMem mem (mem 0) 49) 0 (mem 0 + 1)) (mem 0 + 1) (mem 1)) 0 (mem 0 + 2)) (mem 0 + 2) (mem 2)) 0 (mem 0 + 3)) (mem 0 + 3) (mem 3)) 0 (mem 0 + 4)) (mem 0 + 4) (mem 4)) 0 (mem 0 + 5), 35⟩ : Hack.Mach) (Nat.cast nArgs) rfl rfl rfl rfl rfl rfl rfl rfl
      (show (0 : Int) ≤ Nat.cast nArgs by omega) hn
      (show 256 ≤ (Hack.updMem (Hack.updMem (Hack.updMem (Hack.updMem (Hack.updMem (Hack.updMem (Hack.updMem (Hack.updMem (Hack.updMem (Hack.updMem mem (mem 0) 49) 0 (mem 0 + 1)) (mem 0 + 1) (mem 1)) 0 (mem 0 + 2)) (mem 0 + 2) (mem 2)) 0 (mem 0 + 3)) (mem 0 + 3) (mem 3)) 0 (mem 0 + 4)) (mem 0 + 4) (mem 4)) 0 (mem 0 + 5)) 0 by rw [Hack.updMem_same]; omega)
      (show (Hack.updMem (Hack.updMem (Hack.updMem (Hack.updMem (Hack.updMem (Hack.updMem (Hack.updMem (Hack.updMem (Hack.updMem (Hack.updMem mem (mem 0) 49) 0 (mem 0 + 1)) (mem 0 + 1) (mem 1)) 0 (mem 0 + 2)) (mem 0 + 2) (mem 2)) 0 (mem 0 + 3)) (mem 0 + 3) (mem 3)) 0 (mem 0 + 4)) (mem 0 + 4) (mem 4)) 0 (mem 0 + 5)) 0 ≤ 32767 by rw [Hack.updMem_same]; omega)]
    dsimp only
    rw [Hack.updMem_same _ 0 (mem 0 + 5)]
  have hG : Hack.run (MainPy.callAsm name nArgs cnt).1 env 4 (⟨2, mem 0 + 5 - (Nat.cast nArgs + 5), Hack.updMem (Hack.updMem (Hack.updMem (Hack.updMem (Hack.updMem (Hack.updMem (Hack.updMem (Hack.updMem (Hack.updMem (Hack.updMem (Hack.updMem mem (mem 0) 49) 0 (mem 0 + 1)) (mem 0 + 1) (mem 1)) 0 (mem 0 + 2)) (mem 0 + 2) (mem 2)) 0 (mem 0 + 3)) (mem 0 + 3) (mem 3)) 0 (mem 0 + 4)) (mem 0 + 4) (mem 4)) 0 (mem 0 + 5)) 2 (mem 0 + 5 - (Nat.cast nArgs + 5)), 43⟩ : Hack.Mach) = (⟨1, mem 0 + 5, Hack.updMem (Hack.updMem (Hack.updMem (Hack.updMem (Hack.updMem (Hack.updMem (Hack.updMem (Hack.updMem (Hack.updMem (Hack.updMem (Hack.updMem (Hack.updMem mem (mem 0) 49) 0 (mem 0 + 1)) (mem 0 + 1) (mem 1)) 0 (mem 0 + 2)) (mem 0 + 2) (mem 2)) 0 (mem 0 + 3)) (mem 0 + 3) (mem 3)) 0 (mem 0 + 4)) (mem 0 + 4) (mem 4)) 0 (mem 0 + 5)) 2 (mem 0 + 5 - (Nat.cast nArgs + 5))) 1 (mem 0 + 5), 47⟩ : Hack.Mach) := by
    rw [Hack.lclSet_run (MainPy.callAsm name nArgs cnt).1 env (⟨2, mem 0 + 5 - (Nat.cast nArgs + 5), Hack.updMem (Hack.updMem (Hack.updMem (Hack.updMem (Hack.updMem (Hack.updMem (Hack.updMem (Hack.updMem (Hack.updMem (Hack.updMem (Hack.updMem mem (mem 0) 49) 0 (mem 0 + 1)) (mem 0 + 1) (mem 1)) 0 (mem 0 + 2)) (mem 0 + 2) (mem 2)) 0 (mem 0 + 3)) (mem 0 + 3) (mem 3)) 0 (mem 0 + 4)) (mem 0 + 4) (mem 4)) 0 (mem 0 + 5)) 2 (mem 0 + 5 - (Nat.cast nArgs + 5)), 43⟩ : Hack.Mach) rfl rfl rfl rfl
      (show 256 ≤ (Hack.updMem (Hack.updMem (Hack.updMem (Hack.updMem (Hack.updMem (Hack.updMem (Hack.updMem (Hack.updMem (Hack.updMem (Hack.updMem (Hack.updMem mem (mem 0) 49) 0 (mem 0 + 1)) (mem 0 + 1) (mem 1)) 0 (mem 0 + 2)) (mem 0 + 2) (mem 2)) 0 (mem 0 + 3)) (mem 0 + 3) (mem 3)) 0 (mem 0 + 4)) (mem 0 + 4) (mem 4)) 0 (mem 0 + 5)) 2 (mem 0 + 5 - (Nat.cast nArgs + 5))) 0 by
          rw [Hack.updMem_ne _ 2 (mem 0 + 5 - (Nat.cast nArgs + 5)) 0 (by omega),
            Hack.updMem_same]; omega)
      (show (Hack.updMem (Hack.updMem (Hack.updMem (Hack.updMem (Hack.updMem (Hack.updMem (Hack.updMem (Hack.updMem (Hack.updMem (Hack.updMem (Hack.updMem mem (mem 0) 49) 0 (mem 0 + 1)) (mem 0 + 1) (mem 1)) 0 (mem 0 + 2)) (mem 0 + 2) (mem 2)) 0 (mem 0 + 3)) (mem 0 + 3) (mem 3)) 0 (mem 0 + 4)) (mem 0 + 4) (mem 4)) 0 (mem 0 + 5)) 2 (mem 0 + 5 - (Nat.cast nArgs + 5))) 0 ≤ 32767 by
          rw [Hack.updMem_ne _ 2 (mem 0 + 5 - (Nat.cast nArgs + 5)) 0 (by omega),
            Hack.updMem_same]; omega)]
    dsimp only
    rw [Hack.updMem_ne _ 2 (mem 0 + 5 - (Nat.cast nArgs + 5)) 0 (by omega),
      Hack.updMem_same _ 0 (mem 0 + 5)]
  calc Hack.run (MainPy.callAsm name nArgs cnt).1 env 47 (⟨a0, d0, mem, 0⟩ : Hack.Mach)
      = Hack.run (MainPy.callAsm name nArgs cnt).1 env 40 (Hack.run (MainPy.callAsm name nArgs cnt).1 env 7 (⟨a0, d0, mem, 0⟩ : Hack.Mach)) := Hack.run_add (MainPy.callAsm name nArgs cnt).1 env 40 7 (⟨a0, d0, mem, 0⟩ : Hack.Mach)
    _ = Hack.run (MainPy.callAsm name nArgs cnt).1 env 40 (⟨0, 49, Hack.updMem (Hack.updMem mem (mem 0) 49) 0 (mem 0 + 1), 7⟩ : Hack.Mach) := by rw [hA]
    _ = Hack.run (MainPy.callAsm name nArgs cnt).1 env 33 (Hack.run (MainPy.callAsm name nArgs cnt).1 env 7 (⟨0, 49, Hack.updMem (Hack.updMem mem (mem 0) 49) 0 (mem 0 + 1), 7⟩ : Hack.Mach)) := Hack.run_add (MainPy.callAsm name nArgs cnt).1 env 33 7 (⟨0, 49, Hack.updMem (Hack.updMem mem (mem 0) 49) 0 (mem 0 + 1), 7⟩ : Hack.Mach)
    _ = Hack.run (MainPy.callAsm name nArgs cnt).1 env 33 (⟨0, mem 1, Hack.updMem (Hack.updMem (Hack.updMem (Hack.updMem mem (mem 0) 49) 0 (mem 0 + 1)) (mem 0 + 1) (mem 1)) 0 (mem 0 + 2), 14⟩ : Hack.Mach) := by rw [hB]
    _ = Hack.run (MainPy.callAsm name nArgs cnt).1 env 26 (Hack.run (MainPy.callAsm name nArgs cnt).1 env 7 (⟨0, mem 1, Hack.updMem (Hack.updMem (Hack.updMem (Hack.updMem mem (mem 0) 49) 0 (mem 0 + 1)) (mem 0 + 1) (mem 1)) 0 (mem 0 + 2), 14⟩ : Hack.Mach)) := Hack.run_add (MainPy.callAsm name nArgs cnt).1 env 26 7 (⟨0, mem 1, Hack.updMem (Hack.updMem (Hack.updMem (Hack.updMem mem (mem 0) 49) 0 (mem 0 + 1)) (mem 0 + 1) (mem 1)) 0 (mem 0 + 2), 14⟩ : Hack.Mach)
    _ = Hack.run (MainPy.callAsm name nArgs cnt).1 env 26 (⟨0, mem 2, Hack.updMem (Hack.updMem (Hack.updMem (Hack.updMem (Hack.updMem (Hack.updMem mem (mem 0) 49) 0 (mem 0 + 1)) (mem 0 + 1) (mem 1)) 0 (mem 0 + 2)) (mem 0 + 2) (mem 2)) 0 (mem 0 + 3), 21⟩ : Hack.Mach) := by rw [hC]
    _ = Hack.run (MainPy.callAsm name nArgs cnt).1 env 19 (Hack.run (MainPy.callAsm name nArgs cnt).1 env 7 (⟨0, mem 2, Hack.updMem (Hack.updMem (Hack.updMem (Hack.updMem (Hack.updMem (Hack.updMem mem (mem 0) 49) 0 (mem 0 + 1)) (mem 0 + 1) (mem 1)) 0 (mem 0 + 2)) (mem 0 + 2) (mem 2)) 0 (mem 0 + 3), 21⟩ : Hack.Mach)) := Hack.run_add (MainPy.callAsm name nArgs cnt).1 env 19 7 (⟨0, mem 2, Hack.updMem (Hack.updMem (Hack.updMem (Hack.updMem (Hack.updMem (Hack.updMem mem (mem 0) 49) 0 (mem 0 + 1)) (mem 0 + 1) (mem 1)) 0 (mem 0 + 2)) (mem 0 + 2) (mem 2)) 0 (mem 0 + 3), 21⟩ : Hack.Mach)
    _ = Hack.run (MainPy.callAsm name nArgs cnt).1 env 19 (⟨0, mem 3, Hack.updMem (Hack.updMem (Hack.updMem (Hack.updMem (Hack.updMem (Hack.updMem (Hack.updMem (Hack.updMem mem (mem 0) 49) 0 (mem 0 + 1)) (mem 0 + 1) (mem 1)) 0 (mem 0 + 2)) (mem 0 + 2) (mem 2)) 0 (mem 0 + 3)) (mem 0 + 3) (mem 3)) 0 (mem 0 + 4), 28⟩ : Hack.Mach) := by rw [hD]
    _ = Hack.run (MainPy.callAsm name nArgs cnt).1 env 12 (Hack.run (MainPy.callAsm name nArgs cnt).1 env 7 (⟨0, mem 3, Hack.updMem (Hack.updMem (Hack.updMem (Hack.updMem (Hack.updMem (Hack.updMem (Hack.updMem (Hack.updMem mem (mem 0) 49) 0 (mem 0 + 1)) (mem 0 + 1) (mem 1)) 0 (mem 0 + 2)) (mem 0 + 2) (mem 2)) 0 (mem 0 + 3)) (mem 0 + 3) (mem 3)) 0 (mem 0 + 4), 28⟩ : Hack.Mach)) := Hack.run_add (MainPy.callAsm name nArgs cnt).1 env 12 7 (⟨0, mem 3, Hack.updMem (Hack.updMem (Hack.updMem (Hack.updMem (Hack.updMem (Hack.updMem (Hack.updMem (Hack.updMem mem (mem 0) 49) 0 (mem 0 + 1)) (mem 0 + 1) (mem 1)) 0 (mem 0 + 2)) (mem 0 + 2) (mem 2)) 0 (mem 0 + 3)) (mem 0 + 3) (mem 3)) 0 (mem 0 + 4), 28⟩ : Hack.Mach)
    _ = Hack.run (MainPy.callAsm name nArgs cnt).1 env 12 (⟨0, mem 4, Hack.updMem (Hack.updMem (Hack.updMem (Hack.updMem (Hack.updMem (Hack.updMem (Hack.updMem (Hack.updMem (Hack.updMem (Hack.updMem mem (mem 0) 49) 0 (mem 0 + 1)) (mem 0 + 1) (mem 1)) 0 (mem 0 + 2)) (mem 0 + 2) (mem 2)) 0 (mem 0 + 3)) (mem 0 + 3) (mem 3)) 0 (mem 0 + 4)) (mem 0 + 4) (mem 4)) 0 (mem 0 + 5), 35⟩ : Hack.Mach) := by rw [hE]
    _ = Hack.run (MainPy.callAsm name nArgs cnt).1 env 4 (Hack.run (MainPy.callAsm name nArgs cnt).1 env 8 (⟨0, mem 4, Hack.updMem (Hack.updMem (Hack.updMem (Hack.updMem (Hack.updMem (Hack.updMem (Hack.updMem (Hack.updMem (Hack.updMem (Hack.updMem mem (mem 0) 49) 0 (mem 0 + 1)) (mem 0 + 1) (mem 1)) 0 (mem 0 + 2)) (mem 0 + 2) (mem 2)) 0 (mem 0 + 3)) (mem 0 + 3) (mem 3)) 0 (mem 0 + 4)) (mem 0 + 4) (mem 4)) 0 (mem 0 + 5), 35⟩ : Hack.Mach)) := Hack.run_add (MainPy.callAsm name nArgs cnt).1 env 4 8 (⟨0, mem 4, Hack.updMem (Hack.updMem (Hack.updMem (Hack.updMem (Hack.updMem (Hack.updMem (Hack.updMem (Hack.updMem (Hack.updMem (Hack.updMem mem (mem 0) 49) 0 (mem 0 + 1)) (mem 0 + 1) (mem 1)) 0 (mem 0 + 2)) (mem 0 + 2) (mem 2)) 0 (mem 0 + 3)) (mem 0 + 3) (mem 3)) 0 (mem 0 + 4)) (mem 0 + 4) (mem 4)) 0 (mem 0 + 5), 35⟩ : Hack.Mach)
    _ = Hack.run (MainPy.callAsm name nArgs cnt).1 env 4 (⟨2, mem 0 + 5 - (Nat.cast nArgs + 5), Hack.updMem (Hack.updMem (Hack.updMem (Hack.updMem (Hack.updMem (Hack.updMem (Hack.updMem (Hack.updMem (Hack.updMem (Hack.updMem (Hack.updMem mem (mem 0) 49) 0 (mem 0 + 1)) (mem 0 + 1) (mem 1)) 0 (mem 0 + 2)) (mem 0 + 2) (mem 2)) 0 (mem 0 + 3)) (mem 0 + 3) (mem 3)) 0 (mem 0 + 4)) (mem 0 + 4) (mem 4)) 0 (mem 0 + 5)) 2 (mem 0 + 5 - (Nat.cast nArgs + 5)), 43⟩ : Hack.Mach) := by rw [hF]
    _ = Hack.run (MainPy.callAsm name nArgs cnt).1 env 0 (Hack.run (MainPy.callAsm name nArgs cnt).1 env 4 (⟨2, mem 0 + 5 - (Nat.cast nArgs + 5), Hack.updMem (Hack.updMem (Hack.updMem (Hack.updMem (Hack.updMem (Hack.updMem (Hack.updMem (Hack.updMem (Hack.updMem (Hack.updMem (Hack.updMem mem (mem 0) 49) 0 (mem 0 + 1)) (mem 0 + 1) (mem 1)) 0 (mem 0 + 2)) (mem 0 + 2) (mem 2)) 0 (mem 0 + 3)) (mem 0 + 3) (mem 3)) 0 (mem 0 + 4)) (mem 0 + 4) (mem 4)) 0 (mem 0 + 5)) 2 (mem 0 + 5 - (Nat.cast nArgs + 5)), 43⟩ : Hack.Mach)) := Hack.run_add (MainPy.callAsm name nArgs cnt).1 env 0 4 (⟨2, mem 0 + 5 - (Nat.cast nArgs + 5), Hack.updMem (Hack.updMem (Hack.updMem (Hack.updMem (Hack.updMem (Hack.updMem (Hack.updMem (Hack.updMem (Hack.updMem (Hack.updMem (Hack.updMem mem (mem 0) 49) 0 (mem 0 + 1)) (mem 0 + 1) (mem 1)) 0 (mem 0 + 2)) (mem 0 + 2) (mem 2)) 0 (mem 0 + 3)) (mem 0 + 3) (mem 3)) 0 (mem 0 + 4)) (mem 0 + 4) (mem 4)) 0 (mem 0 + 5)) 2 (mem 0 + 5 - (Nat.cast nArgs + 5)), 43⟩ : Hack.Mach)
    _ = Hack.run (MainPy.callAsm name nArgs cnt).1 env 0 (⟨1, mem 0 + 5, Hack.updMem (Hack.updMem (Hack.updMem (Hack.updMem (Hack.updMem (Hack.updMem (Hack.updMem (Hack.updMem (Hack.updMem (Hack.updMem (Hack.updMem (Hack.updMem mem (mem 0) 49) 0 (mem 0 + 1)) (mem 0 + 1) (mem 1)) 0 (mem 0 + 2)) (mem 0 + 2) (mem 2)) 0 (mem 0 + 3)) (mem 0 + 3) (mem 3)) 0 (mem 0 + 4)) (mem 0 + 4) (mem 4)) 0 (mem 0 + 5)) 2 (mem 0 + 5 - (Nat.cast nArgs + 5))) 1 (mem 0 + 5), 47⟩ : Hack.Mach) := by rw [hG]
    _ = (⟨1, mem 0 + 5, Hack.updMem (Hack.updMem (Hack.updMem (Hack.updMem (Hack.updMem (Hack.updMem (Hack.updMem (Hack.updMem (Hack.updMem (Hack.updMem (Hack.updMem (Hack.updMem mem (mem 0) 49) 0 (mem 0 + 1)) (mem 0 + 1) (mem 1)) 0 (mem 0 + 2)) (mem 0 + 2) (mem 2)) 0 (mem 0 + 3)) (mem 0 + 3) (mem 3)) 0 (mem 0 + 4)) (mem 0 + 4) (mem 4)) 0 (mem 0 + 5)) 2 (mem 0 + 5 - (Nat.cast nArgs + 5))) 1 (mem 0 + 5), 47⟩ : Hack.Mach) := Hack.run_zero (MainPy.callAsm name nArgs cnt).1 env (⟨1, mem 0 + 5, Hack.updMem (Hack.updMem (Hack.updMem (Hack.updMem (Hack.updMem (Hack.updMem (Hack.updMem (Hack.updMem (Hack.updMem (Hack.updMem (Hack.updMem (Hack.updMem mem (mem 0) 49) 0 (mem 0 + 1)) (mem 0 + 1) (mem 1)) 0 (mem 0 + 2)) (mem 0 + 2) (mem 2)) 0 (mem 0 + 3)) (mem 0 + 3) (mem 3)) 0 (mem 0 + 4)) (mem 0 + 4) (mem 4)) 0 (mem 0 + 5)) 2 (mem 0 + 5 - (Nat.cast nArgs + 5))) 1 (mem 0 + 5), 47⟩ : Hack.Mach)

/-- C2: every call emission writeCall(name, nArgs) (src/main.py lines 142
to 159) behaves as claimed.  Running the emitted fragment for the 47
instructions preceding the transfer of control pushes exactly 5 cells (SP
grows from mem 0 to mem 0 + 5): first the return address — which equals
49, the ROM index the fresh label RETURN_cnt resolves to, the instruction
right after the jump — then the caller's LCL, ARG, THIS and THAT in that
order; it then sets ARG (cell 2) to SP − (nArgs + 5) and LCL (cell 1) to
the new SP; the instruction at pc 47 loads the callee's entry symbol and
the one at 48 jumps unconditionally; the return-address anchor
`(RETURN_cnt)` is the final emitted line, immediately after the jump; the
label counter increments, and distinct counters give distinct return
labels (freshness). -/
theorem C2_writeCall_protocol (name : String) (nArgs cnt : Nat) (env : String → Int)
    (a0 d0 : Int) (mem : Int → Int)
    (hs1 : 256 ≤ mem 0) (hs2 : mem 0 + 5 ≤ 32767)
    (hn : (nArgs : Int) + 5 ≤ 32767)
    (hr1 : -32768 ≤ mem 1 ∧ mem 1 ≤ 32767)
    (hr2 : -32768 ≤ mem 2 ∧ mem 2 ≤ 32767)
    (hr3 : -32768 ≤ mem 3 ∧ mem 3 ≤ 32767)
    (hr4 : -32768 ≤ mem 4 ∧ mem 4 ≤ 32767) :
    (Hack.run (MainPy.callAsm name nArgs cnt).1 env 47 (⟨a0, d0, mem, 0⟩ : Hack.Mach)).pc = 47 ∧
    (Hack.run (MainPy.callAsm name nArgs cnt).1 env 47 (⟨a0, d0, mem, 0⟩ : Hack.Mach)).mem 0 = mem 0 + 5 ∧
    (Hack.run (MainPy.callAsm name nArgs cnt).1 env 47 (⟨a0, d0, mem, 0⟩ : Hack.Mach)).mem (mem 0) = 49 ∧
    Hack.labelIdx (MainPy.callAsm name nArgs cnt).1 ("RETURN_" ++ Nat.repr cnt) = some 49 ∧
    (Hack.run (MainPy.callAsm name nArgs cnt).1 env 47 (⟨a0, d0, mem, 0⟩ : Hack.Mach)).mem (mem 0 + 1) = mem 1 ∧
    (Hack.run (MainPy.callAsm name nArgs cnt).1 env 47 (⟨a0, d0, mem, 0⟩ : Hack.Mach)).mem (mem 0 + 2) = mem 2 ∧
    (Hack.run (MainPy.callAsm name nArgs cnt).1 env 47 (⟨a0, d0, mem, 0⟩ : Hack.Mach)).mem (mem 0 + 3) = mem 3 ∧
    (Hack.run (MainPy.callAsm name nArgs cnt).1 env 47 (⟨a0, d0, mem, 0⟩ : Hack.Mach)).mem (mem 0 + 4) = mem 4 ∧
    (Hack.run (MainPy.callAsm name nArgs cnt).1 env 47 (⟨a0, d0, mem, 0⟩ : Hack.Mach)).mem 2 = mem 0 + 5 - ((nArgs : Int) + 5) ∧
    (Hack.run (MainPy.callAsm name nArgs cnt).1 env 47 (⟨a0, d0, mem, 0⟩ : Hack.Mach)).mem 1 = mem 0 + 5 ∧
    (Hack.code (MainPy.callAsm name nArgs cnt).1)[47]? = some (Hack.Instr.sym name) ∧
    (Hack.code (MainPy.callAsm name nArgs cnt).1)[48]? = some (Hack.Instr.c Hack.Dest.dNone Hack.Comp.zero Hack.Jump.jmp) ∧
    (Hack.code (MainPy.callAsm name nArgs cnt).1).length = 49 ∧
    (MainPy.callAsm name nArgs cnt).1[50]? = some (Hack.Instr.lab ("RETURN_" ++ Nat.repr cnt)) ∧
    (MainPy.writeCall name nArgs cnt).2 = cnt + 1 ∧
    (∀ c c' : Nat, "RETURN_" ++ Nat.repr c = "RETURN_" ++ Nat.repr c' → c = c') := by
  have hrun := callAsm_run name nArgs cnt env a0 d0 mem hs1 hs2 hn hr1 hr2 hr3 hr4
  refine ⟨?_, ?_, ?_, ?_, ?_, ?_, ?_, ?_, ?_, ?_, ?_, ?_, ?_, ?_, ?_, ?_⟩
  · rw [hrun]
  · rw [hrun]
    dsimp only
    rw [Hack.updMem_ne _ 1 (mem 0 + 5) 0 (by omega),
        Hack.updMem_ne _ 2 (mem 0 + 5 - (Nat.cast nArgs + 5)) 0 (by omega),
        Hack.updMem_same _ 0 (mem 0 + 5)]
  · rw [hrun]
    dsimp only
    rw [Hack.updMem_ne _ 1 (mem 0 + 5) (mem 0) (by omega),
        Hack.updMem_ne _ 2 (mem 0 + 5 - (Nat.cast nArgs + 5)) (mem 0) (by omega),
        Hack.updMem_ne _ 0 (mem 0 + 5) (mem 0) (by omega),
        Hack.updMem_ne _ (mem 0 + 4) (mem 4) (mem 0) (by omega),
        Hack.updMem_ne _ 0 (mem 0 + 4) (mem 0) (by omega),
        Hack.updMem_ne _ (mem 0 + 3) (mem 3) (mem 0) (by omega),
        Hack.updMem_ne _ 0 (mem 0 + 3) (mem 0) (by omega),
        Hack.updMem_ne _ (mem 0 + 2) (mem 2) (mem 0) (by omega),
        Hack.updMem_ne _ 0 (mem 0 + 2) (mem 0) (by omega),
        Hack.updMem_ne _ (mem 0 + 1) (mem 1) (mem 0) (by omega),
        Hack.updMem_ne _ 0 (mem 0 + 1) (mem 0) (by omega),
        Hack.updMem_same mem (mem 0) 49]
  · exact callAsm_labelIdx name nArgs cnt
  · rw [hrun]
    dsimp only
    rw [Hack.updMem_ne _ 1 (mem 0 + 5) (mem 0 + 1) (by omega),
        Hack.updMem_ne _ 2 (mem 0 + 5 - (Nat.cast nArgs + 5)) (mem 0 + 1) (by omega),
        Hack.updMem_ne _ 0 (mem 0 + 5) (mem 0 + 1) (by omega),
        Hack.updMem_ne _ (mem 0 + 4) (mem 4) (mem 0 + 1) (by omega),
        Hack.updMem_ne _ 0 (mem 0 + 4) (mem 0 + 1) (by omega),
        Hack.updMem_ne _ (mem 0 + 3) (mem 3) (mem 0 + 1) (by omega),
        Hack.updMem_ne _ 0 (mem 0 + 3) (mem 0 + 1) (by omega),
        Hack.updMem_ne _ (mem 0 + 2) (mem 2) (mem 0 + 1) (by omega),
        Hack.updMem_ne _ 0 (mem 0 + 2) (mem 0 + 1) (by omega),
        Hack.updMem_same _ (mem 0 + 1) (mem 1)]
  · rw [hrun]
    dsimp only
    rw [Hack.updMem_ne _ 1 (mem 0 + 5) (mem 0 + 2) (by omega),
        Hack.updMem_ne _ 2 (mem 0 + 5 - (Nat.cast nArgs + 5)) (mem 0 + 2) (by omega),
        Hack.updMem_ne _ 0 (mem 0 + 5) (mem 0 + 2) (by omega),
        Hack.updMem_ne _ (mem 0 + 4) (mem 4) (mem 0 + 2) (by omega),
        Hack.updMem_ne _ 0 (mem 0 + 4) (mem 0 + 2) (by omega),
        Hack.updMem_ne _ (mem 0 + 3) (mem 3) (mem 0 + 2) (by omega),
        Hack.updMem_ne _ 0 (mem 0 + 3) (mem 0 + 2) (by omega),
        Hack.updMem_same _ (mem 0 + 2) (mem 2)]
  · rw [hrun]
    dsimp only
    rw [Hack.updMem_ne _ 1 (mem 0 + 5) (mem 0 + 3) (by omega),
        Hack.updMem_ne _ 2 (mem 0 + 5 - (Nat.cast nArgs + 5)) (mem 0 + 3) (by omega),
        Hack.updMem_ne _ 0 (mem 0 + 5) (mem 0 + 3) (by omega),
        Hack.updMem_ne _ (mem 0 + 4) (mem 4) (mem 0 + 3) (by omega),
        Hack.updMem_ne _ 0 (mem 0 + 4) (mem 0 + 3) (by omega),
        Hack.updMem_same _ (mem 0 + 3) (mem 3)]
  · rw [hrun]
    dsimp only
    rw [Hack.updMem_ne _ 1 (mem 0 + 5) (mem 0 + 4) (by omega),
        Hack.updMem_ne _ 2 (mem 0 + 5 - (Nat.cast nArgs + 5)) (mem 0 + 4) (by omega),
        Hack.updMem_ne _ 0 (mem 0 + 5) (mem 0 + 4) (by omega),
        Hack.updMem_same _ (mem 0 + 4) (mem 4)]
  · rw [hrun]
    dsimp only
    rw [Hack.updMem_ne _ 1 (mem 0 + 5) 2 (by omega),
        Hack.updMem_same _ 2 (mem 0 + 5 - (Nat.cast nArgs + 5))]
  · rw [hrun]
    dsimp only
    rw [Hack.updMem_same _ 1 (mem 0 + 5)]
  · rfl
  · rfl
  · rfl
  · rfl
  · rfl
  · exact fun c c' h =>
      DecimalRepr.repr_injective c c' (str_append_left_cancel "RETURN_" (Nat.repr c) (Nat.repr c') h)

set_option maxRecDepth 8000 in
/-- Witness for C2: `call Sys.init 0` from SP = 256 with all saved
registers equal to 256 pushes the 5 cells, sets ARG = 256 and LCL = 261,
and stops at the jump to Sys.init. -/
theorem C2_writeCall_protocol_witness :
    (Hack.run (MainPy.callAsm "Sys.init" 0 0).1 (fun _ => 0) 47 (⟨0, 0, fun _ => (256 : Int), 0⟩ : Hack.Mach)).pc = 47 ∧
    (Hack.run (MainPy.callAsm "Sys.init" 0 0).1 (fun _ => 0) 47 (⟨0, 0, fun _ => (256 : Int), 0⟩ : Hack.Mach)).mem 0 = 256 + 5 ∧
    (Hack.run (MainPy.callAsm "Sys.init" 0 0).1 (fun _ => 0) 47 (⟨0, 0, fun _ => (256 : Int), 0⟩ : Hack.Mach)).mem 256 = 49 ∧
    Hack.labelIdx (MainPy.callAsm "Sys.init" 0 0).1 ("RETURN_" ++ Nat.repr 0) = some 49 ∧
    (Hack.run (MainPy.callAsm "Sys.init" 0 0).1 (fun _ => 0) 47 (⟨0, 0, fun _ => (256 : Int), 0⟩ : Hack.Mach)).mem (256 + 1) = 256 ∧
    (Hack.run (MainPy.callAsm "Sys.init" 0 0).1 (fun _ => 0) 47 (⟨0, 0, fun _ => (256 : Int), 0⟩ : Hack.Mach)).mem (256 + 2) = 256 ∧
    (Hack.run (MainPy.callAsm "Sys.init" 0 0).1 (fun _ => 0) 47 (⟨0, 0, fun _ => (256 : Int), 0⟩ : Hack.Mach)).mem (256 + 3) = 256 ∧
    (Hack.run (MainPy.callAsm "Sys.init" 0 0).1 (fun _ => 0) 47 (⟨0, 0, fun _ => (256 : Int), 0⟩ : Hack.Mach)).mem (256 + 4) = 256 ∧
    (Hack.run (MainPy.callAsm "Sys.init" 0 0).1 (fun _ => 0) 47 (⟨0, 0, fun _ => (256 : Int), 0⟩ : Hack.Mach)).mem 2 = 256 + 5 - ((0 : Int) + 5) ∧
    (Hack.run (MainPy.callAsm "Sys.init" 0 0).1 (fun _ => 0) 47 (⟨0, 0, fun _ => (256 : Int), 0⟩ : Hack.Mach)).mem 1 = 256 + 5 ∧
    (Hack.code (MainPy.callAsm "Sys.init" 0 0).1)[47]? = some (Hack.Instr.sym "Sys.init") ∧
    (Hack.code (MainPy.callAsm "Sys.init" 0 0).1)[48]? = some (Hack.Instr.c Hack.Dest.dNone Hack.Comp.zero Hack.Jump.jmp) ∧
    (Hack.code (MainPy.callAsm "Sys.init" 0 0).1).length = 49 ∧
    (MainPy.callAsm "Sys.init" 0 0).1[50]? = some (Hack.Instr.lab ("RETURN_" ++ Nat.repr 0)) ∧
    (MainPy.writeCall "Sys.init" 0 0).2 = 0 + 1 ∧
    (∀ c c' : Nat, "RETURN_" ++ Nat.repr c = "RETURN_" ++ Nat.repr c' → c = c') :=
  C2_writeCall_protocol "Sys.init" 0 0 (fun _ => 0) 0 0 (fun _ => (256 : Int))
    (by decide) (by decide) (by decide) (by decide) (by decide) (by decide) (by decide)
